import Mathlib

/-!
# dom-event-tracker: a shallow embedding of `src/components/EventTracker.js`

The tracker object, the module-level state of `EventTracker.js` and the part of
the host page the tracker touches (listener registry, the global listener
entry points, inline handler properties, the output sink) are one record,
`World`.  Every method of the class is a function on that record; a method
that receives an event also returns the event, whose flags it may change.
JavaScript exceptions are explicit: a run returns the world reached together
with the error raised, if any.
-/

namespace DomEventTracker

/-! ## Strings -/

/-- The JavaScript `s.toLowerCase()` on ASCII text: the letters `A` to `Z` are
lowered, every other character is left as it is.  (The method also lowers
letters outside ASCII; tag names, keywords and the texts matched against
them here are taken to be ASCII.) -/
def toLowerCase (s : String) : String := String.mk (s.data.map Char.toLower)

/-- The JavaScript `s.startsWith(p)`. -/
def startsWith (s p : String) : Bool := p.data.isPrefixOf s.data

/-- The JavaScript `s.substring(n)`. -/
def substring (s : String) (n : Nat) : String := String.mk (s.data.drop n)

/-- Whether `p` occurs in `s` as a contiguous run, on character lists. -/
def isInfix (p : List Char) : List Char → Bool
  | [] => p.isEmpty
  | c :: cs => p.isPrefixOf (c :: cs) || isInfix p cs

/-- The JavaScript `s.includes(p)`. -/
def includes (s p : String) : Bool := isInfix p.data s.data

/-- Case-insensitive `includes`, the test of one alternative of a `/.../i` pattern. -/
def includesCI (s p : String) : Bool := includes (toLowerCase s) (toLowerCase p)

/-! ## Host DOM -/

/-- An element as the tracker reads it: identity, `tagName` (upper case in an
HTML document), `id`, `className`, `classList` and the attribute list. -/
structure ElemInfo where
  uid : Nat
  tagName : String
  id : String
  className : String
  classList : List String
  attrs : List (String × String)
  deriving DecidableEq, Repr

/-- An element with its subtree: `texts` are the identities of its child nodes
that are not elements (text, comment), `children` its element children. -/
inductive Elem where
  | mk (info : ElemInfo) (texts : List Nat) (children : List Elem)
  deriving Repr

/-- Any DOM node that can be an event target or the receiver of a listener
call: an element, or a node of another `nodeType` (3 text, 8 comment,
9 document), which has neither `tagName` nor `classList`. -/
inductive NodeRef where
  | elem (e : ElemInfo)
  | other (uid : Nat) (nodeType : Nat)
  deriving DecidableEq, Repr

/-- An event target as the listener registry and the dispatch path name it. -/
inductive TargetRef where
  | window
  | document
  | node (uid : Nat)
  deriving DecidableEq, Repr

namespace Elem

/-- The element itself, without its subtree. -/
def info : Elem → ElemInfo
  | mk i _ _ => i

/-- Identity of the element. -/
def uid (e : Elem) : Nat := e.info.uid

/-- The JavaScript `element.children`. -/
def children : Elem → List Elem
  | mk _ _ cs => cs

mutual
/-- The host's `root.contains(other)`: `other` is the element itself or a node
anywhere in its subtree. -/
def containsUid (e : Elem) (other : Nat) : Bool :=
  match e with
  | mk i ts cs => i.uid == other || ts.contains other || containsUidList cs other
/-- Membership of `other` in the subtrees of a list of siblings. -/
def containsUidList (es : List Elem) (other : Nat) : Bool :=
  match es with
  | [] => false
  | c :: cs => containsUid c other || containsUidList cs other
end

mutual
/-- The host's `root.querySelectorAll('*')`: every element below the root, in
document order. -/
def querySelectorAll (e : Elem) : List ElemInfo :=
  match e with
  | mk _ _ cs => querySelectorAllList cs
/-- Document-order listing of a list of siblings and what is below them. -/
def querySelectorAllList (es : List Elem) : List ElemInfo :=
  match es with
  | [] => []
  | c :: cs => c.info :: (querySelectorAll c ++ querySelectorAllList cs)
end

end Elem

namespace NodeRef

/-- Identity of the node. -/
def uid : NodeRef → Nat
  | elem e => e.uid
  | other u _ => u

/-- The node seen as a target of the listener registry. -/
def toTargetRef (n : NodeRef) : TargetRef := .node n.uid

end NodeRef

/-! ## Events -/

/-- A DOM event as the tracker reads and changes it.  `type` is absent on the
bare object `{ target: node }` that the mutation batch handler passes to
`shouldTrackEvent`.  `path` is the legacy `event.path` property and
`composedPath` the result of `event.composedPath()`, each absent when the host
does not expose it.  `closestChain` is the target followed by its ancestor
elements, nearest first: what `event.target.closest(...)` searches.
`stopPropagationCalls` and `preventDefaultCalls` count the calls made on the
event; `cancelBubble` is the stop-propagation flag. -/
structure Event where
  type : Option String
  target : Option NodeRef
  path : Option (List TargetRef)
  composedPath : Option (List TargetRef)
  closestChain : List ElemInfo
  bubbles : Bool
  cancelable : Bool
  cancelBubble : Bool
  defaultPrevented : Bool
  stopPropagationCalls : Nat
  preventDefaultCalls : Nat
  inlineTrackerChain : Option (List String)
  oldURL : Option String
  newURL : Option String
  state : Bool
  persisted : Bool
  formFieldCount : Nat
  formHasFile : Bool
  deriving DecidableEq, Repr

namespace Event

/-- The host's `event.stopPropagation()`. -/
def stopPropagation (e : Event) : Event :=
  { e with cancelBubble := true, stopPropagationCalls := e.stopPropagationCalls + 1 }

/-- The host's `event.preventDefault()`: the flag is set on a cancelable event. -/
def preventDefault (e : Event) : Event :=
  { e with defaultPrevented := e.defaultPrevented || e.cancelable,
           preventDefaultCalls := e.preventDefaultCalls + 1 }

end Event

/-! ## Selection -/

/-- The `selectedEventTypes` object: own keys in insertion order, with their values. -/
abbrev Selection := List (String × Bool)

/-- The property names a plain object inherits from `Object.prototype`.  Read
through a plain object, each gives a function (or, for `__proto__`, the
prototype object), which is truthy. -/
def objectPrototypeNames : List String :=
  ["constructor", "__defineGetter__", "__defineSetter__", "hasOwnProperty",
   "__lookupGetter__", "__lookupSetter__", "isPrototypeOf", "propertyIsEnumerable",
   "toString", "valueOf", "__proto__", "toLocaleString"]

/-- Truthiness of `selectedEventTypes[type]` on a plain object: the value of
the own key when there is one; otherwise the lookup goes to `Object.prototype`,
which answers with a truthy value for each of its property names and with
`undefined` for every other name. -/
def selected (sel : Selection) (type : String) : Bool :=
  match sel.find? (fun kv => kv.1 == type) with
  | some kv => kv.2
  | none => objectPrototypeNames.contains type

/-- Truthiness of `selectedEventTypes[event.type]`; an absent type is the
value `undefined`, which as a property key is the string `undefined`. -/
def selectedOpt (sel : Selection) : Option String → Bool
  | some t => selected sel t
  | none => selected sel "undefined"

/-- The class method `getActiveEventTypes`: the keys whose value is truthy. -/
def getActiveEventTypes (sel : Selection) : List String :=
  (sel.map (fun kv => kv.1)).filter (fun t => selected sel t)

/-! ## Function values -/

/-- A function of the page, identified by `fid`.  When called it may call
`preventDefault` and `stopPropagation` on the event, and then either returns
`result` or raises its own exception. -/
structure UserFn where
  fid : Nat
  callsPreventDefault : Bool
  callsStopPropagation : Bool
  throws : Bool
  result : Nat
  deriving DecidableEq, Repr

/-- A function value that can sit in an inline handler property: a function of
the page, the arrow function that `monitorInlineEventHandlers` installs on
`element` (it closes over the element and over `elementHandlers[handlerName]`,
here `orig`), or the `proxyHandler` the patched setter builds around the
assigned function. -/
inductive Fn where
  | user (f : UserFn)
  | inlineWrapper (element : ElemInfo) (handlerName : String) (orig : Fn)
  | proxyHandler (prop : String) (orig : Fn)
  deriving DecidableEq, Repr

/-- A JavaScript value read from or assigned to an inline handler property. -/
inductive JsValue where
  | null
  | fn (f : Fn)
  | other (truthy : Bool)
  deriving DecidableEq, Repr

/-- A listener as the registry identifies it: one of the tracker's bound
handlers (created once in the constructor), the closure `handleModalEvent`
that each run of `monitorBootstrapModals` creates anew, or a function of the
page. -/
inductive Callback where
  | capture
  | bubble
  | clickWithDetails
  | formSubmit
  | mouseMove
  | navigation
  | bootstrapModal (serial : Nat)
  | page (fid : Nat)
  deriving DecidableEq, Repr

/-- The third argument of `addEventListener` / `removeEventListener`. -/
inductive Options where
  | undefined
  | null
  | bool (b : Bool)
  | object (capture once passive : Bool)
  deriving DecidableEq, Repr

/-- The capture flag the host derives from the options. -/
def Options.captureFlag : Options → Bool
  | .bool b => b
  | .object c _ _ => c
  | _ => false

/-- One entry of the host's listener registry. -/
structure Registration where
  target : TargetRef
  type : String
  callback : Callback
  capture : Bool
  deriving DecidableEq, Repr

/-- The function found at `EventTarget.prototype.addEventListener` (or
`removeEventListener`): the reference captured at module load, or a wrapper
installed by `interceptEventTargetMethods`, with the function it calls last. -/
inductive EntryPoint where
  | original
  | wrapper (delegate : EntryPoint)
  deriving DecidableEq, Repr

/-- An entry point of a third-party library: its own function, or a wrapper a
framework adapter put around what was installed. -/
inductive LibFn where
  | original
  | wrapped (inner : LibFn)
  deriving DecidableEq, Repr

/-- An exception: a `TypeError` of the host, or the exception of a page function. -/
inductive JsError where
  | typeError (what : String)
  | userError (fid : Nat)
  deriving DecidableEq, Repr

/-! ## Log entries -/

/-- The six categories of `logLevels`. -/
inductive Level where
  | event | info | action | popup | navigation | stack
  deriving DecidableEq, Repr

/-- The `logLevels` object. -/
structure LogLevels where
  event : Bool
  info : Bool
  action : Bool
  popup : Bool
  navigation : Bool
  stack : Bool
  deriving DecidableEq, Repr

/-- The lookup `logLevels[level]`. -/
def LogLevels.get (l : LogLevels) : Level → Bool
  | .event => l.event
  | .info => l.info
  | .action => l.action
  | .popup => l.popup
  | .navigation => l.navigation
  | .stack => l.stack

/-- How the listener wrappers print the options argument. -/
inductive OptsText where
  | flags (capture once passive : Bool)
  | captureOnly (capture : Bool)
  | capturePhase
  | bubblePhase
  deriving DecidableEq, Repr

/-- The messages passed to `addLog`, one constructor per template string of the
source, with the interpolated values as arguments. -/
inductive Msg where
  | activeListenersSet
  | trackingStarted (selector : String)
  | trackingTypes (types : List String)
  | interceptionEnabled
  | trackingStopped
  | entryPointsRestored
  | entryPointsIntercepted
  | listenerAdded (type : String) (elementInfo : String) (opts : OptsText)
  | listenerStack (stack : String)
  | listenerRemoved (type : String) (elementInfo : String) (opts : OptsText)
  | listenerRemoveError (err : JsError)
  | domProxiesApplied
  | domProxiesRestored
  | inlinePropertySet (selector : String) (prop : String)
  | inlineTriggered (prop : String) (selector : String)
  | preventedDefault (prop : String)
  | stoppedBubbling (prop : String)
  | stackText (stack : String)
  | mutationObserverStarted
  | popupTriggerClicked (selector : String)
  | relatedAttributes (attrs : List (String × String))
  | anchorIntercepted (href : String)
  | externalLinkIntercepted (href : String)
  | relativeLinkIntercepted (href : String)
  | onclickMayOpenPopup (onclick : String)
  | linkBehaviour (actionType : String) (href : String) (target rel : Option String) (hasOnclick : Bool)
  | imageClicked (selector : String)
  | imageParentMayOpenPopup (selector : String)
  | imageInGallery
  | formSubmit (action method : String) (inputCount : Nat) (hasFiles : Bool)
  | navigation (type : Option String) (details : String)
  | frameworksDetected (names : List String)
  | bootstrapModalEvent (type : String) (selector : String)
  | bootstrapMonitorAdded
  | jQueryMonitorAdded
  | sweetAlertMonitorAdded
  | fancyboxMonitorAdded
  | lightboxMonitorAdded
  | popupDetected (selector : String)
  | popupInlineStyle (style : String)
  | popupAttributes (attrs : List (String × String))
  | jQueryModalCall (options : String) (selector : String)
  deriving DecidableEq, Repr

/-- The record `eventInfo` that `logEvent` pushes on `trackedEvents`. -/
structure EventInfo where
  type : Option String
  phase : String
  target : String
  timestamp : Nat
  stack : String
  deriving DecidableEq, Repr

/-- A node appended to the output sink: by `addLog` (with the stack panel it
adds to an inline-trigger message) or by `renderEventLog`. -/
inductive LogNode where
  | log (level : Level) (msg : Msg) (stack : Option String)
  | event (info : EventInfo)
  deriving DecidableEq, Repr

/-- A callback handed to `setTimeout`, with its delay; the model records it and
does not run it. -/
inductive TimerTask where
  | checkDomAfterClick
  | reportDefaultPrevented (isModified : Bool)
  | reportSubmitPrevented
  deriving DecidableEq, Repr

/-! ## The page and the world -/

/-- The global `window.jQuery`: whether `jQuery.ui` is defined, and the
members `modal`, `dialog`, `popup` of `jQuery.fn`, each possibly absent. -/
structure JQuery where
  hasUi : Bool
  modal : Option LibFn
  dialog : Option LibFn
  popup : Option LibFn
  deriving DecidableEq, Repr

/-- The global `window.lightbox`: whether it has an `option` member, and its
`showImage` and `show` members. -/
structure Lightbox where
  hasOption : Bool
  showImage : Option LibFn
  showFn : Option LibFn
  deriving DecidableEq, Repr

/-- What `detectUIFrameworks` probes: globals, and for each selector probe
whether `document.querySelector` finds an element.  `dollar` is `window.$`
(absent, or an object whose `fancybox` member may be undefined). -/
structure Page where
  bootstrapGlobal : Bool
  bootstrapMarkup : Bool
  jQuery : Option JQuery
  elementUiMarkup : Bool
  antDesignMarkup : Bool
  vuetifyMarkup : Bool
  materialUiMarkup : Bool
  swal : Option LibFn
  swalMarkup : Bool
  fancyboxMarkup : Bool
  dollar : Option (Option LibFn)
  featherlightMarkup : Bool
  lightbox : Option Lightbox
  lightboxMarkup : Bool
  deriving DecidableEq, Repr

/-- The properties of `window.getComputedStyle(element)` the popup heuristic
reads. -/
structure ComputedStyle where
  position : String
  zIndex : String
  display : String
  visibility : String
  deriving DecidableEq, Repr

/-- The parts of `window.location` the click analyzer reads. -/
structure Location where
  href : String
  origin : String
  pathname : String
  deriving DecidableEq, Repr

/-- The tracker instance (first group of fields, named as in the constructor),
the module-level state of `EventTracker.js` (`originalMethods`,
`proxiedElements`) and the host state the tracker reads or writes.

* `outputElement`: the children of the output sink, absent when there is no sink.
* `mutationObserver`: whether an observer exists and is connected.
* `originalEventHandlers`: the WeakMap element -> object of saved handlers.
* `trackedHandlers`: the keys of the WeakMap of recorded listeners.
* `mouseMoveLastCall`: the variable `lastCall` of the closure that `throttle`
  returned for `boundHandleMouseMove`.
* `originalMethods`: the keys of the module-level map property name ->
  original descriptor; the descriptor is the native accessor.
* `listeners`: the host's listener registry.
* `addEventListener`, `removeEventListener`: the functions now installed on
  `EventTarget.prototype`.
* `handlerSlot`: the event handler the host holds for (element, property),
  which the native accessor reads and writes and which dispatch calls.
* `ownAccessor`: the (element, property) pairs on which the tracker's
  accessor pair is defined; `backing`: the fields named `__prop__`.
* `protoProps`: the property names found on the prototype chain of an element.
* `stackTrace`: the text `getStackTrace()` returns in this host state.
* `now`: the clock, `Date.now()`.
* `timers`: callbacks handed to `setTimeout`, with their delay.
* `calls`: calls of page functions so far, as (fid, receiver).
* `received`: deliveries of an event to listeners of the page.
* `openedTabs`: the URLs passed to `window.open`.
* `uncaught`: exceptions of listeners, which the host reports during a
  dispatch without interrupting it.
* `styles`: the computed style of the elements that have one other than the
  initial values. -/
structure World where
  targetElement : Option Elem
  outputElement : Option (List LogNode)
  trackedEvents : List EventInfo
  isTracking : Bool
  preserveLogs : Bool
  mutationObserver : Bool
  selectedEventTypes : Selection
  originalEventHandlers : List (Nat × List (String × Fn))
  lastDetectedPopups : List String
  hasInterceptedEventTarget : Bool
  trackedHandlers : List Callback
  logLevels : LogLevels
  showStackForInlineEvents : Bool
  mouseMoveLastCall : Nat
  originalMethods : List String
  proxiedElements : List Nat
  listeners : List Registration
  addEventListener : EntryPoint
  removeEventListener : EntryPoint
  handlerSlot : List ((Nat × String) × Fn)
  ownAccessor : List (Nat × String)
  backing : List ((Nat × String) × JsValue)
  protoProps : List String
  stackTrace : String
  now : Nat
  page : Page
  closureSerial : Nat
  timers : List (Nat × TimerTask)
  calls : List (Nat × Nat)
  received : List (TargetRef × Nat)
  openedTabs : List String
  location : Location
  uncaught : List JsError
  styles : List (Nat × ComputedStyle)

/-- The outcome of running a method: the world reached and the exception
raised, if any. -/
structure Run where
  world : World
  thrown : Option JsError

/-- The outcome of running a handler on an event. -/
structure HandlerRun where
  world : World
  event : Event
  thrown : Option JsError

/-- Sequencing of two runs: the second is skipped when the first raised. -/
def Run.andThen (r : Run) (f : World → Run) : Run :=
  match r.thrown with
  | none => f r.world
  | some _ => r

/-- The instance field `inlineEventsToMonitor`, set in the constructor and
never changed. -/
def inlineEventsToMonitor : List String :=
  ["click", "mousedown", "mouseup", "keydown", "keyup", "submit", "change"]

/-! ## Logging -/

/-- The class method `getStackTrace`, read from the host state. -/
def getStackTrace (w : World) : String := w.stackTrace

/-- Whether a message is one the test
`message.includes('内联事件') && message.includes('被触发')` of `addLog` accepts:
the inline-trigger template is the only one whose fixed text holds both.  (The
test runs on the final text, so a message of another template would pass it
if the values put into it, such as a selector or a URL, held both texts; such
values are taken not to occur.) -/
def Msg.isInlineTrigger : Msg → Bool
  | .inlineTriggered _ _ => true
  | _ => false

/-- The stack panel `addLog` attaches to a message: present when the message
is an inline trigger at level `info`, stacks are shown for inline events, the
stack text is not empty and the `stack` category is enabled. -/
def addLogStack (w : World) (level : Level) (msg : Msg) : Option String :=
  if level == Level.info && msg.isInlineTrigger && w.showStackForInlineEvents
      && (getStackTrace w != "") && w.logLevels.stack
  then some (getStackTrace w) else none

/-- The class method `addLog`: nothing when the category is disabled or there
is no sink; otherwise exactly one node is appended to the sink. -/
def addLog (w : World) (level : Level) (msg : Msg) : World :=
  if w.logLevels.get level then
    match w.outputElement with
    | none => w
    | some sink =>
      { w with outputElement := some (sink ++ [LogNode.log level msg (addLogStack w level msg)]) }
  else w

/-- The class method `clearLogs`. -/
def clearLogs (w : World) : World :=
  { w with outputElement := w.outputElement.map (fun _ => []), trackedEvents := [] }

/-- The selector text `getElementSelector` builds for an element: the
lower-cased tag, `#id` when the id is not empty and one `.class` for each
class that does not start with `event-tracker-`. -/
def selectorOf (e : ElemInfo) : String :=
  toLowerCase e.tagName ++ (if e.id = "" then "" else "#" ++ e.id)
    ++ String.join ((e.classList.filter (fun c => !startsWith c "event-tracker-")).map
        (fun c => "." ++ c))

/-- The class method `getElementSelector`: `'unknown'` for a missing element;
for an element the lower-cased tag, `#id` when the id is not empty and one
`.class` for each class that does not start with `event-tracker-`; a
`TypeError` for a node without `tagName`. -/
def getElementSelector : Option NodeRef → Except JsError String
  | none => .ok "unknown"
  | some (.other _ _) => .error (.typeError "element.tagName is undefined")
  | some (.elem e) => .ok (selectorOf e)

/-- The class method `renderEventLog`, as far as the sink is concerned: one
node for the entry when there is a sink.  The click listeners it attaches to
the nodes it has just created are on detached nodes outside the tracked root,
for which the listener wrappers record nothing. -/
def renderEventLog (w : World) (info : EventInfo) : World :=
  match w.outputElement with
  | none => w
  | some sink => { w with outputElement := some (sink ++ [LogNode.event info]) }

/-- The class method `logEvent`. -/
def logEvent (w : World) (event : Event) (phase : String) (stack : String) : Run :=
  if !w.logLevels.event then ⟨w, none⟩
  else match getElementSelector event.target with
    | .error err => ⟨w, some err⟩
    | .ok sel =>
      let eventInfo : EventInfo :=
        { type := event.type, phase := phase, target := sel, timestamp := w.now, stack := stack }
      ⟨renderEventLog { w with trackedEvents := w.trackedEvents ++ [eventInfo] } eventInfo, none⟩

/-! ## Selection filter -/

/-- The class method `isTargetInPath`, for tracked root `root`: `event.path`
when it exists, else `event.composedPath()` when it exists, else false. -/
def isTargetInPath (root : Elem) (event : Event) : Bool :=
  match event.path with
  | some p => p.contains (TargetRef.node root.uid)
  | none =>
    match event.composedPath with
    | some p => p.contains (TargetRef.node root.uid)
    | none => false

/-- The comparison `event.target === root`. -/
def targetIs (root : Elem) (event : Event) : Bool :=
  match event.target with
  | some n => n.uid == root.uid
  | none => false

/-- The call `root.contains(event.target)`; false for a null target. -/
def targetWithin (root : Elem) (event : Event) : Bool :=
  match event.target with
  | some n => root.containsUid n.uid
  | none => false

/-- The class method `shouldTrackEvent`. -/
def shouldTrackEvent (w : World) (event : Event) : Bool :=
  match w.targetElement with
  | none => false
  | some root =>
    if !selectedOpt w.selectedEventTypes event.type then false
    else targetIs root event || targetWithin root event || isTargetInPath root event

/-- The dispatch path the host exposes: `event.path`, else `event.composedPath()`. -/
def Event.dispatchPath (event : Event) : Option (List TargetRef) :=
  match event.path with
  | some p => some p
  | none => event.composedPath

/-! ## Document-level handlers -/

/-- The class method `handleCaptureEvent`: for an in-scope event, log it with
phase `capture`, then stop its propagation. -/
def handleCaptureEvent (w : World) (event : Event) : HandlerRun :=
  if shouldTrackEvent w event then
    match logEvent w event "capture" (getStackTrace w) with
    | ⟨w1, some err⟩ => ⟨w1, event, some err⟩
    | ⟨w1, none⟩ => ⟨w1, event.stopPropagation, none⟩
  else ⟨w, event, none⟩

/-- The class method `handleBubbleEvent`: for an in-scope event, log it with
phase `bubble`, then stop its propagation. -/
def handleBubbleEvent (w : World) (event : Event) : HandlerRun :=
  if shouldTrackEvent w event then
    match logEvent w event "bubble" (getStackTrace w) with
    | ⟨w1, some err⟩ => ⟨w1, event, some err⟩
    | ⟨w1, none⟩ => ⟨w1, event.stopPropagation, none⟩
  else ⟨w, event, none⟩

/-- The class method `handleMouseMove`. -/
def handleMouseMove (w : World) (event : Event) : HandlerRun :=
  if shouldTrackEvent w event then ⟨w, event.stopPropagation, none⟩ else ⟨w, event, none⟩

/-- The test of the function `throttle` returns: `now - lastCall >= delay`. -/
def throttlePasses (delay : Int) (lastCall now : Nat) : Bool :=
  decide ((now : Int) - (lastCall : Int) ≥ delay)

/-- The bound handler `boundHandleMouseMove`, which is `throttle(handleMouseMove, 100)`:
the call is passed on, and `lastCall` set to the clock, when at least 100 ms
have passed since `lastCall`. -/
def boundHandleMouseMove (w : World) (event : Event) : HandlerRun :=
  if throttlePasses 100 w.mouseMoveLastCall w.now then
    handleMouseMove { w with mouseMoveLastCall := w.now } event
  else ⟨w, event, none⟩

/-- The host's `element.getAttribute(name)`. -/
def getAttribute (e : ElemInfo) (name : String) : Option String :=
  (e.attrs.find? (fun kv => kv.1 == name)).map (fun kv => kv.2)

/-- The host's `element.hasAttribute(name)`. -/
def hasAttribute (e : ElemInfo) (name : String) : Bool :=
  e.attrs.any (fun kv => kv.1 == name)

/-- The JavaScript `value || fallback` on an attribute value: the fallback
replaces `null` and the empty string. -/
def orElse (v : Option String) (fallback : String) : String :=
  match v with
  | some s => if s = "" then fallback else s
  | none => fallback

/-- Truthiness of an attribute value. -/
def truthy (v : Option String) : Bool :=
  match v with
  | some s => s != ""
  | none => false

/-- The host's `setTimeout(task, delay)`: the callback is recorded. -/
def setTimeout (w : World) (delay : Nat) (task : TimerTask) : World :=
  { w with timers := w.timers ++ [(delay, task)] }

/-- The class method `handleFormSubmit`. -/
def handleFormSubmit (w : World) (event : Event) : HandlerRun :=
  if !shouldTrackEvent w event then ⟨w, event, none⟩
  else match event.target with
    | some (.elem form) =>
      let w1 := addLog w Level.action
        (Msg.formSubmit (orElse (getAttribute form "action") "当前页面")
          (orElse (getAttribute form "method") "GET") event.formFieldCount event.formHasFile)
      ⟨setTimeout w1 0 TimerTask.reportSubmitPrevented, event.stopPropagation, none⟩
    | _ => ⟨w, event.stopPropagation, some (.typeError "form.getAttribute is not a function")⟩

/-- Splitting a character list at every occurrence of `c`. -/
def splitOn (c : Char) : List Char → List (List Char)
  | [] => [[]]
  | x :: xs =>
    if x = c then [] :: splitOn c xs
    else match splitOn c xs with
      | [] => [[x]]
      | h :: t => (x :: h) :: t

/-- The JavaScript `url.split('#')[n] || ''`. -/
def splitHash (url : String) (n : Nat) : String :=
  String.mk ((splitOn '#' url.data).getD n [])

/-- The text `details` that `handleNavigationEvent` computes. -/
def navigationDetails (event : Event) : String :=
  match event.type with
  | some "hashchange" =>
    if truthy event.oldURL && truthy event.newURL then
      "从 #" ++ splitHash (event.oldURL.getD "") 1 ++ " 变更到 #" ++ splitHash (event.newURL.getD "") 1
    else ""
  | some "popstate" => if event.state then "有状态数据" else "无状态数据"
  | some "pageshow" => if event.persisted then "从缓存恢复" else "页面首次加载"
  | some "pagehide" => if event.persisted then "页面进入缓存" else "页面被卸载"
  | _ => ""

/-- The class method `handleNavigationEvent`: one `navigation` message, and no
call on the event. -/
def handleNavigationEvent (w : World) (event : Event) : HandlerRun :=
  ⟨addLog w Level.navigation (Msg.navigation event.type (navigationDetails event)), event, none⟩

/-! ## The click analyzer -/

/-- The host's `element.closest(selector)` on the chain of the element and its
ancestors, for a selector given as a test on one element. -/
def closest (chain : List ElemInfo) (sel : ElemInfo → Bool) : Option ElemInfo :=
  chain.find? sel

/-- Whether an element matches a type selector such as `a` or `img`. -/
def hasTag (tag : String) (e : ElemInfo) : Bool := toLowerCase e.tagName == tag

/-- Whether an element matches a class selector such as `.btn`. -/
def hasClass (cls : String) (e : ElemInfo) : Bool := e.classList.contains cls

/-- The selector `.event-tracker-panel, .event-tracker-float-ball, .event-tracker-selector`. -/
def isTrackerUi (e : ElemInfo) : Bool :=
  hasClass "event-tracker-panel" e || hasClass "event-tracker-float-ball" e
    || hasClass "event-tracker-selector" e

/-- The class method `isEventTrackerElement`; a node that is not an element
has no `closest` method. -/
def isEventTrackerElement (target : Option NodeRef) (chain : List ElemInfo) :
    Except JsError Bool :=
  match target with
  | none => .ok false
  | some (.other _ _) => .error (.typeError "element.closest is not a function")
  | some (.elem e) =>
    if e.classList.any (fun c => startsWith c "event-tracker-") then .ok true
    else .ok (closest chain isTrackerUi).isSome

/-- The selector
`a, button, [role="button"], input[type="button"], input[type="submit"], .btn`.
In an HTML document the value of the `type` attribute is matched without
regard to case, the value of `role` as written. -/
def isInteractive (e : ElemInfo) : Bool :=
  hasTag "a" e || hasTag "button" e || getAttribute e "role" == some "button"
    || (hasTag "input" e && (getAttribute e "type").map toLowerCase == some "button")
    || (hasTag "input" e && (getAttribute e "type").map toLowerCase == some "submit")
    || hasClass "btn" e

/-- The pattern `/modal|popup|dialog|lightbox|toggle|dropdown/i`. -/
def popupIndicators (s : String) : Bool :=
  ["modal", "popup", "dialog", "lightbox", "toggle", "dropdown"].any (fun k => includesCI s k)

/-- The pattern `/show|open|toggle|pop|modal|alert|confirm|prompt/i`. -/
def onclickIndicators (s : String) : Bool :=
  ["show", "open", "toggle", "pop", "modal", "alert", "confirm", "prompt"].any
    (fun k => includesCI s k)

/-- The pattern `/product|gallery|preview|thumbnail/i`. -/
def galleryIndicators (s : String) : Bool :=
  ["product", "gallery", "preview", "thumbnail"].any (fun k => includesCI s k)

/-- First part of the analyzer body: the element found by
`closest('a, button, ...')` is reported when its class or attributes hint at a
popup. -/
def analyzeInteractive (w : World) (chain : List ElemInfo) : World :=
  match closest chain isInteractive with
  | none => w
  | some el =>
    if popupIndicators el.className || hasAttribute el "data-toggle"
        || hasAttribute el "data-target" || hasAttribute el "data-modal"
        || hasAttribute el "aria-haspopup" then
      let w1 := addLog w Level.info (Msg.popupTriggerClicked (selectorOf el))
      let w2 := if el.attrs.isEmpty then w1 else addLog w1 Level.info (Msg.relatedAttributes el.attrs)
      setTimeout w2 100 TimerTask.checkDomAfterClick
    else w

/-- The host's `window.open(url, '_blank')`. -/
def windowOpen (w : World) (url : String) : World :=
  { w with openedTabs := w.openedTabs ++ [url] }

/-- The directory of the current path:
`pathname.substring(0, pathname.lastIndexOf('/') + 1)`. -/
def pathDirectory (pathname : String) : String :=
  String.mk ((pathname.data.reverse.dropWhile (fun c => c != '/')).reverse)

/-- The classification of a link: the label `actionType` and, when the click is
redirected to a new tab, the URL opened and the message logged. -/
def classifyLink (loc : Location) (href : String) (notBlank : Bool) :
    String × Option (String × Msg) :=
  if startsWith href "#" then
    ("页内锚点", if notBlank then some (splitHash loc.href 0 ++ href, Msg.anchorIntercepted href)
      else none)
  else if startsWith href "javascript:" then ("JavaScript脚本", none)
  else if startsWith href "mailto:" then ("邮件链接", none)
  else if startsWith href "tel:" then ("电话链接", none)
  else if startsWith href "http" || startsWith href "//" then
    ("外部链接", if notBlank then some (href, Msg.externalLinkIntercepted href) else none)
  else
    ("相对路径链接",
      if notBlank then
        some (if startsWith href "/" then loc.origin ++ href
              else loc.origin ++ pathDirectory loc.pathname ++ href,
          Msg.relativeLinkIntercepted href)
      else none)

/-- Second part of the analyzer body: the link found by `closest('a')`. -/
def analyzeLink (w : World) (event : Event) : World × Event :=
  match closest event.closestChain (hasTag "a") with
  | none => (w, event)
  | some link =>
    match getAttribute link "href" with
    | none => (w, event)
    | some href =>
      if href = "" then (w, event)
      else
        let target := getAttribute link "target"
        let cls := classifyLink w.location href (!(truthy target) || target != some "_blank")
        let isModified := cls.2.isSome
        let step1 : World × Event :=
          match cls.2 with
          | some (url, msg) => (addLog (windowOpen w url) Level.action msg, event.preventDefault)
          | none => (w, event)
        let onclick := getAttribute link "onclick"
        let w2 :=
          if truthy onclick && onclickIndicators (onclick.getD "") then
            addLog step1.1 Level.info (Msg.onclickMayOpenPopup (onclick.getD ""))
          else step1.1
        let w3 :=
          if isModified then w2
          else addLog w2 Level.action
            (Msg.linkBehaviour cls.1 href (if truthy target then target else none)
              (if truthy (getAttribute link "rel") then getAttribute link "rel" else none)
              (truthy onclick))
        (setTimeout w3 0 (TimerTask.reportDefaultPrevented isModified), step1.2)

/-- The selector `[onclick], [data-toggle], [data-lightbox], [data-fancybox]`. -/
def hasPopupHandlerAttr (e : ElemInfo) : Bool :=
  hasAttribute e "onclick" || hasAttribute e "data-toggle" || hasAttribute e "data-lightbox"
    || hasAttribute e "data-fancybox"

/-- The selector `.product, .gallery, .carousel, .slideshow`. -/
def isGalleryContainer (e : ElemInfo) : Bool :=
  hasClass "product" e || hasClass "gallery" e || hasClass "carousel" e || hasClass "slideshow" e

/-- Third part of the analyzer body: a click on an image. -/
def analyzeImage (w : World) (chain : List ElemInfo) : World :=
  match closest chain (hasTag "img") with
  | none => w
  | some img =>
    let fromImg := chain.dropWhile (fun e => e.uid != img.uid)
    let w1 := addLog w Level.info (Msg.imageClicked (selectorOf img))
    let w2 :=
      match closest fromImg hasPopupHandlerAttr with
      | some par => addLog w1 Level.info (Msg.imageParentMayOpenPopup (selectorOf par))
      | none => w1
    if galleryIndicators img.className || (closest fromImg isGalleryContainer).isSome then
      addLog w2 Level.info Msg.imageInGallery
    else w2

/-- The class method `handleClickWithDetails`: nothing for a click inside the
tracker's own UI or out of scope; otherwise the propagation is stopped and the
three parts of the analysis run. -/
def handleClickWithDetails (w : World) (event : Event) : HandlerRun :=
  match isEventTrackerElement event.target event.closestChain with
  | .error err => ⟨w, event, some err⟩
  | .ok true => ⟨w, event, none⟩
  | .ok false =>
    if !shouldTrackEvent w event then ⟨w, event, none⟩
    else match event.target with
      | none => ⟨w, event.stopPropagation, some (.typeError "clickedElement is null")⟩
      | some _ =>
        let w1 := analyzeInteractive w event.closestChain
        let r := analyzeLink w1 event.stopPropagation
        ⟨analyzeImage r.1 event.closestChain, r.2, none⟩

/-! ## Inline handler properties -/

/-- Setting a key of an association list, replacing an earlier entry. -/
def setKey {κ ν : Type} [BEq κ] (m : List (κ × ν)) (k : κ) (v : ν) : List (κ × ν) :=
  m.filter (fun kv => !(kv.1 == k)) ++ [(k, v)]

/-- Deleting a key of an association list. -/
def eraseKey {κ ν : Type} [BEq κ] (m : List (κ × ν)) (k : κ) : List (κ × ν) :=
  m.filter (fun kv => !(kv.1 == k))

/-- The outcome of calling a function value: world, event, the value returned
or the exception raised. -/
structure CallRun where
  world : World
  event : Event
  result : Option Nat
  thrown : Option JsError

/-- Calling a function value with receiver `this` and the event as argument.

* A page function is recorded in `calls`, acts on the event as its
  description says and returns or raises.
* The wrapper of `monitorInlineEventHandlers` stops the propagation; when the
  event's `_inlineTrackerChain` already holds its chain id it only calls the
  saved handler; otherwise it logs the trigger (and the stack), calls the
  saved handler on the element it closed over, and, when that call returned,
  logs what the handler did to the event and removes the chain id.
* The `proxyHandler` of the patched setter stops the propagation, logs the
  trigger, calls the assigned function on its own receiver and, when that
  call returned, logs what the function did to the event. -/
def callFn (w : World) (this : ElemInfo) (event : Event) : Fn → CallRun
  | .user f =>
    let e1 := if f.callsPreventDefault then event.preventDefault else event
    let e2 := if f.callsStopPropagation then e1.stopPropagation else e1
    let w1 := { w with calls := w.calls ++ [(f.fid, this.uid)] }
    if f.throws then ⟨w1, e2, none, some (.userError f.fid)⟩ else ⟨w1, e2, some f.result, none⟩
  | .inlineWrapper element handlerName orig =>
    let e1 := event.stopPropagation
    let chain := e1.inlineTrackerChain.getD []
    let chainId := element.tagName ++ "#" ++ handlerName
    if chain.contains chainId then
      callFn w element { e1 with inlineTrackerChain := some chain } orig
    else
      let e2 := { e1 with inlineTrackerChain := some (chain ++ [chainId]) }
      let w1 := addLog w Level.info (Msg.inlineTriggered handlerName (selectorOf element))
      let w2 := if getStackTrace w != "" && w.logLevels.stack
        then addLog w1 Level.stack (Msg.stackText (getStackTrace w)) else w1
      let r := callFn w2 element e2 orig
      match r.thrown with
      | some _ => r
      | none =>
        let w3 := if r.event.defaultPrevented
          then addLog r.world Level.info (Msg.preventedDefault handlerName) else r.world
        let w4 := if r.event.cancelBubble || !r.event.bubbles
          then addLog w3 Level.info (Msg.stoppedBubbling handlerName) else w3
        ⟨w4, { r.event with
                inlineTrackerChain := r.event.inlineTrackerChain.map (fun c => c.erase chainId) },
          r.result, none⟩
  | .proxyHandler prop orig =>
    let w1 := addLog w Level.info (Msg.inlineTriggered prop (selectorOf this))
    let r := callFn w1 this event.stopPropagation orig
    match r.thrown with
    | some _ => r
    | none =>
      let w2 := if r.event.defaultPrevented
        then addLog r.world Level.info (Msg.preventedDefault prop) else r.world
      let w3 := if r.event.cancelBubble || !r.event.bubbles
        then addLog w2 Level.info (Msg.stoppedBubbling prop) else w2
      ⟨w3, r.event, r.result, none⟩

/-- Truthiness of a JavaScript value. -/
def JsValue.truthy : JsValue → Bool
  | .null => false
  | .fn _ => true
  | .other t => t

/-- Reading `element[prop]` for an event handler property: through the
tracker's getter (`this.__prop__ || null`) where the tracker's accessor is
defined on the element, else through the native accessor, which reads the
handler the host holds. -/
def readProp (w : World) (element : ElemInfo) (prop : String) : JsValue :=
  if w.ownAccessor.contains (element.uid, prop) then
    match w.backing.lookup (element.uid, prop) with
    | some v => if v.truthy then v else JsValue.null
    | none => JsValue.null
  else
    match w.handlerSlot.lookup (element.uid, prop) with
    | some f => JsValue.fn f
    | none => JsValue.null

/-- The assignment `element[prop] = value`: through the tracker's setter where
the tracker's accessor is defined on the element (a function is logged,
wrapped in a `proxyHandler` and stored in `__prop__`; any other value is
stored as it is), else through the native accessor (a function becomes the
handler the host holds; any other value clears it). -/
def writeProp (w : World) (element : ElemInfo) (prop : String) (value : JsValue) : World :=
  if w.ownAccessor.contains (element.uid, prop) then
    match value with
    | .fn f =>
      let w1 := addLog w Level.info (Msg.inlinePropertySet (selectorOf element) prop)
      { w1 with backing := setKey w1.backing (element.uid, prop) (JsValue.fn (Fn.proxyHandler prop f)) }
    | v => { w with backing := setKey w.backing (element.uid, prop) v }
  else
    match value with
    | .fn f => { w with handlerSlot := setKey w.handlerSlot (element.uid, prop) f }
    | _ => { w with handlerSlot := eraseKey w.handlerSlot (element.uid, prop) }

/-- One round of the inner loop of `monitorInlineEventHandlers`: when the
property holds a function that is not yet saved for the element, save it and
assign the wrapper. -/
def monitorHandler (w : World) (element : ElemInfo) (eventType : String) : World :=
  let handlerName := "on" ++ eventType
  match readProp w element handlerName with
  | .fn f =>
    let elementHandlers := (w.originalEventHandlers.lookup element.uid).getD []
    match elementHandlers.lookup handlerName with
    | some _ => w
    | none =>
      writeProp
        { w with originalEventHandlers :=
            setKey w.originalEventHandlers element.uid (elementHandlers ++ [(handlerName, f)]) }
        element handlerName (JsValue.fn (Fn.inlineWrapper element handlerName f))
  | _ => w

/-- The local function `processElement` of `monitorInlineEventHandlers`. -/
def monitorElement (w : World) (element : ElemInfo) : World :=
  inlineEventsToMonitor.foldl (fun acc eventType => monitorHandler acc element eventType) w

/-- The class method `monitorInlineEventHandlers`: the root, then every
element below it. -/
def monitorInlineEventHandlers (w : World) (rootElement : Elem) : World :=
  (rootElement.info :: rootElement.querySelectorAll).foldl monitorElement w

/-- The class method `restoreElementHandlers`: every saved handler is assigned
back to its property, and the element's record is deleted. -/
def restoreElementHandlers (w : World) (element : ElemInfo) : World :=
  match w.originalEventHandlers.lookup element.uid with
  | none => w
  | some handlers =>
    let w1 := handlers.foldl (fun acc h => writeProp acc element h.1 (JsValue.fn h.2)) w
    { w1 with originalEventHandlers := eraseKey w1.originalEventHandlers element.uid }

/-- The class method `restoreInlineEventHandlers`. -/
def restoreInlineEventHandlers (w : World) : World :=
  match w.targetElement with
  | none => { w with originalEventHandlers := [] }
  | some root =>
    let w1 := (root.info :: root.querySelectorAll).foldl restoreElementHandlers w
    { w1 with originalEventHandlers := [] }

/-- A list without its repeated entries, first occurrences kept. -/
def firstOccurrences : List String → List String
  | [] => []
  | x :: xs => x :: (firstOccurrences xs).filter (fun y => y != x)

/-- The class method `proxyElementEvents`: for every property name on the
prototype chain that starts with `on`, is longer than two characters and
whose event type is selected, the original descriptor is saved once in
`originalMethods` and the tracker's accessor pair is defined on the element. -/
def proxyElementEvents (w : World) (element : ElemInfo) : World :=
  (firstOccurrences w.protoProps).foldl
    (fun acc prop =>
      if startsWith prop "on" && decide (prop.data.length > 2)
          && selected acc.selectedEventTypes (substring prop 2) then
        { acc with
          originalMethods :=
            if acc.originalMethods.contains prop then acc.originalMethods
            else acc.originalMethods ++ [prop],
          ownAccessor :=
            if acc.ownAccessor.contains (element.uid, prop) then acc.ownAccessor
            else acc.ownAccessor ++ [(element.uid, prop)] }
      else acc)
    w

mutual
/-- The local function `processElement` of `applyDOMProxies`: an element
already in `proxiedElements` is skipped with its subtree; otherwise it is
proxied, recorded, and its children are processed. -/
def applyProxies (w : World) : Elem → World
  | .mk info _ cs =>
    if w.proxiedElements.contains info.uid then w
    else
      let w1 := proxyElementEvents w info
      applyProxiesList { w1 with proxiedElements := w1.proxiedElements ++ [info.uid] } cs
/-- The loop of `processElement` over the children. -/
def applyProxiesList (w : World) : List Elem → World
  | [] => w
  | c :: cs => applyProxiesList (applyProxies w c) cs
end

/-- The class method `applyDOMProxies` for a root that is not null. -/
def applyDOMProxies (w : World) (rootElement : Elem) : World :=
  addLog (applyProxies w rootElement) Level.info Msg.domProxiesApplied

/-- The body of the loop over `originalMethods` in `restoreDOMProxies`: the
original descriptor is defined on the element and `__prop__` is deleted. -/
def restoreProp (w : World) (element : ElemInfo) (prop : String) : World :=
  { w with ownAccessor := w.ownAccessor.filter (fun k => !(k == (element.uid, prop))),
           backing := eraseKey w.backing (element.uid, prop) }

mutual
/-- The local function `restoreElement` of `restoreDOMProxies`: an element not
in `proxiedElements` is skipped with its subtree. -/
def restoreElement (w : World) : Elem → World
  | .mk info _ cs =>
    if !w.proxiedElements.contains info.uid then w
    else
      let w1 := w.originalMethods.foldl (fun acc prop => restoreProp acc info prop) w
      restoreElementList { w1 with proxiedElements := w1.proxiedElements.filter (fun u => u != info.uid) } cs
/-- The loop of `restoreElement` over the children. -/
def restoreElementList (w : World) : List Elem → World
  | [] => w
  | c :: cs => restoreElementList (restoreElement w c) cs
end

/-- The class method `restoreDOMProxies`. -/
def restoreDOMProxies (w : World) : World :=
  addLog (match w.targetElement with
    | some root => restoreElement w root
    | none => w) Level.info Msg.domProxiesRestored

/-! ## The global listener entry points -/

/-- The receiver of a call of `addEventListener` / `removeEventListener`. -/
inductive Receiver where
  | window
  | document
  | node (n : NodeRef)
  deriving DecidableEq, Repr

/-- The receiver as the listener registry names it. -/
def Receiver.toTargetRef : Receiver → TargetRef
  | .window => TargetRef.window
  | .document => TargetRef.document
  | .node n => TargetRef.node n.uid

/-- A run that completed normally. -/
def Run.ok (w : World) : Run := ⟨w, none⟩

/-- The native `addEventListener`: a null listener is ignored, and so is a
listener already registered with the same type and capture flag. -/
def hostAddEventListener (w : World) (this : Receiver) (type : String)
    (listener : Option Callback) (options : Options) : World :=
  match listener with
  | none => w
  | some cb =>
    let r : Registration := ⟨this.toTargetRef, type, cb, options.captureFlag⟩
    if w.listeners.contains r then w else { w with listeners := w.listeners ++ [r] }

/-- The native `removeEventListener`. -/
def hostRemoveEventListener (w : World) (this : Receiver) (type : String)
    (listener : Option Callback) (options : Options) : World :=
  match listener with
  | none => w
  | some cb =>
    let reg : Registration := ⟨this.toTargetRef, type, cb, options.captureFlag⟩
    { w with listeners := w.listeners.filter (fun r => !(r == reg)) }

/-- The class method `isValidNode` on a receiver: `window` is not a node. -/
def isValidNode : Receiver → Bool
  | .window => false
  | _ => true

/-- The test `this === self.targetElement || self.targetElement.contains(this)`. -/
def isTargetElement (root : Elem) : Receiver → Bool
  | .node n => n.uid == root.uid || root.containsUid n.uid
  | _ => false

/-- The selector of a receiver, as `getElementSelector(this)` computes it. -/
def receiverSelector : Receiver → Except JsError String
  | .node n => getElementSelector (some n)
  | _ => .error (.typeError "element.tagName is undefined")

/-- The options text of the `addEventListener` wrapper; reading `options.capture`
raises on `null`, whose `typeof` is `'object'`. -/
def addOptsText : Options → Except JsError OptsText
  | .object c o p => .ok (OptsText.flags c o p)
  | .null => .error (.typeError "options is null")
  | .bool true => .ok OptsText.capturePhase
  | _ => .ok OptsText.bubblePhase

/-- The options text of the `removeEventListener` wrapper. -/
def removeOptsText : Options → Except JsError OptsText
  | .object c _ _ => .ok (OptsText.captureOnly c)
  | .null => .error (.typeError "options is null")
  | .bool true => .ok OptsText.capturePhase
  | _ => .ok OptsText.bubblePhase

/-- The bookkeeping of the `addEventListener` wrapper, before it delegates:
for a selected type and a listener, when the receiver is the tracked root or
inside it and the listener is not yet in `trackedHandlers`, the listener is
recorded, the attachment is logged, and so is the stack when it is not empty. -/
def addBookkeeping (w : World) (this : Receiver) (type : String)
    (listener : Option Callback) (options : Options) : Run :=
  match listener, w.targetElement with
  | some cb, some root =>
    if selected w.selectedEventTypes type && isValidNode this && isTargetElement root this
        && !w.trackedHandlers.contains cb then
      let w1 := { w with trackedHandlers := w.trackedHandlers ++ [cb] }
      match receiverSelector this with
      | .error err => ⟨w1, some err⟩
      | .ok elementInfo =>
        match addOptsText options with
        | .error err => ⟨w1, some err⟩
        | .ok opts =>
          let w2 := addLog w1 Level.info (Msg.listenerAdded type elementInfo opts)
          if getStackTrace w2 != "" then
            Run.ok (addLog w2 Level.info (Msg.listenerStack (getStackTrace w2)))
          else Run.ok w2
    else Run.ok w
  | _, _ => Run.ok w

/-- The bookkeeping of the `removeEventListener` wrapper: as above with the
record deleted and the removal logged; an exception raised on the way is
caught and logged. -/
def removeBookkeeping (w : World) (this : Receiver) (type : String)
    (listener : Option Callback) (options : Options) : World :=
  match listener, w.targetElement with
  | some cb, some root =>
    if selected w.selectedEventTypes type && isValidNode this && isTargetElement root this
        && w.trackedHandlers.contains cb then
      let w1 := { w with trackedHandlers := w.trackedHandlers.filter (fun c => c != cb) }
      match receiverSelector this with
      | .error err => addLog w1 Level.info (Msg.listenerRemoveError err)
      | .ok elementInfo =>
        match removeOptsText options with
        | .error err => addLog w1 Level.info (Msg.listenerRemoveError err)
        | .ok opts => addLog w1 Level.info (Msg.listenerRemoved type elementInfo opts)
    else w
  | _, _ => w

/-- Calling the function `ep` found at `EventTarget.prototype.addEventListener`:
the native function, or a wrapper, which runs its bookkeeping and then calls
the function it delegates to. -/
def runAddEntry (ep : EntryPoint) (w : World) (this : Receiver) (type : String)
    (listener : Option Callback) (options : Options) : Run :=
  match ep with
  | .original => Run.ok (hostAddEventListener w this type listener options)
  | .wrapper d =>
    (addBookkeeping w this type listener options).andThen
      (fun w1 => runAddEntry d w1 this type listener options)

/-- Calling the function `ep` found at `EventTarget.prototype.removeEventListener`. -/
def runRemoveEntry (ep : EntryPoint) (w : World) (this : Receiver) (type : String)
    (listener : Option Callback) (options : Options) : Run :=
  match ep with
  | .original => Run.ok (hostRemoveEventListener w this type listener options)
  | .wrapper d =>
    runRemoveEntry d (removeBookkeeping w this type listener options) this type listener options

/-- A call `target.addEventListener(type, listener, options)` made in the page
or by the tracker: it runs the function now installed. -/
def callAddEventListener (w : World) (this : Receiver) (type : String)
    (listener : Option Callback) (options : Options) : Run :=
  runAddEntry w.addEventListener w this type listener options

/-- A call `target.removeEventListener(type, listener, options)`. -/
def callRemoveEventListener (w : World) (this : Receiver) (type : String)
    (listener : Option Callback) (options : Options) : Run :=
  runRemoveEntry w.removeEventListener w this type listener options

/-- The class method `interceptEventTargetMethods`: both wrappers delegate to
the module constants `originalAddEventListener` / `originalRemoveEventListener`. -/
def interceptEventTargetMethods (w : World) : World :=
  if w.hasInterceptedEventTarget then w
  else
    addLog { w with addEventListener := EntryPoint.wrapper EntryPoint.original,
                    removeEventListener := EntryPoint.wrapper EntryPoint.original,
                    hasInterceptedEventTarget := true }
      Level.info Msg.entryPointsIntercepted

/-- The class method `restoreEventTargetMethods`. -/
def restoreEventTargetMethods (w : World) : World :=
  if !w.hasInterceptedEventTarget then w
  else
    addLog { w with addEventListener := EntryPoint.original,
                    removeEventListener := EntryPoint.original,
                    hasInterceptedEventTarget := false }
      Level.info Msg.entryPointsRestored

/-! ## Framework adapters -/

/-- The list `frameworks` that `detectUIFrameworks` builds from its probes. -/
def detectedFrameworks (p : Page) : List String :=
  (if p.bootstrapGlobal || p.bootstrapMarkup then ["Bootstrap"] else [])
  ++ (match p.jQuery with
      | some jq => "jQuery" :: (if jq.hasUi then ["jQuery UI"] else [])
      | none => [])
  ++ (if p.elementUiMarkup then ["Element UI"] else [])
  ++ (if p.antDesignMarkup then ["Ant Design"] else [])
  ++ (if p.vuetifyMarkup then ["Vuetify"] else [])
  ++ (if p.materialUiMarkup then ["Material UI"] else [])
  ++ (if p.swal.isSome || p.swalMarkup then ["SweetAlert2"] else [])
  ++ (if p.fancyboxMarkup then ["Fancybox"] else [])
  ++ (if p.featherlightMarkup then ["Featherlight"] else [])
  ++ (if p.lightbox.isSome || p.lightboxMarkup then ["Lightbox.js"] else [])

/-- The four Bootstrap modal event names. -/
def modalEvents : List String :=
  ["show.bs.modal", "shown.bs.modal", "hide.bs.modal", "hidden.bs.modal"]

/-- The class method `monitorBootstrapModals`: a new closure `handleModalEvent`
is registered on `document` for the four modal events. -/
def monitorBootstrapModals (w : World) : Run :=
  let cb := Callback.bootstrapModal w.closureSerial
  let r := modalEvents.foldl
    (fun (acc : Run) eventName =>
      acc.andThen (fun w1 =>
        callAddEventListener w1 Receiver.document eventName (some cb) Options.undefined))
    (Run.ok { w with closureSerial := w.closureSerial + 1 })
  r.andThen (fun w1 => Run.ok (addLog w1 Level.info Msg.bootstrapMonitorAdded))

/-- The closure `handleModalEvent` of `monitorBootstrapModals`. -/
def handleModalEvent (w : World) (event : Event) : HandlerRun :=
  match event.target with
  | none => ⟨w, event, none⟩
  | some (.other _ _) => ⟨w, event, some (.typeError "modal.classList is undefined")⟩
  | some (.elem modal) =>
    if modal.classList.contains "modal" then
      ⟨addLog w Level.popup (Msg.bootstrapModalEvent (event.type.getD "undefined") (selectorOf modal)),
        event, none⟩
    else ⟨w, event, none⟩

/-- The class method `monitorjQueryEvents`: each of `modal`, `dialog`, `popup`
that exists on `jQuery.fn` is replaced by a wrapper around what is installed. -/
def monitorjQueryEvents (w : World) : World :=
  match w.page.jQuery with
  | none => w
  | some jq =>
    let jq1 : JQuery :=
      { jq with modal := jq.modal.map LibFn.wrapped,
                dialog := jq.dialog.map LibFn.wrapped,
                popup := jq.popup.map LibFn.wrapped }
    addLog { w with page := { w.page with jQuery := some jq1 } } Level.info Msg.jQueryMonitorAdded

/-- The class method `monitorSweetAlert`. -/
def monitorSweetAlert (w : World) : World :=
  match w.page.swal with
  | none => w
  | some f =>
    addLog { w with page := { w.page with swal := some (LibFn.wrapped f) } }
      Level.info Msg.sweetAlertMonitorAdded

/-- The class method `monitorFancybox`: reading `window.$.fancybox` raises
when `window.$` is undefined. -/
def monitorFancybox (w : World) : Run :=
  match w.page.dollar with
  | none => ⟨w, some (.typeError "window.$ is undefined")⟩
  | some none => Run.ok w
  | some (some f) =>
    Run.ok (addLog { w with page := { w.page with dollar := some (some (LibFn.wrapped f)) } }
      Level.info Msg.fancyboxMonitorAdded)

/-- The class method `monitorLightbox`. -/
def monitorLightbox (w : World) : World :=
  match w.page.lightbox with
  | none => w
  | some lb =>
    let originalShow := if lb.showImage.isSome then lb.showImage else lb.showFn
    let lb1 : Lightbox :=
      match lb.hasOption, originalShow with
      | true, some f => { lb with showImage := some (LibFn.wrapped f), showFn := some (LibFn.wrapped f) }
      | _, _ => lb
    addLog { w with page := { w.page with lightbox := some lb1 } } Level.info Msg.lightboxMonitorAdded

/-- The class method `monitorFrameworkSpecificEvents`. -/
def monitorFrameworkSpecificEvents (w : World) (framework : String) : Run :=
  if framework = "Bootstrap" then monitorBootstrapModals w
  else if framework = "jQuery" then Run.ok (monitorjQueryEvents w)
  else if framework = "SweetAlert2" then Run.ok (monitorSweetAlert w)
  else if framework = "Fancybox" then monitorFancybox w
  else if framework = "Lightbox.js" then Run.ok (monitorLightbox w)
  else Run.ok w

/-- The class method `detectUIFrameworks`. -/
def detectUIFrameworks (w : World) : Run :=
  let frameworks := detectedFrameworks w.page
  if frameworks.isEmpty then Run.ok w
  else
    frameworks.foldl
      (fun (acc : Run) framework =>
        acc.andThen (fun w1 => monitorFrameworkSpecificEvents w1 framework))
      (Run.ok (addLog w Level.info (Msg.frameworksDetected frameworks)))

/-! ## Sessions -/

/-- The class method `initMutationObserver`, as far as the tracker state is
concerned: an observer is created and connected. -/
def initMutationObserver (w : World) : World :=
  addLog { w with mutationObserver := true } Level.info Msg.mutationObserverStarted

/-- The four navigation event types. -/
def navigationTypes : List String := ["hashchange", "popstate", "pageshow", "pagehide"]

/-- The options `{ capture: true, passive: false }`. -/
def captureOptions : Options := Options.object true false false

/-- The options `{ capture: false, passive: false }`. -/
def bubbleOptions : Options := Options.object false false false

/-- A sequence of listener calls on one receiver with one callback. -/
def forEachType (call : World → String → Run) (types : List String) (w : World) : Run :=
  types.foldl (fun (acc : Run) t => acc.andThen (fun w1 => call w1 t)) (Run.ok w)

/-- The listener installation of `startTracking`: per active type one capture
and one bubble listener on `document`; then the click analyzer, the submit
analyzer and the throttled mousemove handler when their type is active; then
the navigation handler on `window` for all four navigation types when one of
them is active. -/
def installListeners (w : World) (active : List String) : Run :=
  (forEachType (fun w1 t =>
      (callAddEventListener w1 Receiver.document t (some Callback.capture) captureOptions).andThen
        (fun w2 => callAddEventListener w2 Receiver.document t (some Callback.bubble) bubbleOptions))
    active w).andThen fun w1 =>
  let w2 := addLog w1 Level.info Msg.activeListenersSet
  (if active.contains "click" then
      callAddEventListener w2 Receiver.document "click" (some Callback.clickWithDetails) captureOptions
    else Run.ok w2).andThen fun w3 =>
  (if active.contains "submit" then
      callAddEventListener w3 Receiver.document "submit" (some Callback.formSubmit) captureOptions
    else Run.ok w3).andThen fun w4 =>
  (if active.contains "mousemove" then
      callAddEventListener w4 Receiver.document "mousemove" (some Callback.mouseMove) captureOptions
    else Run.ok w4).andThen fun w5 =>
  if active.any (fun t => navigationTypes.contains t) then
    forEachType (fun w6 t =>
        callAddEventListener w6 Receiver.window t (some Callback.navigation) Options.undefined)
      navigationTypes w5
  else Run.ok w5

/-- The listener removal of `stopTracking`: for the types active now, the
capture and the bubble listener; the three special listeners; the four
navigation listeners. -/
def removeListeners (w : World) (active : List String) : Run :=
  (forEachType (fun w1 t =>
      (callRemoveEventListener w1 Receiver.document t (some Callback.capture) (Options.bool true)).andThen
        (fun w2 =>
          callRemoveEventListener w2 Receiver.document t (some Callback.bubble) (Options.bool false)))
    active w).andThen fun w1 =>
  (callRemoveEventListener w1 Receiver.document "click" (some Callback.clickWithDetails)
    (Options.bool true)).andThen fun w2 =>
  (callRemoveEventListener w2 Receiver.document "submit" (some Callback.formSubmit)
    (Options.bool true)).andThen fun w3 =>
  (callRemoveEventListener w3 Receiver.document "mousemove" (some Callback.mouseMove)
    (Options.bool true)).andThen fun w4 =>
  forEachType (fun w5 t =>
      callRemoveEventListener w5 Receiver.window t (some Callback.navigation) Options.undefined)
    navigationTypes w4

/-- The class method `stopTracking`. -/
def stopTracking (w : World) : Run :=
  if !w.isTracking then Run.ok w
  else
    (removeListeners w (getActiveEventTypes w.selectedEventTypes)).andThen fun w1 =>
    let w2 := restoreInlineEventHandlers w1
    let w3 := { w2 with mutationObserver := false }
    let w4 := restoreDOMProxies w3
    let w5 := restoreEventTargetMethods w4
    Run.ok (addLog { w5 with isTracking := false } Level.info Msg.trackingStopped)

/-- The class method `startTracking`. -/
def startTracking (w : World) (element : Option Elem) : Run :=
  (if w.isTracking then stopTracking w else Run.ok w).andThen fun w0 =>
  match element with
  | none => Run.ok w0
  | some el =>
    let w1 := { w0 with targetElement := some el, isTracking := true }
    let w2 := if !w1.preserveLogs then clearLogs w1 else w1
    let w3 := { w2 with lastDetectedPopups := [] }
    let active := getActiveEventTypes w3.selectedEventTypes
    (installListeners w3 active).andThen fun w4 =>
    let w5 := monitorInlineEventHandlers w4 el
    let w6 := initMutationObserver w5
    (detectUIFrameworks w6).andThen fun w7 =>
    let w8 := interceptEventTargetMethods w7
    let w9 := applyDOMProxies w8 el
    let w10 := addLog w9 Level.info (Msg.trackingStarted (selectorOf el.info))
    let w11 := addLog w10 Level.info (Msg.trackingTypes active)
    Run.ok (addLog w11 Level.info Msg.interceptionEnabled)

/-- The class method `setSelectedEventTypes`: the new selection is stored
first; a running session is then stopped and started again on the same root. -/
def setSelectedEventTypes (w : World) (eventTypes : Selection) : Run :=
  let w1 := { w with selectedEventTypes := eventTypes }
  if w1.isTracking && w1.targetElement.isSome then
    (stopTracking w1).andThen fun w2 => startTracking w2 w2.targetElement
  else Run.ok w1

/-- The class method `destroy`. -/
def destroy (w : World) : Run :=
  (stopTracking w).andThen fun w1 =>
    Run.ok { w1 with targetElement := none, outputElement := none }

/-! ## Event dispatch by the host -/

/-- The host calling one registered listener on the event, at `target`. -/
def invokeCallback (w : World) (event : Event) (target : TargetRef) : Callback → HandlerRun
  | .capture => handleCaptureEvent w event
  | .bubble => handleBubbleEvent w event
  | .clickWithDetails => handleClickWithDetails w event
  | .formSubmit => handleFormSubmit w event
  | .mouseMove => boundHandleMouseMove w event
  | .navigation => handleNavigationEvent w event
  | .bootstrapModal _ => handleModalEvent w event
  | .page fid => ⟨{ w with received := w.received ++ [(target, fid)] }, event, none⟩

/-- The world after a listener ran: an exception it raised is reported. -/
def HandlerRun.settle (r : HandlerRun) : World × Event :=
  match r.thrown with
  | none => (r.world, r.event)
  | some err => ({ r.world with uncaught := r.world.uncaught ++ [err] }, r.event)

/-- The host invoking the listeners of one object of the path for one phase:
nothing when the stop-propagation flag is set; otherwise every listener
registered on the object for the event type and the phase is called, in
registration order (a listener that stops the propagation does not keep the
others on the same object from running); in the non-capture phase the event
handler the host holds for `on` + type on an element is called as well. -/
def deliver (s : World × Event) (this : Receiver) (capture : Bool) : World × Event :=
  if s.2.cancelBubble then s
  else
    let ls := s.1.listeners.filter
      (fun r => r.target == this.toTargetRef && some r.type == s.2.type && r.capture == capture)
    let s1 := ls.foldl
      (fun (acc : World × Event) r => (invokeCallback acc.1 acc.2 this.toTargetRef r.callback).settle) s
    match capture, this, s.2.type with
    | false, .node (.elem el), some t =>
      match s1.1.handlerSlot.lookup (el.uid, "on" ++ t) with
      | some f =>
        let c := callFn s1.1 el s1.2 f
        (match c.thrown with
          | none => c.world
          | some err => { c.world with uncaught := c.world.uncaught ++ [err] }, c.event)
      | none => s1
    | _, _, _ => s1

/-- The host dispatching an event along `path`, which lists the objects from
the outermost (`window`, then `document`) down to the target: the capture
phase visits the ancestors from the outermost inwards, the target receives
the event in both phases, and for an event that bubbles the bubble phase
visits the ancestors from the innermost outwards. -/
def dispatchEvent (w : World) (event : Event) (path : List Receiver) : World × Event :=
  let ancestors := path.dropLast
  let s1 := ancestors.foldl (fun acc r => deliver acc r true) (w, event)
  let s2 :=
    match path.getLast? with
    | some t => deliver (deliver s1 t true) t false
    | none => s1
  if event.bubbles then ancestors.reverse.foldl (fun acc r => deliver acc r false) s2 else s2

/-! ## The initial state -/

/-- The log levels set in the constructor: every category enabled. -/
def defaultLogLevels : LogLevels := ⟨true, true, true, true, true, true⟩

/-- The catalogue `ALL_EVENT_TYPES`, flattened in the order of its groups. -/
def allEventTypes : List String :=
  ["click", "dblclick", "mousedown", "mouseup", "mouseover", "mouseout", "mousemove",
   "keydown", "keyup", "keypress",
   "focus", "blur", "change", "input", "submit", "reset",
   "drag", "dragstart", "dragend", "dragover", "dragenter", "dragleave", "drop",
   "scroll", "resize", "load", "unload", "beforeunload",
   "touchstart", "touchmove", "touchend", "touchcancel",
   "animationstart", "animationend", "animationiteration", "transitionend",
   "hashchange", "popstate", "pagehide", "pageshow"]

/-- The class method `selectAllEventTypes`. -/
def selectAllEventTypes (w : World) : World :=
  { w with selectedEventTypes := allEventTypes.map (fun t => (t, true)) }

/-- A page without any of the probed libraries. -/
def plainPage : Page :=
  { bootstrapGlobal := false, bootstrapMarkup := false, jQuery := none,
    elementUiMarkup := false, antDesignMarkup := false, vuetifyMarkup := false,
    materialUiMarkup := false, swal := none, swalMarkup := false, fancyboxMarkup := false,
    dollar := none, featherlightMarkup := false, lightbox := none, lightboxMarkup := false }

/-- The world right after `new EventTracker(outputElement)` on a page where the
module has just been loaded: the constructor's field values, the module-level
collections empty, the global entry points the native ones, and the host
state given by the arguments. -/
def initialWorld (sink : Option (List LogNode)) (page : Page) (protoProps : List String)
    (handlerSlot : List ((Nat × String) × Fn)) (listeners : List Registration)
    (stackTrace : String) (now : Nat) : World :=
  selectAllEventTypes
    { targetElement := none, outputElement := sink, trackedEvents := [], isTracking := false,
      preserveLogs := false, mutationObserver := false, selectedEventTypes := [],
      originalEventHandlers := [], lastDetectedPopups := [], hasInterceptedEventTarget := false,
      trackedHandlers := [], logLevels := defaultLogLevels, showStackForInlineEvents := true,
      mouseMoveLastCall := 0, originalMethods := [], proxiedElements := [],
      listeners := listeners, addEventListener := EntryPoint.original,
      removeEventListener := EntryPoint.original, handlerSlot := handlerSlot, ownAccessor := [],
      backing := [], protoProps := protoProps, stackTrace := stackTrace, now := now, page := page,
      closureSerial := 0, timers := [], calls := [], received := [], openedTabs := [],
      location := ⟨"https://example.test/dir/page.html", "https://example.test", "/dir/page.html"⟩,
      uncaught := [], styles := [] }

/-! ## The popup heuristic and the mutation watcher -/

/-- The host's `window.getComputedStyle(element)`, with the initial values for
an element without an entry in `styles`. -/
def getComputedStyle (w : World) (element : ElemInfo) : ComputedStyle :=
  (w.styles.lookup element.uid).getD ⟨"static", "auto", "block", "visible"⟩

/-- White space that `parseInt` skips at the start of its argument. -/
def isWhiteSpace (c : Char) : Bool :=
  c.toNat == 32 || c.toNat == 9 || c.toNat == 10 || c.toNat == 11 || c.toNat == 12
    || c.toNat == 13

/-- The number written by a list of decimal digits, after the digits already
read. -/
def digitsValue (acc : Nat) : List Char → Nat
  | [] => acc
  | c :: cs => digitsValue (acc * 10 + (c.toNat - 48)) cs

/-- The JavaScript `parseInt(s)` for decimal text: leading white space is
skipped, one sign is read, then the longest run of digits; `NaN` (here `none`)
when there is no digit.  The `0x` form does not occur in a computed z-index. -/
def parseInt (s : String) : Option Int :=
  let cs := s.data.dropWhile isWhiteSpace
  let negative := cs.head? == some '-'
  let rest := if cs.head? == some '-' || cs.head? == some '+' then cs.drop 1 else cs
  let digits := rest.takeWhile Char.isDigit
  if digits.isEmpty then none
  else some (if negative then - (digitsValue 0 digits : Int) else (digitsValue 0 digits : Int))

/-- The pattern `/modal|popup|dialog|overlay|lightbox|toast/i`. -/
def popupClassPattern (s : String) : Bool :=
  ["modal", "popup", "dialog", "overlay", "lightbox", "toast"].any (fun k => includesCI s k)

/-- The pattern `/data|aria|role|id|class/` on an attribute name. -/
def relevantAttrName (name : String) : Bool :=
  ["data", "aria", "role", "id", "class"].any (fun k => includes name k)

/-- The style test of `maybePopup`: visible, positioned fixed or absolute, and
`parseInt(style.zIndex) > 10`. -/
def styleIsPopup (style : ComputedStyle) : Bool :=
  (style.display != "none" && style.visibility != "hidden")
    && (style.position == "fixed" || style.position == "absolute")
    && (match parseInt style.zIndex with
        | some z => decide (z > 10)
        | none => false)

/-- The local function `maybePopup` of `checkForDialogOrPopup`: false for a
signature already in `lastDetectedPopups`; otherwise the three tests in turn,
and the signature is recorded when one of them holds. -/
def maybePopup (w : World) (element : ElemInfo) : Bool × World :=
  let elementId := selectorOf element
  if w.lastDetectedPopups.contains elementId then (false, w)
  else if element.tagName == "DIALOG" || popupClassPattern element.className
      || styleIsPopup (getComputedStyle w element) then
    (true, { w with lastDetectedPopups := w.lastDetectedPopups ++ [elementId] })
  else (false, w)

/-- What `checkForDialogOrPopup` logs for a node that `maybePopup` accepted. -/
def logPopup (w : World) (node : ElemInfo) : World :=
  let w1 := addLog w Level.popup (Msg.popupDetected (selectorOf node))
  let w2 := if hasAttribute node "style"
    then addLog w1 Level.info (Msg.popupInlineStyle ((getAttribute node "style").getD "")) else w1
  if (node.attrs.filter (fun kv => relevantAttrName kv.1)).isEmpty then w2
  else addLog w2 Level.info (Msg.popupAttributes (node.attrs.filter (fun kv => relevantAttrName kv.1)))

mutual
/-- The class method `checkForDialogOrPopup` on an element whose ancestors are
`ancestors`: nothing for an element of the tracker's own UI; a node that
`maybePopup` accepts is logged; otherwise the children are checked with
`checkChildNodesForPopups(node, 2)`. -/
def checkForDialogOrPopup (w : World) (ancestors : List ElemInfo) : Elem → World
  | .mk info _ cs =>
    match isEventTrackerElement (some (NodeRef.elem info)) (info :: ancestors) with
    | .ok false =>
      if (maybePopup w info).1 then logPopup (maybePopup w info).2 info
      else checkChildren (maybePopup w info).2 (info :: ancestors) 2 cs
    | _ => w
/-- The class method `checkChildNodesForPopups(node, depth)`. -/
def checkChildNodesForPopups (w : World) (ancestors : List ElemInfo) (depth : Nat) :
    Elem → World
  | .mk info _ cs => if depth = 0 then w else checkChildren w (info :: ancestors) depth cs
/-- The loop of `checkChildNodesForPopups(node, depth)` over the children of
the node, `chain` being the node and its ancestors: each child is passed to
`checkForDialogOrPopup` and then to `checkChildNodesForPopups(child, depth - 1)`. -/
def checkChildren (w : World) (chain : List ElemInfo) (depth : Nat) : List Elem → World
  | [] => w
  | c :: rest =>
    checkChildren
      (checkChildNodesForPopups (checkForDialogOrPopup w chain c) chain (depth - 1) c)
      chain depth rest
end

/-- A node listed in `mutation.addedNodes`: an element with its subtree and its
ancestors, or a node of another type. -/
inductive AddedNode where
  | element (e : Elem) (ancestors : List ElemInfo)
  | other (uid : Nat) (nodeType : Nat)

/-- A mutation record delivered to the observer. -/
inductive MutationRecord where
  | childList (addedNodes : List AddedNode)
  | attributes (target : Elem) (ancestors : List ElemInfo)

/-- The object `{ target: node }` that the batch handler passes to
`shouldTrackEvent`: it has a target and nothing else. -/
def bareEvent (target : NodeRef) : Event :=
  { type := none, target := some target, path := none, composedPath := none,
    closestChain := [], bubbles := false, cancelable := false, cancelBubble := false,
    defaultPrevented := false, stopPropagationCalls := 0, preventDefaultCalls := 0,
    inlineTrackerChain := none, oldURL := none, newURL := none, state := false,
    persisted := false, formFieldCount := 0, formHasFile := false }

/-- The inner loop body of the batch handler for one added node: an element is
passed to `checkForDialogOrPopup`, and to `monitorInlineEventHandlers` when
`shouldTrackEvent({ target: node })` holds. -/
def handleAddedNode (w : World) : AddedNode → World
  | .other _ _ => w
  | .element e ancestors =>
    let w1 := checkForDialogOrPopup w ancestors e
    if shouldTrackEvent w1 (bareEvent (NodeRef.elem e.info)) then monitorInlineEventHandlers w1 e
    else w1

/-- The outer loop body of the batch handler for one mutation record. -/
def handleMutation (w : World) : MutationRecord → World
  | .childList addedNodes => addedNodes.foldl handleAddedNode w
  | .attributes target ancestors => checkForDialogOrPopup w ancestors target

/-- The callback the mutation observer runs 50 ms after the last mutation, on
the records collected since the previous run. -/
def handleMutationBatch (w : World) (pendingMutations : List MutationRecord) : World :=
  pendingMutations.foldl handleMutation w

/-! ## The stack filter and the throttle -/

/-- The lines of a stack text: `stack.split('\n')`. -/
def splitLines (stack : String) : List String :=
  (splitOn '\n' stack.data).map String.mk

/-- The first filter of `getStackTrace`: the line contains none of
`at EventTracker.`, `userscript.html?name=DOM`, `chrome-extension://`. -/
def keepsLine (line : String) : Bool :=
  !includes line "at EventTracker." && !includes line "userscript.html?name=DOM"
    && !includes line "chrome-extension://"

/-- The filter of the fallback of `getStackTrace`: the line does not contain
`at EventTracker.`. -/
def notTrackerLine (line : String) : Bool := !includes line "at EventTracker."

/-- The variable `stackLines` of `getStackTrace` when the decoration starts:
the lines that pass the first filter, from the third on (`slice(2)`); when
there is none, the third and fourth (`slice(2, 4)`) of the lines that pass the
fallback filter.  The decoration that follows maps each line to one line. -/
def stackLines (stack : String) : List String :=
  let lines := ((splitLines stack).filter keepsLine).drop 2
  if lines.length = 0 then (((splitLines stack).filter notTrackerLine).drop 2).take 2
  else lines

/-- The frames `getStackTrace` keeps according to the specification: the raw
lines without a marker, all of them; the first two raw lines when there is
none. -/
def claimedStackLines (stack : String) : List String :=
  if ((splitLines stack).filter keepsLine).isEmpty then (splitLines stack).take 2
  else (splitLines stack).filter keepsLine

/-- One call, at clock reading `now` and with argument `arg`, of the function
that `throttle(func, delay)` returns.  The state is the closure variable
`lastCall` and whatever `func` works on: when `now - lastCall >= delay`,
`lastCall` becomes `now` and `func` is applied; else nothing happens. -/
def throttle {σ α : Type} (func : σ → α → σ) (delay : Int) (st : Nat × σ) (now : Nat)
    (arg : α) : Nat × σ :=
  if throttlePasses delay st.1 now then (now, func st.2 arg) else st

/-- The calls that reach `func`, observed: `throttle(func, delay)`, whose
closure starts with `lastCall = 0`, is called once at each of the given clock
readings, where `func` appends the reading it is called at to a trace.  The
result is the trace after the last call. -/
def reachedCalls (delay : Int) (times : List Nat) : List Nat :=
  (times.foldl (fun st now => throttle (fun trace t => trace ++ [t]) delay st now now)
    (0, [])).2

/-- The calls that reach `func` according to the claim: a call does when at
least `delay` ms have passed since the last call that did, `lastCall` standing
for that call before the first of them. -/
def throttleRun (delay : Int) (lastCall : Nat) : List Nat → List Nat
  | [] => []
  | now :: rest =>
    if throttlePasses delay lastCall now then now :: throttleRun delay now rest
    else throttleRun delay lastCall rest

/-- The host delivering `mousemove` events to `boundHandleMouseMove`, each at
its clock reading: the readings of the calls in which `handleMouseMove` acted
on the event, seen from outside as one more `stopPropagation` call on it. -/
def mouseMoveReached (w : World) : List (Nat × Event) → List Nat
  | [] => []
  | c :: rest =>
    if (boundHandleMouseMove { w with now := c.1 } c.2).event.stopPropagationCalls
        = c.2.stopPropagationCalls + 1 then
      c.1 :: mouseMoveReached (boundHandleMouseMove { w with now := c.1 } c.2).world rest
    else mouseMoveReached (boundHandleMouseMove { w with now := c.1 } c.2).world rest

/-! ## Log levels -/

/-- The argument of `setLogLevels` as the method reads it: for each of the six
keys of `logLevels`, the boolean found under that key, or nothing when the key
is absent or its value is not a boolean. -/
structure LevelsArg where
  event : Option Bool
  info : Option Bool
  action : Option Bool
  popup : Option Bool
  navigation : Option Bool
  stack : Option Bool
  deriving DecidableEq, Repr

/-- The lookup `levels[key]` restricted to booleans. -/
def LevelsArg.get (l : LevelsArg) : Level → Option Bool
  | .event => l.event
  | .info => l.info
  | .action => l.action
  | .popup => l.popup
  | .navigation => l.navigation
  | .stack => l.stack

/-- The class method `setLogLevels`; the argument `none` stands for a value
that is falsy or not an object. -/
def setLogLevels (w : World) (levels : Option LevelsArg) : World :=
  match levels with
  | none => w
  | some l =>
    let updated : LogLevels :=
      ⟨l.event.getD w.logLevels.event, l.info.getD w.logLevels.info,
        l.action.getD w.logLevels.action, l.popup.getD w.logLevels.popup,
        l.navigation.getD w.logLevels.navigation, l.stack.getD w.logLevels.stack⟩
    { w with logLevels := updated }

/-! ## The redirect of the click analyzer, as specified -/

/-- The URL the click analyzer opens for a link with href `h` according to the
specification: the current URL without its fragment plus `h` when `h` starts
with `#`; `h` when it starts with `http` or `//`; the origin plus `h` when it
starts with `/`; otherwise the origin, the directory of the current path and
`h`. -/
def claimedRedirectUrl (loc : Location) (h : String) : String :=
  if startsWith h "#" then splitHash loc.href 0 ++ h
  else if startsWith h "http" || startsWith h "//" then h
  else if startsWith h "/" then loc.origin ++ h
  else loc.origin ++ pathDirectory loc.pathname ++ h

/-- Whether the click analyzer redirects a click on a link according to the
specification: the `target` attribute is not `_blank` and the href starts
with none of `javascript:`, `mailto:`, `tel:`. -/
def claimedRedirect (target : Option String) (h : String) : Bool :=
  target != some "_blank" && !startsWith h "javascript:" && !startsWith h "mailto:"
    && !startsWith h "tel:"

/-! ## The popup check with its calls counted -/

mutual
/-- The method `checkForDialogOrPopup` as above, together with the number of
calls of `checkForDialogOrPopup` made while it runs, this one included. -/
def checkForDialogOrPopupCalls (w : World) (ancestors : List ElemInfo) : Elem → World × Nat
  | .mk info _ cs =>
    match isEventTrackerElement (some (NodeRef.elem info)) (info :: ancestors) with
    | .ok false =>
      if (maybePopup w info).1 then (logPopup (maybePopup w info).2 info, 1)
      else
        ((checkChildrenCalls (maybePopup w info).2 (info :: ancestors) 2 cs).1,
          (checkChildrenCalls (maybePopup w info).2 (info :: ancestors) 2 cs).2 + 1)
    | _ => (w, 1)
/-- The method `checkChildNodesForPopups(node, depth)` with the calls of
`checkForDialogOrPopup` counted. -/
def checkChildNodesForPopupsCalls (w : World) (ancestors : List ElemInfo) (depth : Nat) :
    Elem → World × Nat
  | .mk info _ cs =>
    if depth = 0 then (w, 0) else checkChildrenCalls w (info :: ancestors) depth cs
/-- The loop of `checkChildNodesForPopups(node, depth)` with the calls of
`checkForDialogOrPopup` counted. -/
def checkChildrenCalls (w : World) (chain : List ElemInfo) (depth : Nat) :
    List Elem → World × Nat
  | [] => (w, 0)
  | c :: rest =>
    ((checkChildrenCalls
        (checkChildNodesForPopupsCalls (checkForDialogOrPopupCalls w chain c).1 chain
          (depth - 1) c).1 chain depth rest).1,
      (checkForDialogOrPopupCalls w chain c).2
        + (checkChildNodesForPopupsCalls (checkForDialogOrPopupCalls w chain c).1 chain
            (depth - 1) c).2
        + (checkChildrenCalls
            (checkChildNodesForPopupsCalls (checkForDialogOrPopupCalls w chain c).1 chain
              (depth - 1) c).1 chain depth rest).2)
end

/-! ## Calls of the wrapped jQuery method -/

/-- A button without id, class or attributes. -/
def buttonInfo : ElemInfo := ⟨4, "BUTTON", "", "", [], []⟩

/-- The element `<div id="x">`. -/
def divInfo : ElemInfo := ⟨3, "DIV", "x", "", [], [("id", "x")]⟩

/-- The `body` element. -/
def bodyInfo : ElemInfo := ⟨2, "BODY", "", "", [], []⟩

/-- The `html` element. -/
def htmlInfo : ElemInfo := ⟨1, "HTML", "", "", [], []⟩

/-- The tracked root of the scenarios: the div, holding the button and a text
node (identity 5). -/
def rootDiv : Elem := .mk divInfo [5] [.mk buttonInfo [] []]

/-- An event of the given type on the given target below `body`, with the
flags of a fresh event; `chain` is the target's element chain and `composed`
what `composedPath()` returns. -/
def freshEvent (type : String) (target : NodeRef) (chain : List ElemInfo)
    (composed : List TargetRef) : Event :=
  { type := some type, target := some target, path := none, composedPath := some composed,
    closestChain := chain, bubbles := true, cancelable := true, cancelBubble := false,
    defaultPrevented := false, stopPropagationCalls := 0, preventDefaultCalls := 0,
    inlineTrackerChain := none, oldURL := none, newURL := none, state := false,
    persisted := false, formFieldCount := 0, formHasFile := false }

/-- A click on the button. -/
def clickOnButton : Event :=
  freshEvent "click" (.elem buttonInfo) [buttonInfo, divInfo, bodyInfo, htmlInfo]
    [.node 4, .node 3, .node 2, .node 1, .document, .window]

/-- The dispatch path of an event on the button, outermost object first. -/
def buttonPath : List Receiver :=
  [.window, .document, .node (.elem htmlInfo), .node (.elem bodyInfo), .node (.elem divInfo),
   .node (.elem buttonInfo)]

/-- An event of the given type on the root div. -/
def eventOnDiv (type : String) : Event :=
  freshEvent type (.elem divInfo) [divInfo, bodyInfo, htmlInfo]
    [.node 3, .node 2, .node 1, .document, .window]

/-- The dispatch path of an event on the root div. -/
def divPath : List Receiver :=
  [.window, .document, .node (.elem htmlInfo), .node (.elem bodyInfo), .node (.elem divInfo)]

/-- A click dispatched on the text node inside the root div. -/
def clickOnText : Event :=
  freshEvent "click" (.other 5 3) [] [.node 5, .node 3, .node 2, .node 1, .document, .window]

/-- Two listeners of the page on `document.body` for `click`, one per phase. -/
def bodyListeners : List Registration :=
  [⟨.node 2, "click", .page 7, true⟩, ⟨.node 2, "click", .page 7, false⟩]

/-- A fresh tracker with a sink on a plain page, whose selection is `sel`;
`slots` are the inline handlers the page has set. -/
def freshWorld (sel : Selection) (slots : List ((Nat × String) × Fn)) : World :=
  { initialWorld (some []) plainPage ["onclick", "onkeydown", "onfocus"] slots bodyListeners
      "at f (a.js:1:1)" 1000 with selectedEventTypes := sel }

/-- A fresh tracker whose tracked root is the div, no session having run. -/
def rootedWorld (sel : Selection) : World :=
  { freshWorld sel [] with targetElement := some rootDiv }

/-- The session of the end-to-end scenario: selection `click`, root the div. -/
def clickSession : World := (startTracking (freshWorld [("click", true)] []) (some rootDiv)).world

/-- The state after `startTracking(div)` followed by `stopTracking()`. -/
def stoppedSession : World := (stopTracking clickSession).world

/-- A function of the page that only returns. -/
def plainFn : UserFn := ⟨11, false, false, false, 0⟩

/-- A session in which only `hashchange` is selected, on a page that has set
`div.onclick` to `plainFn`. -/
def hashchangeSession : World :=
  (startTracking (freshWorld [("hashchange", true)] [((3, "onclick"), Fn.user plainFn)])
    (some rootDiv)).world

/-- What a handler leaves alone when it ignores an event: the event, the
output sink and `trackedEvents`. -/
def Untouched (w : World) (event : Event) (r : HandlerRun) : Prop :=
  r.event = event ∧ r.world.outputElement = w.outputElement ∧
    r.world.trackedEvents = w.trackedEvents

/-- A session with `click` and `keydown` selected. -/
def twoTypeSession : World :=
  (startTracking (freshWorld [("click", true), ("keydown", true)] []) (some rootDiv)).world

/-- The state after the selector UI then writes the selection `keydown` only. -/
def afterReselect : World := (setSelectedEventTypes twoTypeSession [("keydown", true)]).world

/-- A fresh tracker with `click` selected on a page that has set `div.onclick`
to `plainFn`. -/
def inlineWorld : World := freshWorld [("click", true)] [((3, "onclick"), Fn.user plainFn)]

/-- The state after `startTracking(div)` followed at once by `stopTracking()`. -/
def inlineRoundTrip : World :=
  (stopTracking (startTracking inlineWorld (some rootDiv)).world).world

/-! ## Projections used to state what a method leaves unchanged -/

/-- The fields that decide whether a session is active, which functions sit at
the global entry points, and the selection. -/
def World.control (w : World) : Bool × Bool × EntryPoint × EntryPoint × Selection :=
  (w.isTracking, w.hasInterceptedEventTarget, w.addEventListener, w.removeEventListener,
    w.selectedEventTypes)

/-- The control fields together with the listener registry. -/
def World.frame (w : World) :
    (Bool × Bool × EntryPoint × EntryPoint × Selection) × List Registration :=
  (w.control, w.listeners)

/-- The capture and the bubble registration on `document` for each of the
given types. -/
def perTypeListeners : List String → List Registration
  | [] => []
  | t :: ts =>
    ⟨TargetRef.document, t, Callback.capture, true⟩
      :: ⟨TargetRef.document, t, Callback.bubble, false⟩ :: perTypeListeners ts

/-- The registrations that the listener installation of `startTracking` makes
for the active types: the per-type pairs, the click analyzer, the submit
analyzer and the throttled mousemove handler when their type is active, and
the navigation handler on `window` for the four navigation types when one of
them is active. -/
def installedListeners (active : List String) : List Registration :=
  perTypeListeners active
  ++ (if active.contains "click" then
        [⟨TargetRef.document, "click", Callback.clickWithDetails, true⟩] else [])
  ++ (if active.contains "submit" then
        [⟨TargetRef.document, "submit", Callback.formSubmit, true⟩] else [])
  ++ (if active.contains "mousemove" then
        [⟨TargetRef.document, "mousemove", Callback.mouseMove, true⟩] else [])
  ++ (if active.any (fun t => navigationTypes.contains t) then
        navigationTypes.map (fun t => ⟨TargetRef.window, t, Callback.navigation, false⟩) else [])

/-- The registrations that `stopTracking` removes for the active types: the
per-type pairs, the three special listeners and the four navigation listeners. -/
def removedListeners (active : List String) : List Registration :=
  perTypeListeners active
  ++ [⟨TargetRef.document, "click", Callback.clickWithDetails, true⟩,
      ⟨TargetRef.document, "submit", Callback.formSubmit, true⟩,
      ⟨TargetRef.document, "mousemove", Callback.mouseMove, true⟩]
  ++ navigationTypes.map (fun t => ⟨TargetRef.window, t, Callback.navigation, false⟩)

/-- Whether a registration holds a closure of the Bootstrap adapter. -/
def isAdapterListener (r : Registration) : Bool :=
  match r.callback with
  | .bootstrapModal _ => true
  | _ => false

/-- The registry of the second world is the registry of the first followed by
new registrations that all satisfy `P`. -/
def AddsOnly (P : Registration → Prop) (w w1 : World) : Prop :=
  ∃ news, w1.listeners = w.listeners ++ news ∧ ∀ r ∈ news, P r

/-- A run that completed normally, kept the control fields and removed from
the registry exactly the registrations listed in `gone`. -/
def RemovesExactly (gone : List Registration) (w : World) (r : Run) : Prop :=
  r.thrown = none ∧ r.world.control = w.control ∧
    r.world.listeners = w.listeners.filter (fun x => decide (x ∉ gone))

/-- The second world has the control fields of the first, and its registry is
the registry of the first followed by new registrations that satisfy `P`. -/
def Grows (P : Registration → Prop) (w w1 : World) : Prop :=
  w1.control = w.control ∧ AddsOnly P w w1

/-- What the body of `startTracking` may change, from the world `w` in which
the listener installation starts to a later world `w1`: the registry only
grows, by registrations of the session or of the Bootstrap adapter; the
selection and `isTracking` stay; and the entry points either stay as they
were or, when they were not intercepted, become wrappers that delegate to the
original functions. -/
def Starts (active : List String) (w w1 : World) : Prop :=
  AddsOnly (fun r => r ∈ removedListeners active ∨ isAdapterListener r = true) w w1 ∧
  w1.isTracking = w.isTracking ∧ w1.selectedEventTypes = w.selectedEventTypes ∧
  ((w1.hasInterceptedEventTarget = w.hasInterceptedEventTarget ∧
      w1.addEventListener = w.addEventListener ∧
      w1.removeEventListener = w.removeEventListener) ∨
   (w.hasInterceptedEventTarget = false ∧ w1.hasInterceptedEventTarget = true ∧
      w1.addEventListener = EntryPoint.wrapper EntryPoint.original ∧
      w1.removeEventListener = EntryPoint.wrapper EntryPoint.original))

/-- A fresh tracker with `click` selected on a page where the Bootstrap probe
`[data-bs-toggle], .modal.fade, .bootstrap` finds an element. -/
def bootstrapWorld : World :=
  { freshWorld [("click", true)] [] with page := { plainPage with bootstrapMarkup := true } }

/-- The state after `startTracking(div)` and `stopTracking()` on that page. -/
def bootstrapRoundTrip : World :=
  (stopTracking (startTracking bootstrapWorld (some rootDiv)).world).world

/-- A call of one of the three session methods on the tracker. -/
inductive Call where
  | startTracking (element : Option Elem)
  | stopTracking
  | setSelectedEventTypes (eventTypes : Selection)

/-- The world after a call, also when the call raised. -/
def Call.run (w : World) : Call → World
  | .startTracking element => (DomEventTracker.startTracking w element).world
  | .stopTracking => (DomEventTracker.stopTracking w).world
  | .setSelectedEventTypes eventTypes => (DomEventTracker.setSelectedEventTypes w eventTypes).world

/-- The world after a finite sequence of calls. -/
def runCalls (w : World) (calls : List Call) : World := calls.foldl Call.run w

/-- The state of the global entry points agrees with the flag
`hasInterceptedEventTarget`: when it is set a session is active and both entry
points are wrappers that delegate to the originals; when it is not set both
entry points are the originals. -/
def EntryPointsSound (w : World) : Prop :=
  (w.hasInterceptedEventTarget = true →
    w.isTracking = true ∧ w.addEventListener = EntryPoint.wrapper EntryPoint.original ∧
      w.removeEventListener = EntryPoint.wrapper EntryPoint.original) ∧
  (w.hasInterceptedEventTarget = false →
    w.addEventListener = EntryPoint.original ∧ w.removeEventListener = EntryPoint.original)

/-- Whether a node of the sink is the attachment entry of the
`addEventListener` wrapper for the given type and element. -/
def isAttachment (type elementInfo : String) : LogNode → Bool
  | .log Level.info (Msg.listenerAdded t e _) _ => t == type && e == elementInfo
  | _ => false

/-- The number of attachment entries in the sink for the given type and element. -/
def attachmentEntries (w : World) (type elementInfo : String) : Nat :=
  match w.outputElement with
  | none => 0
  | some sink => sink.countP (isAttachment type elementInfo)

/-- The page calling `this.addEventListener(type, listener, options)` `n` times
in a row with the same arguments. -/
def attachTimes (this : Receiver) (type : String) (listener : Option Callback)
    (options : Options) : Nat → World → World
  | 0, w => w
  | n + 1, w =>
    attachTimes this type listener options n
      (callAddEventListener w this type listener options).world

/-- The conditions under which the wrappers log for the tracked root: the
root is set, the type selected, both wrappers installed, the `info` level
enabled and a sink present. -/
def Logging (root : Elem) (type : String) (w : World) : Prop :=
  w.targetElement = some root ∧ selected w.selectedEventTypes type = true ∧
  w.addEventListener = EntryPoint.wrapper EntryPoint.original ∧
  w.removeEventListener = EntryPoint.wrapper EntryPoint.original ∧
  w.logLevels.info = true ∧ w.outputElement.isSome = true

/-- A world in which the div is tracked, `click` is selected and both
wrappers are installed. -/
def listeningWorld : World :=
  { rootedWorld [("click", true)] with
    addEventListener := EntryPoint.wrapper EntryPoint.original,
    removeEventListener := EntryPoint.wrapper EntryPoint.original,
    hasInterceptedEventTarget := true, isTracking := true }

/-- The state after a listener of the page is attached for `click` first to
the tracked div and then to the button inside it. -/
def attachedToDivThenButton : World :=
  (callAddEventListener
    (callAddEventListener listeningWorld (Receiver.node (NodeRef.elem divInfo)) "click"
      (some (Callback.page 9)) (Options.bool false)).world
    (Receiver.node (NodeRef.elem buttonInfo)) "click" (some (Callback.page 9))
    (Options.bool false)).world

/-- The state after a listener of the page is attached for `click` first to
the button and then to the tracked div that contains it. -/
def attachedToButtonThenDiv : World :=
  (callAddEventListener
    (callAddEventListener listeningWorld (Receiver.node (NodeRef.elem buttonInfo)) "click"
      (some (Callback.page 9)) (Options.bool false)).world
    (Receiver.node (NodeRef.elem divInfo)) "click" (some (Callback.page 9))
    (Options.bool false)).world

/-- The text node inside the tracked div, as a receiver. -/
def textReceiver : Receiver := Receiver.node (NodeRef.other 5 3)

/-- A function of the page that calls `event.preventDefault()` and returns. -/
def preventingFn : UserFn := ⟨12, true, false, false, 1⟩

/-- The session of the scenario after the page runs
`button.onclick = preventingFn`. -/
def assignedSession : World :=
  writeProp clickSession buttonInfo "onclick" (JsValue.fn (Fn.user preventingFn))

/-- A world in which the tracker's accessor for `onclick` is defined on the
button, nothing having been assigned through it. -/
def patchedButtonWorld : World := proxyElementEvents (rootedWorld [("click", true)]) buttonInfo

/-- A span the page inserts into the tracked div during the session. -/
def insertedInfo : ElemInfo := ⟨6, "SPAN", "", "", [], []⟩

/-- The inserted span as a tree. -/
def insertedSpan : Elem := .mk insertedInfo [] []

/-- The tracked div after the span is inserted. -/
def grownDiv : Elem := .mk divInfo [5] [.mk buttonInfo [] [], insertedSpan]

/-- The session of the scenario at the moment the mutation batch is handled:
the page has set `span.onclick = preventingFn` and inserted the span into
the tracked div. -/
def grownSession : World :=
  { clickSession with
    targetElement := some grownDiv,
    handlerSlot := setKey clickSession.handlerSlot (6, "onclick") (Fn.user preventingFn) }

/-- The mutation batch reporting the insertion of the span. -/
def insertionBatch : List MutationRecord :=
  [MutationRecord.childList [AddedNode.element insertedSpan [divInfo, bodyInfo, htmlInfo]]]

/-- The record of popup signatures is the same in both worlds. -/
def KeepsRecord (a b : World) : Prop := b.lastDetectedPopups = a.lastDetectedPopups

/-- Whether a node of the sink is the popup entry of `checkForDialogOrPopup`
for the signature `s`. -/
def isPopupEntry (s : String) : LogNode → Bool
  | .log Level.popup (Msg.popupDetected t) _ => t == s
  | _ => false

/-- The number of popup entries in the sink for the signature `s`. -/
def popupEntries (w : World) (s : String) : Nat :=
  match w.outputElement with
  | none => 0
  | some sink => sink.countP (isPopupEntry s)

/-- The popup entries for `s` that the sink holds, plus one while `s` is not
yet in `lastDetectedPopups`. -/
def popupBudget (w : World) (s : String) : Nat :=
  popupEntries w s + (if w.lastDetectedPopups.contains s then 0 else 1)

/-- The ancestors of a node inserted as a child of the tracked div. -/
def divChain : List ElemInfo := [divInfo, bodyInfo, htmlInfo]

/-- A div with class `my-modal-overlay`. -/
def overlayInfo : ElemInfo :=
  ⟨6, "DIV", "", "my-modal-overlay", ["my-modal-overlay"], [("class", "my-modal-overlay")]⟩

/-- A second div with the same tag, id and class as `overlayInfo`. -/
def overlayTwinInfo : ElemInfo :=
  ⟨7, "DIV", "", "my-modal-overlay", ["my-modal-overlay"], [("class", "my-modal-overlay")]⟩

/-- The session of the scenario after the mutation batch that reports the
insertion of the overlay into the tracked div. -/
def overlayInserted : World :=
  handleMutationBatch clickSession
    [MutationRecord.childList [AddedNode.element (.mk overlayInfo [] []) divChain]]

/-- The state after a second batch reports the insertion of the twin. -/
def overlayInsertedAgain : World :=
  handleMutationBatch overlayInserted
    [MutationRecord.childList [AddedNode.element (.mk overlayTwinInfo [] []) divChain]]

/-- A plain div with the given uid and children. -/
def plainDiv (uid : Nat) (children : List Elem) : Elem :=
  .mk ⟨uid, "DIV", "", "", [], []⟩ [] children

/-- A div with class `modal`. -/
def modalInfo : ElemInfo := ⟨13, "DIV", "", "modal", ["modal"], [("class", "modal")]⟩

/-- A plain div whose great-grandchild is the div with class `modal`: the
modal is three levels below the top. -/
def deepTree : Elem := plainDiv 10 [plainDiv 11 [plainDiv 12 [.mk modalInfo [] []]]]

/-- A fresh tracker on a page where the probe
`.fancybox-container, [data-fancybox]` finds an element and neither `$` nor
`jQuery` is defined. -/
def fancyboxMarkupWorld : World :=
  { freshWorld [("click", true)] [] with page := { plainPage with fancyboxMarkup := true } }

/-- A fresh tracker on a page where the probe `.swal2-container` finds an
element and `Swal` is not defined. -/
def swalMarkupWorld : World :=
  { freshWorld [("click", true)] [] with page := { plainPage with swalMarkup := true } }

/-- A stack text as V8 writes it for a click handled by a function of the page. -/
def pageStack : String :=
  "Error\n at EventTracker.getStackTrace (t.js:9:1)\n at EventTracker.handleCaptureEvent (t.js:6:2)\n at onClick (app.js:1:5)\n at dispatch (app.js:2:3)\n at main (app.js:3:1)"

/-- A stack text in which every frame is marked as the tracker's or the
extension's. -/
def extensionStack : String :=
  "Error\n at EventTracker.getStackTrace (t.js:9:1)\n at a (chrome-extension://x/a.js:1:1)\n at b (chrome-extension://x/b.js:2:2)\n at c (chrome-extension://x/c.js:3:3)"

/-- A link inside the tracked div, with a relative href. -/
def linkInfo : ElemInfo := ⟨8, "A", "", "", [], [("href", "next.html")]⟩

/-- A click on the link, delivered while the div is tracked. -/
def clickOnLink : Event :=
  { clickOnButton with target := some (NodeRef.elem linkInfo),
                       closestChain := [linkInfo, divInfo, bodyInfo, htmlInfo],
                       path := some [TargetRef.node 8, TargetRef.node 3, TargetRef.node 2,
                         TargetRef.node 1, TargetRef.document, TargetRef.window] }

/-- Fields that neither the set-up of a session nor its teardown writes,
apart from `clearLogs`: the event records, the page's libraries, the log
levels and the preserve-logs flag. -/
def World.ledger (w : World) : List EventInfo × Page × LogLevels × Bool :=
  (w.trackedEvents, w.page, w.logLevels, w.preserveLogs)

/-- The second world has the ledger of the first. -/
def KeepsLedger (a b : World) : Prop := b.ledger = a.ledger

/-- The state in which the listener installation of `startTracking(el)`
starts, `w0` being the state once a session that was active has been stopped. -/
def sessionStart (w0 : World) (el : Elem) : World :=
  let w1 := { w0 with targetElement := some el, isTracking := true }
  let w2 := if !w1.preserveLogs then clearLogs w1 else w1
  { w2 with lastDetectedPopups := [] }

/-- What `startTracking(el)` does after the listener installation. -/
def sessionRest (active : List String) (el : Elem) (w4 : World) : Run :=
  let w5 := monitorInlineEventHandlers w4 el
  let w6 := initMutationObserver w5
  (detectUIFrameworks w6).andThen fun w7 =>
  let w8 := interceptEventTargetMethods w7
  let w9 := applyDOMProxies w8 el
  let w10 := addLog w9 Level.info (Msg.trackingStarted (selectorOf el.info))
  let w11 := addLog w10 Level.info (Msg.trackingTypes active)
  Run.ok (addLog w11 Level.info Msg.interceptionEnabled)

/-- C1, the code at the failing input: the div is the tracked root and the
selection is `click` only, so `constructor` is not a selected type
(`getActiveEventTypes` gives `click` alone); yet the lookup
`selectedEventTypes["constructor"]` finds the function the plain object
inherits, `shouldTrackEvent` is true for an event of type `constructor` on the
div, and the capture handler records the event and stops its propagation. -/
theorem inherited_name_in_scope :
    getActiveEventTypes (rootedWorld [("click", true)]).selectedEventTypes = ["click"] ∧
    shouldTrackEvent (rootedWorld [("click", true)]) (eventOnDiv "constructor") = true ∧
    (handleCaptureEvent (rootedWorld [("click", true)])
      (eventOnDiv "constructor")).event.stopPropagationCalls = 1 ∧
    (handleCaptureEvent (rootedWorld [("click", true)])
      (eventOnDiv "constructor")).world.trackedEvents.map (fun i => i.type)
        = [some "constructor"] := by
  decide!

/-- Scope in terms of the lookup `selectedEventTypes[event.type]`: with a
tracked root and a truthy lookup, `shouldTrackEvent` is true exactly when the
target is the root, or the root contains the target, or the root occurs in
the dispatch path (`event.path`, else `event.composedPath()`); with a falsy
lookup it is false. -/
theorem shouldTrackEvent_iff_in_scope (w : World) (root : Elem) (event : Event)
    (hroot : w.targetElement = some root) :
    (selectedOpt w.selectedEventTypes event.type = true →
      (shouldTrackEvent w event = true ↔
        ((∃ n, event.target = some n ∧ n.uid = root.uid) ∨
         (∃ n, event.target = some n ∧ root.containsUid n.uid = true) ∨
         (∃ p, event.dispatchPath = some p ∧ TargetRef.node root.uid ∈ p)))) ∧
    (selectedOpt w.selectedEventTypes event.type = false → shouldTrackEvent w event = false) := by
  constructor
  · intro hsel
    simp only [shouldTrackEvent, hroot, hsel, Bool.not_true, Bool.false_eq_true, if_false,
      Bool.or_eq_true]
    have h1 : targetIs root event = true ↔ ∃ n, event.target = some n ∧ n.uid = root.uid := by
      unfold targetIs
      cases event.target <;> simp
    have h2 : targetWithin root event = true ↔
        ∃ n, event.target = some n ∧ root.containsUid n.uid = true := by
      unfold targetWithin
      cases event.target <;> simp
    have h3 : isTargetInPath root event = true ↔
        ∃ p, event.dispatchPath = some p ∧ TargetRef.node root.uid ∈ p := by
      unfold isTargetInPath Event.dispatchPath
      cases event.path <;> cases event.composedPath <;> simp
    rw [h1, h2, h3, or_assoc]
  · intro hsel
    simp [shouldTrackEvent, hroot, hsel]

/-- With the div as tracked root and `click` selected, the click on the button
is in scope. -/
theorem shouldTrackEvent_iff_in_scope_witness :
    (rootedWorld [("click", true)]).targetElement = some rootDiv ∧
      shouldTrackEvent (rootedWorld [("click", true)]) clickOnButton = true :=
  ⟨rfl, ((shouldTrackEvent_iff_in_scope (rootedWorld [("click", true)]) rootDiv clickOnButton
      rfl).1 (by decide)).2 (Or.inr (Or.inl ⟨_, rfl, by decide⟩))⟩

/-! ## C2 -/

/-- C2, counterexample: after `startTracking(div)` and `stopTracking()` no
session is active, yet `shouldTrackEvent` is true for a click on the button. -/
theorem stopped_session_still_tracks :
    stoppedSession.isTracking = false ∧ shouldTrackEvent stoppedSession clickOnButton = true := by
  decide!

/-- C2, amended: without a tracked root (`targetElement` null, as before the
first `startTracking` and after `destroy`) `shouldTrackEvent` is false for
every event; and `shouldTrackEvent` does not read `isTracking`, so clearing
it changes no answer. -/
theorem shouldTrackEvent_false_without_root (w : World) (event : Event) :
    (w.targetElement = none → shouldTrackEvent w event = false) ∧
    shouldTrackEvent { w with isTracking := false } event = shouldTrackEvent w event := by
  constructor
  · intro h
    simp [shouldTrackEvent, h]
  · rfl

/-- Witness for C2, amended: a fresh tracker has no root and tracks no click. -/
theorem shouldTrackEvent_false_without_root_witness :
    (freshWorld [("click", true)] []).targetElement = none ∧
      shouldTrackEvent (freshWorld [("click", true)] []) clickOnButton = false :=
  ⟨rfl, (shouldTrackEvent_false_without_root (freshWorld [("click", true)] []) clickOnButton).1 rfl⟩

/-! ## C3 -/

/-- C3, the code at the scenario: one click on the button, dispatched through
the capture and bubble phases, leaves exactly one entry in `trackedEvents`,
of phase `capture` and target `button`, and none of phase `bubble`; the
propagation was stopped on `document` in the capture phase (by the capture
handler and by the click analyzer), and the listeners on `document.body`
received nothing. -/
theorem click_on_button_logs_capture_only :
    clickSession.trackedEvents = [] ∧
    (dispatchEvent clickSession clickOnButton buttonPath).1.trackedEvents.map
        (fun i => (i.type, i.phase, i.target)) = [(some "click", "capture", "button")] ∧
    (dispatchEvent clickSession clickOnButton buttonPath).2.stopPropagationCalls = 2 ∧
    (dispatchEvent clickSession clickOnButton buttonPath).1.received = [] ∧
    (dispatchEvent (freshWorld [("click", true)] []) clickOnButton buttonPath).1.received
      = [(TargetRef.node 2, 7), (TargetRef.node 2, 7)] := by
  decide!

/-! ## C4 -/

/-- What C4 states for an event whose target is an element or null: the
handler stops the propagation exactly when the event is in scope, and with
the `event` level enabled it appends exactly one entry, of its phase, for
exactly those events. -/
theorem handleCaptureEvent_on_element (w : World) (event : Event)
    (htarget : ∀ u t, event.target ≠ some (NodeRef.other u t)) :
    (handleCaptureEvent w event).event.stopPropagationCalls =
      event.stopPropagationCalls + (if shouldTrackEvent w event then 1 else 0) ∧
    (w.logLevels.event = true →
      ∃ sel, (handleCaptureEvent w event).world.trackedEvents =
        w.trackedEvents ++ (if shouldTrackEvent w event then
          [⟨event.type, "capture", sel, w.now, getStackTrace w⟩] else [])) := by
  unfold handleCaptureEvent logEvent
  cases hs : shouldTrackEvent w event
  · simp
  · cases hl : w.logLevels.event
    · simp [Event.stopPropagation]
    · cases ht : event.target with
      | none => simp [getElementSelector, renderEventLog, Event.stopPropagation]; split <;> simp
      | some n =>
        cases n with
        | other u t => exact absurd ht (htarget u t)
        | elem e => simp [getElementSelector, renderEventLog, Event.stopPropagation]; split <;> simp

/-- The same for `handleBubbleEvent`. -/
theorem handleBubbleEvent_on_element (w : World) (event : Event)
    (htarget : ∀ u t, event.target ≠ some (NodeRef.other u t)) :
    (handleBubbleEvent w event).event.stopPropagationCalls =
      event.stopPropagationCalls + (if shouldTrackEvent w event then 1 else 0) ∧
    (w.logLevels.event = true →
      ∃ sel, (handleBubbleEvent w event).world.trackedEvents =
        w.trackedEvents ++ (if shouldTrackEvent w event then
          [⟨event.type, "bubble", sel, w.now, getStackTrace w⟩] else [])) := by
  unfold handleBubbleEvent logEvent
  cases hs : shouldTrackEvent w event
  · simp
  · cases hl : w.logLevels.event
    · simp [Event.stopPropagation]
    · cases ht : event.target with
      | none => simp [getElementSelector, renderEventLog, Event.stopPropagation]; split <;> simp
      | some n =>
        cases n with
        | other u t => exact absurd ht (htarget u t)
        | elem e => simp [getElementSelector, renderEventLog, Event.stopPropagation]; split <;> simp

/-- C4, the code at the failing input: a click dispatched on the text node
inside the tracked div is in scope, yet neither handler stops its propagation
or appends an entry; each raises the `TypeError` of `getElementSelector`. -/
theorem handlers_raise_on_text_target :
    clickSession.logLevels.event = true ∧
    shouldTrackEvent clickSession clickOnText = true ∧
    (handleCaptureEvent clickSession clickOnText).event.stopPropagationCalls = 0 ∧
    (handleCaptureEvent clickSession clickOnText).world.trackedEvents = [] ∧
    (handleCaptureEvent clickSession clickOnText).thrown
      = some (JsError.typeError "element.tagName is undefined") ∧
    (handleBubbleEvent clickSession clickOnText).event.stopPropagationCalls = 0 ∧
    (handleBubbleEvent clickSession clickOnText).world.trackedEvents = [] ∧
    (handleBubbleEvent clickSession clickOnText).thrown
      = some (JsError.typeError "element.tagName is undefined") := by
  decide!

/-! ## C5 -/

/-- An event for whose type the lookup `selectedEventTypes[event.type]` is
falsy is never in scope. -/
theorem shouldTrackEvent_unselected (w : World) (event : Event)
    (hsel : selectedOpt w.selectedEventTypes event.type = false) :
    shouldTrackEvent w event = false := by
  unfold shouldTrackEvent
  cases w.targetElement <;> simp [hsel]

/-- C5, counterexample: in a session where only `hashchange` is selected,
(a) a `popstate` event fired on the tracked div reaches the navigation handler
on `window` and is logged, and (b) a `click` fired on the tracked div, whose
`onclick` the page had set, runs the wrapper of `monitorInlineEventHandlers`,
which stops the propagation and logs the trigger. -/
theorem unselected_type_logged_and_stopped :
    selected hashchangeSession.selectedEventTypes "popstate" = false ∧
    selected hashchangeSession.selectedEventTypes "click" = false ∧
    hashchangeSession.isTracking = true ∧
    (dispatchEvent hashchangeSession (eventOnDiv "popstate") divPath).1.outputElement
      = hashchangeSession.outputElement.map (fun sink => sink ++
          [LogNode.log Level.navigation (Msg.navigation (some "popstate") "无状态数据") none]) ∧
    (dispatchEvent hashchangeSession (eventOnDiv "click") divPath).2.stopPropagationCalls = 1 ∧
    (dispatchEvent hashchangeSession (eventOnDiv "click") divPath).1.outputElement
      = hashchangeSession.outputElement.map (fun sink => sink ++
          [LogNode.log Level.info (Msg.inlineTriggered "onclick" "div#x") (some "at f (a.js:1:1)"),
           LogNode.log Level.stack (Msg.stackText "at f (a.js:1:1)") none,
           LogNode.log Level.info (Msg.stoppedBubbling "onclick") none]) := by
  decide!

/-- C5, amended: for an event for whose type the lookup
`selectedEventTypes[event.type]` is falsy (the type is not selected and is not
a name the selection object inherits from `Object.prototype`), the capture,
bubble, click-analyzer, submit-analyzer and throttled mousemove handlers leave
the event, the sink and `trackedEvents` as they are; the navigation handler
makes no call on the event, and logs it whatever the selection: one
`navigation` node when that level is enabled and there is a sink. -/
theorem unselected_type_ignored_by_document_handlers (w : World) (event : Event)
    (hsel : selectedOpt w.selectedEventTypes event.type = false) :
    Untouched w event (handleCaptureEvent w event) ∧
    Untouched w event (handleBubbleEvent w event) ∧
    Untouched w event (handleClickWithDetails w event) ∧
    Untouched w event (handleFormSubmit w event) ∧
    Untouched w event (boundHandleMouseMove w event) ∧
    (handleNavigationEvent w event).event = event ∧
    (∀ sink, w.outputElement = some sink → w.logLevels.navigation = true →
      (handleNavigationEvent w event).world.outputElement = some (sink ++
        [LogNode.log Level.navigation (Msg.navigation event.type (navigationDetails event))
          none])) := by
  have hs := shouldTrackEvent_unselected w event hsel
  have hs2 : ∀ l : Nat, shouldTrackEvent { w with mouseMoveLastCall := l } event = false :=
    fun l => shouldTrackEvent_unselected { w with mouseMoveLastCall := l } event hsel
  refine ⟨?_, ?_, ?_, ?_, ?_, rfl, ?_⟩
  · simp [Untouched, handleCaptureEvent, hs]
  · simp [Untouched, handleBubbleEvent, hs]
  · unfold handleClickWithDetails
    cases h : isEventTrackerElement event.target event.closestChain with
    | error err => simp [Untouched]
    | ok b => cases b <;> simp [Untouched, hs]
  · simp [Untouched, handleFormSubmit, hs]
  · unfold boundHandleMouseMove handleMouseMove
    split
    · simp [Untouched, hs2]
    · simp [Untouched]
  · intro sink hsink hnav
    simp [handleNavigationEvent, addLog, LogLevels.get, hsink, hnav, addLogStack]

/-- Witness for C5, amended: `keydown` is not selected in the click session. -/
theorem unselected_type_ignored_by_document_handlers_witness :
    selectedOpt clickSession.selectedEventTypes (eventOnDiv "keydown").type = false ∧
    Untouched clickSession (eventOnDiv "keydown")
      (handleCaptureEvent clickSession (eventOnDiv "keydown")) :=
  ⟨by decide!, (unselected_type_ignored_by_document_handlers clickSession (eventOnDiv "keydown")
    (by decide!)).1⟩

/-! ## C6 -/

/-- C6, the code at the failing input: a session with `click` and `keydown`
selected is restarted by `setSelectedEventTypes` with `keydown` only.  One
session is active afterwards and a click logs nothing, but the capture and
the bubble listener of the first session for `click` are still registered on
`document`. -/
theorem reselect_leaves_click_listeners :
    afterReselect.isTracking = true ∧
    selected afterReselect.selectedEventTypes "click" = false ∧
    afterReselect.listeners.filter
        (fun r => r.target == TargetRef.document && r.type == "click")
      = [⟨TargetRef.document, "click", Callback.capture, true⟩,
         ⟨TargetRef.document, "click", Callback.bubble, false⟩] ∧
    (dispatchEvent afterReselect clickOnButton buttonPath).1.trackedEvents = [] ∧
    (dispatchEvent afterReselect clickOnButton buttonPath).1.outputElement
      = afterReselect.outputElement := by
  decide!

/-! ## C7 -/

/-- C7, the code at the failing input: the page has set `div.onclick` to a
function `f`, `click` is selected, and `startTracking(div)` is followed at
once by `stopTracking()`.  Before, the property reads `f`, and calling it
neither stops the propagation nor logs.  Afterwards no session is active and
the property reads the wrapper of `monitorInlineEventHandlers` around `f`;
calling it stops the propagation and appends three log nodes. -/
theorem inline_handler_not_restored :
    readProp inlineWorld divInfo "onclick" = JsValue.fn (Fn.user plainFn) ∧
    (callFn inlineWorld divInfo (eventOnDiv "click") (Fn.user plainFn)).event.stopPropagationCalls
      = 0 ∧
    (callFn inlineWorld divInfo (eventOnDiv "click") (Fn.user plainFn)).world.outputElement
      = inlineWorld.outputElement ∧
    inlineRoundTrip.isTracking = false ∧
    readProp inlineRoundTrip divInfo "onclick"
      = JsValue.fn (Fn.inlineWrapper divInfo "onclick" (Fn.user plainFn)) ∧
    (callFn inlineRoundTrip divInfo (eventOnDiv "click")
        (Fn.inlineWrapper divInfo "onclick" (Fn.user plainFn))).event.stopPropagationCalls = 1 ∧
    (callFn inlineRoundTrip divInfo (eventOnDiv "click")
        (Fn.inlineWrapper divInfo "onclick" (Fn.user plainFn))).world.outputElement
      = inlineRoundTrip.outputElement.map (fun sink => sink ++
          [LogNode.log Level.info (Msg.inlineTriggered "onclick" "div#x") (some "at f (a.js:1:1)"),
           LogNode.log Level.stack (Msg.stackText "at f (a.js:1:1)") none,
           LogNode.log Level.info (Msg.stoppedBubbling "onclick") none]) := by
  decide!

/-! ## Frame lemmas: what the bookkeeping methods leave unchanged -/

theorem foldl_frame {α β : Type} (proj : World → β) (f : World → α → World)
    (h : ∀ w a, proj (f w a) = proj w) (xs : List α) (w : World) :
    proj (xs.foldl f w) = proj w := by
  induction xs generalizing w with
  | nil => rfl
  | cons x xs ih => simp only [List.foldl_cons]; rw [ih, h]

theorem andThen_frame {β : Type} (proj : World → β) (r : Run) (f : World → Run)
    (h : ∀ w, proj (f w).world = proj w) : proj (r.andThen f).world = proj r.world := by
  unfold Run.andThen
  cases r.thrown with
  | none => exact h _
  | some e => rfl

theorem addLog_frame (w : World) (level : Level) (msg : Msg) :
    (addLog w level msg).frame = w.frame := by
  unfold addLog
  split
  · split <;> rfl
  · rfl

theorem writeProp_frame (w : World) (element : ElemInfo) (prop : String) (value : JsValue) :
    (writeProp w element prop value).frame = w.frame := by
  unfold writeProp
  split
  · cases value with
    | fn f => exact addLog_frame w _ _
    | null => rfl
    | other t => rfl
  · cases value <;> rfl

theorem monitorHandler_frame (w : World) (element : ElemInfo) (eventType : String) :
    (monitorHandler w element eventType).frame = w.frame := by
  unfold monitorHandler
  simp only
  split
  · split
    · rfl
    · rw [writeProp_frame]; rfl
  · rfl

theorem monitorInlineEventHandlers_frame (w : World) (root : Elem) :
    (monitorInlineEventHandlers w root).frame = w.frame := by
  unfold monitorInlineEventHandlers
  apply foldl_frame
  intro w1 el
  unfold monitorElement
  apply foldl_frame
  intro w2 t
  exact monitorHandler_frame w2 el t

theorem restoreElementHandlers_frame (w : World) (element : ElemInfo) :
    (restoreElementHandlers w element).frame = w.frame := by
  unfold restoreElementHandlers
  split
  · rfl
  · show World.frame (List.foldl _ w _) = w.frame
    apply foldl_frame
    intro w1 h
    exact writeProp_frame w1 element h.1 _

theorem restoreInlineEventHandlers_frame (w : World) :
    (restoreInlineEventHandlers w).frame = w.frame := by
  unfold restoreInlineEventHandlers
  split
  · rfl
  · show World.frame (List.foldl _ w _) = w.frame
    exact foldl_frame _ _ restoreElementHandlers_frame _ _

theorem proxyElementEvents_frame (w : World) (element : ElemInfo) :
    (proxyElementEvents w element).frame = w.frame := by
  unfold proxyElementEvents
  apply foldl_frame
  intro w1 prop
  split <;> rfl

mutual
theorem applyProxies_frame (w : World) : (e : Elem) → (applyProxies w e).frame = w.frame
  | .mk info _ cs => by
    unfold applyProxies
    split
    · rfl
    · rw [applyProxiesList_frame _ cs]
      exact proxyElementEvents_frame w info
theorem applyProxiesList_frame (w : World) :
    (es : List Elem) → (applyProxiesList w es).frame = w.frame
  | [] => by unfold applyProxiesList; rfl
  | c :: cs => by
    unfold applyProxiesList
    rw [applyProxiesList_frame _ cs, applyProxies_frame w c]
end

theorem applyDOMProxies_frame (w : World) (root : Elem) :
    (applyDOMProxies w root).frame = w.frame := by
  unfold applyDOMProxies
  rw [addLog_frame, applyProxies_frame]

mutual
theorem restoreElement_frame (w : World) : (e : Elem) → (restoreElement w e).frame = w.frame
  | .mk info _ cs => by
    unfold restoreElement
    split
    · rfl
    · rw [restoreElementList_frame _ cs]
      show World.frame (List.foldl _ w _) = w.frame
      apply foldl_frame
      intro w1 prop
      rfl
theorem restoreElementList_frame (w : World) :
    (es : List Elem) → (restoreElementList w es).frame = w.frame
  | [] => by unfold restoreElementList; rfl
  | c :: cs => by
    unfold restoreElementList
    rw [restoreElementList_frame _ cs, restoreElement_frame w c]
end

theorem restoreDOMProxies_frame (w : World) : (restoreDOMProxies w).frame = w.frame := by
  unfold restoreDOMProxies
  rw [addLog_frame]
  split
  · exact restoreElement_frame w _
  · rfl

/-! ## The listener registry through the entry points -/

theorem andThen_rel (R : World → World → Prop) (htrans : ∀ a b c, R a b → R b c → R a c)
    (w : World) (r : Run) (f : World → Run) (hr : R w r.world)
    (hf : ∀ w1, R w1 (f w1).world) : R w (r.andThen f).world := by
  unfold Run.andThen
  cases r.thrown with
  | none => exact htrans _ _ _ hr (hf _)
  | some e => exact hr

theorem foldl_run_rel {α : Type} (R : World → World → Prop)
    (htrans : ∀ a b c, R a b → R b c → R a c) (f : World → α → Run) (xs : List α)
    (hf : ∀ w1 a, a ∈ xs → R w1 (f w1 a).world) (w : World) (r : Run) (hr : R w r.world) :
    R w (xs.foldl (fun (acc : Run) a => acc.andThen (fun w1 => f w1 a)) r).world := by
  induction xs generalizing r with
  | nil => exact hr
  | cons x xs ih =>
    simp only [List.foldl_cons]
    apply ih (fun w1 a ha => hf w1 a (List.mem_cons_of_mem _ ha))
    exact andThen_rel R htrans w r _ hr (fun w1 => hf w1 x (List.mem_cons_self _ _))

theorem addsOnly_refl (P : Registration → Prop) (w : World) : AddsOnly P w w :=
  ⟨[], by simp, by simp⟩

theorem addsOnly_of_eq (P : Registration → Prop) (w w1 : World)
    (h : w1.listeners = w.listeners) : AddsOnly P w w1 :=
  ⟨[], by simp [h], by simp⟩

theorem addsOnly_of_frame (P : Registration → Prop) (w w1 : World)
    (h : w1.frame = w.frame) : AddsOnly P w w1 :=
  addsOnly_of_eq P w w1 (congrArg Prod.snd h)

theorem addsOnly_trans (P : Registration → Prop) (a b c : World)
    (h1 : AddsOnly P a b) (h2 : AddsOnly P b c) : AddsOnly P a c := by
  obtain ⟨n1, e1, p1⟩ := h1
  obtain ⟨n2, e2, p2⟩ := h2
  refine ⟨n1 ++ n2, by rw [e2, e1, List.append_assoc], ?_⟩
  intro r hr
  rcases List.mem_append.1 hr with h | h
  · exact p1 r h
  · exact p2 r h

theorem addsOnly_mono (P Q : Registration → Prop) (hPQ : ∀ r, P r → Q r) (a b : World)
    (h : AddsOnly P a b) : AddsOnly Q a b := by
  obtain ⟨n, e, p⟩ := h
  exact ⟨n, e, fun r hr => hPQ r (p r hr)⟩

theorem addBookkeeping_frame (w : World) (this : Receiver) (type : String)
    (listener : Option Callback) (options : Options) :
    (addBookkeeping w this type listener options).world.frame = w.frame := by
  unfold addBookkeeping
  split
  · split
    · simp only
      split
      · rfl
      · split
        · rfl
        · split
          · exact addLog_frame _ _ _ |>.trans (addLog_frame _ _ _)
          · exact addLog_frame _ _ _
    · rfl
  · rfl

theorem removeBookkeeping_frame (w : World) (this : Receiver) (type : String)
    (listener : Option Callback) (options : Options) :
    (removeBookkeeping w this type listener options).frame = w.frame := by
  unfold removeBookkeeping
  split
  · split
    · simp only
      split
      · exact addLog_frame _ _ _
      · split <;> exact addLog_frame _ _ _
    · rfl
  · rfl

theorem runAddEntry_control (ep : EntryPoint) (w : World) (this : Receiver) (type : String)
    (listener : Option Callback) (options : Options) :
    (runAddEntry ep w this type listener options).world.control = w.control := by
  induction ep generalizing w with
  | original =>
    unfold runAddEntry hostAddEventListener
    cases listener with
    | none => rfl
    | some cb => simp only [Run.ok]; split <;> rfl
  | wrapper d ih =>
    unfold runAddEntry
    rw [andThen_frame World.control _ _ (fun w1 => ih w1)]
    exact congrArg Prod.fst (addBookkeeping_frame w this type listener options)

theorem runAddEntry_addsOnly (ep : EntryPoint) (w : World) (this : Receiver) (type : String)
    (cb : Callback) (options : Options) :
    AddsOnly (fun r => r = ⟨this.toTargetRef, type, cb, options.captureFlag⟩) w
      (runAddEntry ep w this type (some cb) options).world := by
  induction ep generalizing w with
  | original =>
    unfold runAddEntry hostAddEventListener
    simp only [Run.ok]
    split
    · exact addsOnly_refl _ _
    · exact ⟨[_], rfl, by simp⟩
  | wrapper d ih =>
    unfold runAddEntry
    apply andThen_rel _ (addsOnly_trans _)
    · exact addsOnly_of_frame _ _ _ (addBookkeeping_frame w this type (some cb) options)
    · exact fun w1 => ih w1

theorem runRemoveEntry_removes (ep : EntryPoint) (w : World) (this : Receiver) (type : String)
    (cb : Callback) (options : Options) :
    RemovesExactly [⟨this.toTargetRef, type, cb, options.captureFlag⟩] w
      (runRemoveEntry ep w this type (some cb) options) := by
  induction ep generalizing w with
  | original =>
    unfold runRemoveEntry hostRemoveEventListener RemovesExactly
    refine ⟨rfl, rfl, ?_⟩
    simp only [Run.ok]
    apply List.filter_congr
    intro x _
    by_cases hx : x = ⟨this.toTargetRef, type, cb, options.captureFlag⟩ <;> simp [hx]
  | wrapper d ih =>
    unfold runRemoveEntry
    have h := ih (removeBookkeeping w this type (some cb) options)
    have hf := removeBookkeeping_frame w this type (some cb) options
    unfold RemovesExactly at h ⊢
    have hl : (removeBookkeeping w this type (some cb) options).listeners = w.listeners :=
      congrArg Prod.snd hf
    refine ⟨h.1, h.2.1.trans (congrArg Prod.fst hf), ?_⟩
    rw [h.2.2, hl]

theorem removesExactly_andThen (g1 g2 : List Registration) (w : World) (r : Run)
    (f : World → Run) (h1 : RemovesExactly g1 w r) (h2 : ∀ w1, RemovesExactly g2 w1 (f w1)) :
    RemovesExactly (g1 ++ g2) w (r.andThen f) := by
  obtain ⟨t1, c1, l1⟩ := h1
  obtain ⟨t2, c2, l2⟩ := h2 r.world
  unfold Run.andThen
  rw [t1]
  refine ⟨t2, c2.trans c1, ?_⟩
  simp only
  rw [l2, l1, List.filter_filter]
  apply List.filter_congr
  intro x _
  by_cases h1 : x ∈ g1 <;> by_cases h2 : x ∈ g2 <;> simp [h1, h2]

theorem removesExactly_congr (g1 g2 : List Registration) (w : World) (r : Run)
    (hg : ∀ x, x ∈ g1 ↔ x ∈ g2) (h : RemovesExactly g1 w r) : RemovesExactly g2 w r := by
  obtain ⟨t, c, l⟩ := h
  refine ⟨t, c, ?_⟩
  rw [l]
  apply List.filter_congr
  intro x _
  simp [hg x]

theorem removesExactly_ok (w : World) : RemovesExactly [] w (Run.ok w) := by
  refine ⟨rfl, rfl, ?_⟩
  simp [Run.ok]

theorem foldl_removes (regs : String → List Registration) (step : World → String → Run)
    (hstep : ∀ w t, RemovesExactly (regs t) w (step w t)) (ts : List String)
    (g : List Registration) (w : World) (r : Run) (hr : RemovesExactly g w r) :
    RemovesExactly (g ++ ts.flatMap regs) w
      (ts.foldl (fun (acc : Run) t => acc.andThen (fun w1 => step w1 t)) r) := by
  induction ts generalizing g r with
  | nil => simpa using hr
  | cons t ts ih =>
    simp only [List.foldl_cons, List.flatMap_cons]
    rw [← List.append_assoc]
    exact ih _ _ (removesExactly_andThen g (regs t) w r _ hr (fun w1 => hstep w1 t))

theorem forEachType_removes (regs : String → List Registration) (step : World → String → Run)
    (hstep : ∀ w t, RemovesExactly (regs t) w (step w t)) (ts : List String) (w : World) :
    RemovesExactly (ts.flatMap regs) w (forEachType step ts w) := by
  have h := foldl_removes regs step hstep ts [] w (Run.ok w) (removesExactly_ok w)
  simpa [forEachType] using h

theorem callRemove_removes (w : World) (this : Receiver) (type : String) (cb : Callback)
    (options : Options) :
    RemovesExactly [⟨this.toTargetRef, type, cb, options.captureFlag⟩] w
      (callRemoveEventListener w this type (some cb) options) :=
  runRemoveEntry_removes w.removeEventListener w this type cb options

theorem mem_perTypeListeners (x : Registration) (ts : List String) :
    x ∈ perTypeListeners ts ↔
      ∃ t ∈ ts, x = ⟨TargetRef.document, t, Callback.capture, true⟩ ∨
        x = ⟨TargetRef.document, t, Callback.bubble, false⟩ := by
  induction ts with
  | nil => simp [perTypeListeners]
  | cons t ts ih => simp [perTypeListeners, ih, or_assoc]

theorem removeListeners_removes (w : World) (active : List String) :
    RemovesExactly (removedListeners active) w (removeListeners w active) := by
  unfold removeListeners
  refine removesExactly_congr
    (active.flatMap (fun t => [⟨TargetRef.document, t, Callback.capture, true⟩] ++
        [⟨TargetRef.document, t, Callback.bubble, false⟩]) ++
      ([⟨TargetRef.document, "click", Callback.clickWithDetails, true⟩] ++
        ([⟨TargetRef.document, "submit", Callback.formSubmit, true⟩] ++
          ([⟨TargetRef.document, "mousemove", Callback.mouseMove, true⟩] ++
            navigationTypes.flatMap
              (fun t => [⟨TargetRef.window, t, Callback.navigation, false⟩])))))
    _ w _ ?_ ?_
  · intro x
    simp only [removedListeners, mem_perTypeListeners, List.mem_append, List.mem_flatMap,
      List.mem_cons, List.mem_singleton, List.mem_map, navigationTypes, List.not_mem_nil,
      or_false]
    constructor
    · rintro (h | h | h | h | h)
      · exact Or.inl (Or.inl h)
      · exact Or.inl (Or.inr (Or.inl h))
      · exact Or.inl (Or.inr (Or.inr (Or.inl h)))
      · exact Or.inl (Or.inr (Or.inr (Or.inr h)))
      · obtain ⟨t, ht, hx⟩ := h
        exact Or.inr ⟨t, ht, hx.symm⟩
    · rintro ((h | h | h | h) | h)
      · exact Or.inl h
      · exact Or.inr (Or.inl h)
      · exact Or.inr (Or.inr (Or.inl h))
      · exact Or.inr (Or.inr (Or.inr (Or.inl h)))
      · obtain ⟨t, ht, hx⟩ := h
        exact Or.inr (Or.inr (Or.inr (Or.inr ⟨t, ht, hx.symm⟩)))
  · apply removesExactly_andThen
    · apply forEachType_removes
      intro w1 t
      apply removesExactly_andThen
      · exact callRemove_removes w1 Receiver.document t Callback.capture (Options.bool true)
      · intro w2
        exact callRemove_removes w2 Receiver.document t Callback.bubble (Options.bool false)
    · intro w1
      apply removesExactly_andThen
      · exact callRemove_removes w1 Receiver.document "click" Callback.clickWithDetails
          (Options.bool true)
      · intro w2
        apply removesExactly_andThen
        · exact callRemove_removes w2 Receiver.document "submit" Callback.formSubmit
            (Options.bool true)
        · intro w3
          apply removesExactly_andThen
          · exact callRemove_removes w3 Receiver.document "mousemove" Callback.mouseMove
              (Options.bool true)
          · intro w4
            apply forEachType_removes
            intro w5 t
            exact callRemove_removes w5 Receiver.window t Callback.navigation Options.undefined

/-! ## Installation of listeners and framework adapters -/

theorem grows_refl (P : Registration → Prop) (w : World) : Grows P w w :=
  ⟨rfl, addsOnly_refl P w⟩

theorem grows_trans (P : Registration → Prop) (a b c : World)
    (h1 : Grows P a b) (h2 : Grows P b c) : Grows P a c :=
  ⟨h2.1.trans h1.1, addsOnly_trans P a b c h1.2 h2.2⟩

theorem grows_of_frame (P : Registration → Prop) (w w1 : World) (h : w1.frame = w.frame) :
    Grows P w w1 :=
  ⟨congrArg Prod.fst h, addsOnly_of_frame P w w1 h⟩

theorem grows_mono (P Q : Registration → Prop) (hPQ : ∀ r, P r → Q r) (a b : World)
    (h : Grows P a b) : Grows Q a b :=
  ⟨h.1, addsOnly_mono P Q hPQ a b h.2⟩

theorem callAdd_grows (P : Registration → Prop) (w : World) (this : Receiver) (type : String)
    (cb : Callback) (options : Options)
    (hP : P ⟨this.toTargetRef, type, cb, options.captureFlag⟩) :
    Grows P w (callAddEventListener w this type (some cb) options).world :=
  ⟨runAddEntry_control _ w this type (some cb) options,
    addsOnly_mono (fun r => r = ⟨this.toTargetRef, type, cb, options.captureFlag⟩) P
      (fun r hr => by rw [hr]; exact hP) _ _
      (runAddEntry_addsOnly w.addEventListener w this type cb options)⟩

theorem forEachType_grows (P : Registration → Prop) (step : World → String → Run)
    (ts : List String) (hstep : ∀ w1 t, t ∈ ts → Grows P w1 (step w1 t).world) (w : World) :
    Grows P w (forEachType step ts w).world := by
  unfold forEachType
  exact foldl_run_rel (Grows P) (grows_trans P) step ts hstep w (Run.ok w) (grows_refl P w)

theorem installListeners_grows (w : World) (active : List String) :
    Grows (fun r => r ∈ removedListeners active) w (installListeners w active).world := by
  have hper : ∀ t ∈ active,
      (⟨TargetRef.document, t, Callback.capture, true⟩ : Registration) ∈ removedListeners active ∧
      (⟨TargetRef.document, t, Callback.bubble, false⟩ : Registration) ∈ removedListeners active := by
    intro t ht
    simp only [removedListeners, List.mem_append, mem_perTypeListeners]
    exact ⟨Or.inl (Or.inl ⟨t, ht, Or.inl rfl⟩), Or.inl (Or.inl ⟨t, ht, Or.inr rfl⟩)⟩
  have hclick : (⟨TargetRef.document, "click", Callback.clickWithDetails, true⟩ : Registration)
      ∈ removedListeners active := by simp [removedListeners]
  have hsubmit : (⟨TargetRef.document, "submit", Callback.formSubmit, true⟩ : Registration)
      ∈ removedListeners active := by simp [removedListeners]
  have hmove : (⟨TargetRef.document, "mousemove", Callback.mouseMove, true⟩ : Registration)
      ∈ removedListeners active := by simp [removedListeners]
  have hnav : ∀ t ∈ navigationTypes,
      (⟨TargetRef.window, t, Callback.navigation, false⟩ : Registration)
        ∈ removedListeners active := by
    intro t ht
    simp only [removedListeners, List.mem_append, List.mem_map]
    exact Or.inr ⟨t, ht, rfl⟩
  unfold installListeners
  apply andThen_rel _ (grows_trans _)
  · apply forEachType_grows
    intro w1 t ht
    apply andThen_rel _ (grows_trans _)
    · exact callAdd_grows _ w1 Receiver.document t Callback.capture captureOptions (hper t ht).1
    · intro w2
      exact callAdd_grows _ w2 Receiver.document t Callback.bubble bubbleOptions (hper t ht).2
  · intro w1
    simp only
    apply andThen_rel _ (grows_trans _)
    · apply grows_trans _ _ _ _ (grows_of_frame _ _ _ (addLog_frame w1 _ _))
      split
      · exact callAdd_grows _ _ Receiver.document "click" Callback.clickWithDetails
          captureOptions hclick
      · exact grows_refl _ _
    · intro w3
      apply andThen_rel _ (grows_trans _)
      · split
        · exact callAdd_grows _ _ Receiver.document "submit" Callback.formSubmit
            captureOptions hsubmit
        · exact grows_refl _ _
      · intro w4
        apply andThen_rel _ (grows_trans _)
        · split
          · exact callAdd_grows _ _ Receiver.document "mousemove" Callback.mouseMove
              captureOptions hmove
          · exact grows_refl _ _
        · intro w5
          split
          · apply forEachType_grows
            intro w6 t ht
            exact callAdd_grows _ w6 Receiver.window t Callback.navigation Options.undefined
              (hnav t ht)
          · exact grows_refl _ _

theorem monitorBootstrapModals_grows (w : World) :
    Grows (fun r => isAdapterListener r = true) w (monitorBootstrapModals w).world := by
  unfold monitorBootstrapModals
  simp only
  apply andThen_rel _ (grows_trans _)
  · apply foldl_run_rel (Grows _) (grows_trans _)
    · intro w1 t _
      exact callAdd_grows _ w1 Receiver.document t (Callback.bootstrapModal w.closureSerial)
        Options.undefined rfl
    · exact grows_of_frame _ _ _ rfl
  · intro w1
    exact grows_of_frame _ _ _ (addLog_frame w1 _ _)

theorem monitorFrameworkSpecificEvents_grows (w : World) (framework : String) :
    Grows (fun r => isAdapterListener r = true) w
      (monitorFrameworkSpecificEvents w framework).world := by
  unfold monitorFrameworkSpecificEvents
  split
  · exact monitorBootstrapModals_grows w
  · split
    · apply grows_of_frame
      unfold monitorjQueryEvents
      split
      · rfl
      · exact addLog_frame _ _ _
    · split
      · apply grows_of_frame
        unfold monitorSweetAlert
        split
        · rfl
        · exact addLog_frame _ _ _
      · split
        · apply grows_of_frame
          unfold monitorFancybox
          split
          · rfl
          · rfl
          · exact addLog_frame _ _ _
        · split
          · apply grows_of_frame
            unfold monitorLightbox
            split
            · rfl
            · exact addLog_frame _ _ _
          · exact grows_refl _ _

theorem detectUIFrameworks_grows (w : World) :
    Grows (fun r => isAdapterListener r = true) w (detectUIFrameworks w).world := by
  unfold detectUIFrameworks
  simp only
  split
  · exact grows_refl _ _
  · apply foldl_run_rel (Grows _) (grows_trans _)
    · intro w1 f _
      exact monitorFrameworkSpecificEvents_grows w1 f
    · exact grows_of_frame _ _ _ (addLog_frame w _ _)

/-! ## Sessions -/

theorem control_fields (a b : World) (h : a.control = b.control) :
    a.isTracking = b.isTracking ∧ a.hasInterceptedEventTarget = b.hasInterceptedEventTarget ∧
    a.addEventListener = b.addEventListener ∧ a.removeEventListener = b.removeEventListener ∧
    a.selectedEventTypes = b.selectedEventTypes := by
  simpa [World.control] using h

theorem frame_fields (a b : World) (h : a.frame = b.frame) :
    a.control = b.control ∧ a.listeners = b.listeners := by
  simpa [World.frame] using h

theorem restoreEventTargetMethods_fields (w : World) :
    (restoreEventTargetMethods w).isTracking = w.isTracking ∧
    (restoreEventTargetMethods w).hasInterceptedEventTarget = false ∧
    (restoreEventTargetMethods w).selectedEventTypes = w.selectedEventTypes ∧
    (restoreEventTargetMethods w).listeners = w.listeners ∧
    (w.hasInterceptedEventTarget = true →
      (restoreEventTargetMethods w).addEventListener = EntryPoint.original ∧
      (restoreEventTargetMethods w).removeEventListener = EntryPoint.original) ∧
    (w.hasInterceptedEventTarget = false →
      (restoreEventTargetMethods w).addEventListener = w.addEventListener ∧
      (restoreEventTargetMethods w).removeEventListener = w.removeEventListener) := by
  unfold restoreEventTargetMethods
  cases h : w.hasInterceptedEventTarget
  · simp [h]
  · have hf := frame_fields _ _ (addLog_frame
      { w with addEventListener := EntryPoint.original, removeEventListener := EntryPoint.original,
               hasInterceptedEventTarget := false } Level.info Msg.entryPointsRestored)
    have hc := control_fields _ _ hf.1
    simp only [Bool.not_true, Bool.false_eq_true, if_false]
    exact ⟨hc.1, hc.2.1, hc.2.2.2.2, hf.2, fun _ => ⟨hc.2.2.1, hc.2.2.2.1⟩, fun hx => by simp at hx⟩

theorem stopTracking_idle (w : World) (h : w.isTracking = false) : stopTracking w = Run.ok w := by
  unfold stopTracking
  simp [h]

/-- What `stopTracking` does to the control fields and to the registry when a
session is active; it never raises. -/
theorem stopTracking_fields (w : World) (h : w.isTracking = true) :
    (stopTracking w).thrown = none ∧
    (stopTracking w).world.isTracking = false ∧
    (stopTracking w).world.hasInterceptedEventTarget = false ∧
    (stopTracking w).world.selectedEventTypes = w.selectedEventTypes ∧
    (stopTracking w).world.listeners = w.listeners.filter
      (fun x => decide (x ∉ removedListeners (getActiveEventTypes w.selectedEventTypes))) ∧
    (w.hasInterceptedEventTarget = true →
      (stopTracking w).world.addEventListener = EntryPoint.original ∧
      (stopTracking w).world.removeEventListener = EntryPoint.original) ∧
    (w.hasInterceptedEventTarget = false →
      (stopTracking w).world.addEventListener = w.addEventListener ∧
      (stopTracking w).world.removeEventListener = w.removeEventListener) := by
  obtain ⟨t, c, l⟩ := removeListeners_removes w (getActiveEventTypes w.selectedEventTypes)
  have hc := control_fields _ _ c
  have f4 := frame_fields _ _ ((restoreDOMProxies_frame
    { restoreInlineEventHandlers (removeListeners w (getActiveEventTypes w.selectedEventTypes)).world
        with mutationObserver := false }).trans
    (restoreInlineEventHandlers_frame _))
  have hc4 := control_fields _ _ f4.1
  have h5 := restoreEventTargetMethods_fields (restoreDOMProxies
    { restoreInlineEventHandlers (removeListeners w (getActiveEventTypes w.selectedEventTypes)).world
        with mutationObserver := false })
  have f6 := frame_fields _ _ (addLog_frame
    { restoreEventTargetMethods (restoreDOMProxies
        { restoreInlineEventHandlers
            (removeListeners w (getActiveEventTypes w.selectedEventTypes)).world
          with mutationObserver := false })
      with isTracking := false } Level.info Msg.trackingStopped)
  have hc6 := control_fields _ _ f6.1
  have hw : (stopTracking w).world = addLog
      { restoreEventTargetMethods (restoreDOMProxies
          { restoreInlineEventHandlers
              (removeListeners w (getActiveEventTypes w.selectedEventTypes)).world
            with mutationObserver := false })
        with isTracking := false } Level.info Msg.trackingStopped := by
    unfold stopTracking Run.andThen
    simp [h, t, Run.ok]
  have ht : (stopTracking w).thrown = none := by
    unfold stopTracking Run.andThen
    simp [h, t, Run.ok]
  rw [hw]
  refine ⟨ht, hc6.1, hc6.2.1.trans h5.2.1, hc6.2.2.2.2.trans (h5.2.2.1.trans (hc4.2.2.2.2.trans hc.2.2.2.2)),
    f6.2.trans (h5.2.2.2.1.trans (f4.2.trans l)), ?_, ?_⟩
  · intro hi
    have := h5.2.2.2.2.1 (hc4.2.1.trans (hc.2.1.trans hi))
    exact ⟨hc6.2.2.1.trans this.1, hc6.2.2.2.1.trans this.2⟩
  · intro hi
    have := h5.2.2.2.2.2 (hc4.2.1.trans (hc.2.1.trans hi))
    exact ⟨hc6.2.2.1.trans (this.1.trans (hc4.2.2.1.trans hc.2.2.1)),
      hc6.2.2.2.1.trans (this.2.trans (hc4.2.2.2.1.trans hc.2.2.2.1))⟩

theorem run_andThen_ok (r : Run) (f : World → Run) (h : r.thrown = none) :
    r.andThen f = f r.world := by
  unfold Run.andThen
  rw [h]

theorem starts_trans (active : List String) (a b c : World)
    (h1 : Starts active a b) (h2 : Starts active b c) : Starts active a c := by
  obtain ⟨a1, t1, s1, e1⟩ := h1
  obtain ⟨a2, t2, s2, e2⟩ := h2
  refine ⟨addsOnly_trans _ a b c a1 a2, t2.trans t1, s2.trans s1, ?_⟩
  rcases e1 with ⟨x1, y1, z1⟩ | ⟨n1, x1, y1, z1⟩
  · rcases e2 with ⟨x2, y2, z2⟩ | ⟨n2, x2, y2, z2⟩
    · exact Or.inl ⟨x2.trans x1, y2.trans y1, z2.trans z1⟩
    · exact Or.inr ⟨x1 ▸ n2, x2, y2, z2⟩
  · rcases e2 with ⟨x2, y2, z2⟩ | ⟨n2, x2, y2, z2⟩
    · exact Or.inr ⟨n1, x2.trans x1, y2.trans y1, z2.trans z1⟩
    · rw [x1] at n2
      exact absurd n2 (by simp)

theorem starts_of_grows (active : List String) (P : Registration → Prop)
    (hP : ∀ r, P r → r ∈ removedListeners active ∨ isAdapterListener r = true) (w w1 : World)
    (h : Grows P w w1) : Starts active w w1 := by
  have hc := control_fields _ _ h.1
  exact ⟨addsOnly_mono P _ hP w w1 h.2, hc.1, hc.2.2.2.2, Or.inl ⟨hc.2.1, hc.2.2.1, hc.2.2.2.1⟩⟩

theorem starts_of_frame (active : List String) (w w1 : World) (h : w1.frame = w.frame) :
    Starts active w w1 :=
  starts_of_grows active (fun _ => False) (fun _ hr => hr.elim) w w1 (grows_of_frame _ w w1 h)

theorem interceptEventTargetMethods_starts (active : List String) (w : World) :
    Starts active w (interceptEventTargetMethods w) := by
  unfold interceptEventTargetMethods
  cases h : w.hasInterceptedEventTarget
  · have hf := frame_fields _ _ (addLog_frame
      { w with addEventListener := EntryPoint.wrapper EntryPoint.original,
               removeEventListener := EntryPoint.wrapper EntryPoint.original,
               hasInterceptedEventTarget := true } Level.info Msg.entryPointsIntercepted)
    have hc := control_fields _ _ hf.1
    simp only [Bool.false_eq_true, if_false]
    exact ⟨addsOnly_of_eq _ _ _ hf.2, hc.1, hc.2.2.2.2, Or.inr ⟨h, hc.2.1, hc.2.2.1, hc.2.2.2.1⟩⟩
  · simp only [if_true]
    exact starts_of_frame active w w rfl

/-- The body of `startTracking` after the root and `isTracking` are set, from
the listener installation to the last log line: whether it completes or
raises, the world it reaches is related to the world it starts in by `Starts`. -/
theorem startTracking_body_starts (w3 : World) (el : Elem) :
    Starts (getActiveEventTypes w3.selectedEventTypes) w3
      ((installListeners w3 (getActiveEventTypes w3.selectedEventTypes)).andThen fun w4 =>
        (detectUIFrameworks (initMutationObserver (monitorInlineEventHandlers w4 el))).andThen
          fun w7 =>
            Run.ok (addLog (addLog (addLog (applyDOMProxies (interceptEventTargetMethods w7) el)
              Level.info (Msg.trackingStarted (selectorOf el.info)))
              Level.info (Msg.trackingTypes (getActiveEventTypes w3.selectedEventTypes)))
              Level.info Msg.interceptionEnabled)).world := by
  apply andThen_rel _ (starts_trans _)
  · exact starts_of_grows _ _ (fun r hr => Or.inl hr) _ _ (installListeners_grows w3 _)
  · intro w4
    apply andThen_rel _ (starts_trans _)
    · apply starts_trans _ _ _ _ (starts_of_frame _ _ _ (monitorInlineEventHandlers_frame w4 el))
      apply starts_trans _ _ _ _ (starts_of_frame _ _ _
        (addLog_frame { monitorInlineEventHandlers w4 el with mutationObserver := true } _ _))
      exact starts_of_grows _ _ (fun r hr => Or.inr hr) _ _ (detectUIFrameworks_grows _)
    · intro w7
      apply starts_trans _ _ _ _ (interceptEventTargetMethods_starts _ w7)
      apply starts_of_frame
      simp only [Run.ok]
      rw [addLog_frame, addLog_frame, addLog_frame, applyDOMProxies_frame]

/-- The world in which `startTracking(el)` runs its body is the given one,
stopped first when a session was active; the body then relates it to the
world `startTracking` reaches by `Starts`. -/
theorem startTracking_some_starts (w : World) (el : Elem) :
    ∃ w3 : World,
      w3.isTracking = true ∧
      w3.selectedEventTypes = (if w.isTracking then stopTracking w else Run.ok w).world.selectedEventTypes ∧
      w3.listeners = (if w.isTracking then stopTracking w else Run.ok w).world.listeners ∧
      w3.hasInterceptedEventTarget
        = (if w.isTracking then stopTracking w else Run.ok w).world.hasInterceptedEventTarget ∧
      w3.addEventListener = (if w.isTracking then stopTracking w else Run.ok w).world.addEventListener ∧
      w3.removeEventListener
        = (if w.isTracking then stopTracking w else Run.ok w).world.removeEventListener ∧
      Starts (getActiveEventTypes w3.selectedEventTypes) w3 (startTracking w (some el)).world := by
  have hthrown : (if w.isTracking then stopTracking w else Run.ok w).thrown = none := by
    cases h : w.isTracking
    · rfl
    · simpa using (stopTracking_fields w h).1
  unfold startTracking
  rw [run_andThen_ok _ _ hthrown]
  simp only
  generalize (if w.isTracking then stopTracking w else Run.ok w).world = w0
  by_cases hp : w0.preserveLogs = true
  · refine ⟨_, ?_, ?_, ?_, ?_, ?_, ?_, startTracking_body_starts _ el⟩ <;> simp [hp]
  · refine ⟨_, ?_, ?_, ?_, ?_, ?_, ?_, startTracking_body_starts _ el⟩ <;> simp [hp, clearLogs]

theorem installed_subset_removed (active : List String) (r : Registration)
    (h : r ∈ installedListeners active) : r ∈ removedListeners active := by
  simp only [installedListeners, removedListeners, List.mem_append] at h ⊢
  rcases h with (((h | h) | h) | h) | h
  · exact Or.inl (Or.inl h)
  · split at h
    · exact Or.inl (Or.inr (by simp at h; simp [h]))
    · simp at h
  · split at h
    · exact Or.inl (Or.inr (by simp at h; simp [h]))
    · simp at h
  · split at h
    · exact Or.inl (Or.inr (by simp at h; simp [h]))
    · simp at h
  · split at h
    · exact Or.inr h
    · simp at h

/-! ## C8 -/

/-- C8, counterexample: on a page where Bootstrap is detected, `startTracking`
followed by `stopTracking` leaves on `document` the four listeners that the
Bootstrap adapter registered; before, the tracker had none there. -/
theorem bootstrap_listeners_stay :
    bootstrapWorld.listeners.filter (fun r => r.target == TargetRef.document) = [] ∧
    bootstrapRoundTrip.isTracking = false ∧
    bootstrapRoundTrip.listeners.filter (fun r => r.target == TargetRef.document)
      = [⟨TargetRef.document, "show.bs.modal", Callback.bootstrapModal 0, false⟩,
         ⟨TargetRef.document, "shown.bs.modal", Callback.bootstrapModal 0, false⟩,
         ⟨TargetRef.document, "hide.bs.modal", Callback.bootstrapModal 0, false⟩,
         ⟨TargetRef.document, "hidden.bs.modal", Callback.bootstrapModal 0, false⟩] := by
  decide!

/-- C8, amended: for every root and every state, with the selection unchanged
in between, after `startTracking(root)` followed by `stopTracking()`
(1) none of the registrations that the listener installation makes (per-type
capture and bubble listeners, click analyzer, submit analyzer, throttled
mousemove handler, the four navigation listeners) is in the registry;
(2) apart from the closures of the Bootstrap adapter, the registry is the one
from before without the registrations `stopTracking` removes; and
(3) so it is the one from before when none of those was registered before. -/
theorem start_stop_removes_session_listeners (w : World) (root : Elem) :
    (∀ r ∈ installedListeners (getActiveEventTypes w.selectedEventTypes),
      r ∉ (stopTracking (startTracking w (some root)).world).world.listeners) ∧
    (stopTracking (startTracking w (some root)).world).world.listeners.filter
        (fun r => !isAdapterListener r)
      = (w.listeners.filter (fun r => !isAdapterListener r)).filter
          (fun r => decide (r ∉ removedListeners (getActiveEventTypes w.selectedEventTypes))) ∧
    ((∀ r ∈ w.listeners, r ∉ removedListeners (getActiveEventTypes w.selectedEventTypes)) →
      (stopTracking (startTracking w (some root)).world).world.listeners.filter
          (fun r => !isAdapterListener r)
        = w.listeners.filter (fun r => !isAdapterListener r)) := by
  obtain ⟨w3, ht3, hs3, hl3, _, _, _, hstart⟩ := startTracking_some_starts w root
  obtain ⟨⟨news, hnews, hP⟩, htW, hsW, _⟩ := hstart
  -- the world before the body: `w`, or `w` stopped
  have h0 : (if w.isTracking then stopTracking w else Run.ok w).world.selectedEventTypes
        = w.selectedEventTypes ∧
      (if w.isTracking then stopTracking w else Run.ok w).world.listeners.filter
          (fun x => decide (x ∉ removedListeners (getActiveEventTypes w.selectedEventTypes)))
        = w.listeners.filter
          (fun x => decide (x ∉ removedListeners (getActiveEventTypes w.selectedEventTypes))) := by
    cases h : w.isTracking
    · exact ⟨rfl, rfl⟩
    · have hf := stopTracking_fields w h
      simp only [if_true]
      refine ⟨hf.2.2.2.1, ?_⟩
      rw [hf.2.2.2.2.1, List.filter_filter]
      apply List.filter_congr
      intro x _
      simp
  have hsel : (startTracking w (some root)).world.selectedEventTypes = w.selectedEventTypes :=
    hsW.trans (hs3.trans h0.1)
  have hstop := stopTracking_fields (startTracking w (some root)).world (htW.trans ht3)
  have hlist : (stopTracking (startTracking w (some root)).world).world.listeners
      = w.listeners.filter
          (fun x => decide (x ∉ removedListeners (getActiveEventTypes w.selectedEventTypes)))
        ++ news.filter
          (fun x => decide (x ∉ removedListeners (getActiveEventTypes w.selectedEventTypes))) := by
    rw [hstop.2.2.2.2.1, hsel, hnews, hl3, List.filter_append, h0.2]
  have hnewsGone : (news.filter
      (fun x => decide (x ∉ removedListeners (getActiveEventTypes w.selectedEventTypes)))).filter
        (fun r => !isAdapterListener r) = [] := by
    rw [List.filter_filter, List.filter_eq_nil_iff]
    intro r hr
    have := hP r hr
    rw [hs3, h0.1] at this
    rcases this with h | h
    · simp [h]
    · simp [h]
  have h2 : (stopTracking (startTracking w (some root)).world).world.listeners.filter
        (fun r => !isAdapterListener r)
      = (w.listeners.filter (fun r => !isAdapterListener r)).filter
          (fun r => decide (r ∉ removedListeners (getActiveEventTypes w.selectedEventTypes))) := by
    rw [hlist, List.filter_append, hnewsGone, List.append_nil, List.filter_filter,
      List.filter_filter]
    apply List.filter_congr
    intro x _
    exact Bool.and_comm _ _
  refine ⟨?_, h2, ?_⟩
  · intro r hr hmem
    rw [hlist] at hmem
    have hrem := installed_subset_removed _ r hr
    rcases List.mem_append.1 hmem with h | h
    · simp [List.mem_filter, hrem] at h
    · simp [List.mem_filter, hrem] at h
  · intro hnone
    rw [h2, List.filter_eq_self]
    intro r hr
    simpa using hnone r (List.mem_filter.1 hr).1

/-- Witness for C8, amended: on a plain page the round trip leaves the
registry of `freshWorld`, which holds only the two listeners of the page. -/
theorem start_stop_removes_session_listeners_witness :
    (∀ r ∈ (freshWorld [("click", true)] []).listeners,
      r ∉ removedListeners (getActiveEventTypes (freshWorld [("click", true)] []).selectedEventTypes)) ∧
    (stopTracking (startTracking (freshWorld [("click", true)] []) (some rootDiv)).world).world.listeners.filter
        (fun r => !isAdapterListener r)
      = (freshWorld [("click", true)] []).listeners.filter (fun r => !isAdapterListener r) :=
  ⟨by decide!, (start_stop_removes_session_listeners (freshWorld [("click", true)] []) rootDiv).2.2
    (by decide!)⟩

/-! ## C9 -/

theorem stopTracking_sound (w : World) (h : EntryPointsSound w) :
    EntryPointsSound (stopTracking w).world ∧ (stopTracking w).world.isTracking = false ∧
      (stopTracking w).thrown = none := by
  cases ht : w.isTracking
  · rw [stopTracking_idle w ht]
    exact ⟨h, ht, rfl⟩
  · have hf := stopTracking_fields w ht
    refine ⟨⟨fun hi => ?_, fun _ => ?_⟩, hf.2.1, hf.1⟩
    · rw [hf.2.2.1] at hi
      exact absurd hi (by simp)
    · cases hi : w.hasInterceptedEventTarget
      · have := hf.2.2.2.2.2.2 hi
        rw [this.1, this.2]
        exact h.2 hi
      · exact hf.2.2.2.2.2.1 hi

theorem startTracking_sound (w : World) (element : Option Elem) (h : EntryPointsSound w) :
    EntryPointsSound (startTracking w element).world := by
  have h0 : EntryPointsSound (if w.isTracking then stopTracking w else Run.ok w).world ∧
      (if w.isTracking then stopTracking w else Run.ok w).world.isTracking = false ∧
      (if w.isTracking then stopTracking w else Run.ok w).thrown = none := by
    cases ht : w.isTracking
    · exact ⟨h, ht, rfl⟩
    · simpa using stopTracking_sound w h
  cases element with
  | none =>
    unfold startTracking
    rw [run_andThen_ok _ _ h0.2.2]
    exact h0.1
  | some el =>
    obtain ⟨w3, ht3, _, _, hi3, ha3, hr3, hstart⟩ := startTracking_some_starts w el
    obtain ⟨_, htW, _, he⟩ := hstart
    have hni : (if w.isTracking then stopTracking w else Run.ok w).world.hasInterceptedEventTarget
        = false := by
      cases hx : (if w.isTracking then stopTracking w else Run.ok w).world.hasInterceptedEventTarget
      · rfl
      · have := (h0.1.1 hx).1
        rw [h0.2.1] at this
        exact absurd this (by simp)
    have horig := h0.1.2 hni
    rcases he with ⟨x, y, z⟩ | ⟨_, x, y, z⟩
    · refine ⟨fun hi => ?_, fun _ => ⟨y.trans (ha3.trans horig.1), z.trans (hr3.trans horig.2)⟩⟩
      rw [x, hi3, hni] at hi
      exact absurd hi (by simp)
    · refine ⟨fun _ => ⟨htW.trans ht3, y, z⟩, fun hi => ?_⟩
      rw [x] at hi
      exact absurd hi (by simp)

theorem setSelectedEventTypes_sound (w : World) (eventTypes : Selection)
    (h : EntryPointsSound w) : EntryPointsSound (setSelectedEventTypes w eventTypes).world := by
  have h1 : EntryPointsSound { w with selectedEventTypes := eventTypes } := h
  unfold setSelectedEventTypes
  simp only
  split
  · rw [run_andThen_ok _ _ (stopTracking_sound _ h1).2.2]
    exact startTracking_sound _ _ (stopTracking_sound _ h1).1
  · exact h1

theorem runCalls_sound (w : World) (calls : List Call) (h : EntryPointsSound w) :
    EntryPointsSound (runCalls w calls) := by
  unfold runCalls
  induction calls generalizing w with
  | nil => exact h
  | cons c cs ih =>
    simp only [List.foldl_cons]
    apply ih
    cases c with
    | startTracking element => exact startTracking_sound w element h
    | stopTracking => exact (stopTracking_sound w h).1
    | setSelectedEventTypes eventTypes => exact setSelectedEventTypes_sound w eventTypes h

/-- C9: from a tracker on which no session has started (entry points the
original functions, flag not set), after any finite sequence of
`startTracking` / `stopTracking` / `setSelectedEventTypes` calls: when no
session is active, both global entry points are the original functions; and
at every such point a wrapper found at an entry point delegates to the
original function, never to another wrapper. -/
theorem entry_points_after_calls (w0 : World) (calls : List Call)
    (hflag : w0.hasInterceptedEventTarget = false)
    (hadd : w0.addEventListener = EntryPoint.original)
    (hremove : w0.removeEventListener = EntryPoint.original) :
    ((runCalls w0 calls).isTracking = false →
      (runCalls w0 calls).addEventListener = EntryPoint.original ∧
      (runCalls w0 calls).removeEventListener = EntryPoint.original) ∧
    (∀ d, (runCalls w0 calls).addEventListener = EntryPoint.wrapper d → d = EntryPoint.original) ∧
    (∀ d, (runCalls w0 calls).removeEventListener = EntryPoint.wrapper d →
      d = EntryPoint.original) := by
  have h0 : EntryPointsSound w0 :=
    ⟨fun hi => by rw [hflag] at hi; exact absurd hi (by simp), fun _ => ⟨hadd, hremove⟩⟩
  have h := runCalls_sound w0 calls h0
  cases hi : (runCalls w0 calls).hasInterceptedEventTarget
  · have ho := h.2 hi
    refine ⟨fun _ => ho, fun d hd => ?_, fun d hd => ?_⟩
    · rw [ho.1] at hd
      exact absurd hd (by simp)
    · rw [ho.2] at hd
      exact absurd hd (by simp)
  · have hw := h.1 hi
    refine ⟨fun ht => ?_, fun d hd => ?_, fun d hd => ?_⟩
    · rw [hw.1] at ht
      exact absurd ht (by simp)
    · rw [hw.2.1] at hd
      exact (EntryPoint.wrapper.inj hd).symm
    · rw [hw.2.2] at hd
      exact (EntryPoint.wrapper.inj hd).symm

/-- Witness for C9: two sessions, a new selection in between, then a stop. -/
theorem entry_points_after_calls_witness :
    (freshWorld [("click", true)] []).hasInterceptedEventTarget = false ∧
    (freshWorld [("click", true)] []).addEventListener = EntryPoint.original ∧
    (freshWorld [("click", true)] []).removeEventListener = EntryPoint.original ∧
    (runCalls (freshWorld [("click", true)] [])
        [Call.startTracking (some rootDiv), Call.setSelectedEventTypes [("keydown", true)],
         Call.startTracking (some rootDiv), Call.stopTracking]).addEventListener
      = EntryPoint.original :=
  ⟨rfl, rfl, rfl,
    ((entry_points_after_calls (freshWorld [("click", true)] [])
      [Call.startTracking (some rootDiv), Call.setSelectedEventTypes [("keydown", true)],
       Call.startTracking (some rootDiv), Call.stopTracking] rfl rfl rfl).1 (by decide!)).1⟩

/-! ## C10 -/

theorem addLog_fields (w : World) (level : Level) (msg : Msg) :
    (addLog w level msg).targetElement = w.targetElement ∧
    (addLog w level msg).selectedEventTypes = w.selectedEventTypes ∧
    (addLog w level msg).addEventListener = w.addEventListener ∧
    (addLog w level msg).removeEventListener = w.removeEventListener ∧
    (addLog w level msg).logLevels = w.logLevels ∧
    (addLog w level msg).trackedHandlers = w.trackedHandlers ∧
    (addLog w level msg).stackTrace = w.stackTrace ∧
    (addLog w level msg).outputElement.isSome = w.outputElement.isSome := by
  unfold addLog
  split
  · split
    · simp
    · simp [*]
  · simp

theorem attachmentEntries_addLog (w : World) (type elementInfo : String) (msg : Msg)
    (hinfo : w.logLevels.info = true) (hsink : w.outputElement.isSome = true) :
    attachmentEntries (addLog w Level.info msg) type elementInfo
      = attachmentEntries w type elementInfo
        + (if isAttachment type elementInfo (LogNode.log Level.info msg none) then 1 else 0) := by
  cases hs : w.outputElement with
  | none => simp [hs] at hsink
  | some sink =>
    have hst : ∀ st, isAttachment type elementInfo (LogNode.log Level.info msg st)
        = isAttachment type elementInfo (LogNode.log Level.info msg none) := by
      intro st
      cases msg <;> rfl
    simp [attachmentEntries, addLog, LogLevels.get, hinfo, hs, List.countP_append, hst]
    split <;> simp_all

/-- The first attachment of a listener that is not recorded: it is recorded
and exactly one attachment entry is appended. -/
theorem attach_fresh (root : Elem) (type : String) (h : Callback) (options : Options)
    (w : World) (hlog : Logging root type w) (hfresh : h ∉ w.trackedHandlers)
    (hopts : options ≠ Options.null) :
    Logging root type
      (callAddEventListener w (Receiver.node (NodeRef.elem root.info)) type (some h) options).world ∧
    h ∈ (callAddEventListener w (Receiver.node (NodeRef.elem root.info)) type (some h)
      options).world.trackedHandlers ∧
    attachmentEntries (callAddEventListener w (Receiver.node (NodeRef.elem root.info)) type
        (some h) options).world type (selectorOf root.info)
      = attachmentEntries w type (selectorOf root.info) + 1 := by
  obtain ⟨hroot, hsel, hadd, hrem, hinfo, hsink⟩ := hlog
  obtain ⟨opts, hopts2⟩ : ∃ opts, addOptsText options = Except.ok opts := by
    cases options with
    | null => exact absurd rfl hopts
    | undefined => exact ⟨_, rfl⟩
    | bool b => cases b <;> exact ⟨_, rfl⟩
    | object c o p => exact ⟨_, rfl⟩
  have hmem : w.trackedHandlers.contains h = false := by simpa using hfresh
  have hself : (root.info.uid == root.uid) = true := by simp [Elem.uid]
  have hw : (callAddEventListener w (Receiver.node (NodeRef.elem root.info)) type (some h)
      options).world
      = hostAddEventListener
          (let w2 := addLog { w with trackedHandlers := w.trackedHandlers ++ [h] } Level.info
              (Msg.listenerAdded type (selectorOf root.info) opts)
           if getStackTrace w2 != "" then
             addLog w2 Level.info (Msg.listenerStack (getStackTrace w2)) else w2)
          (Receiver.node (NodeRef.elem root.info)) type (some h) options := by
    simp only [callAddEventListener, hadd, runAddEntry, addBookkeeping, hroot, hsel, isValidNode,
      isTargetElement, NodeRef.uid, hself, hmem, receiverSelector, getElementSelector, hopts2,
      Bool.true_and, Bool.true_or, Bool.not_false, if_true, Bool.and_self]
    split <;> simp [Run.andThen, Run.ok]
  rw [hw]
  have hf1 := addLog_fields { w with trackedHandlers := w.trackedHandlers ++ [h] } Level.info
    (Msg.listenerAdded type (selectorOf root.info) opts)
  have hc1 := attachmentEntries_addLog { w with trackedHandlers := w.trackedHandlers ++ [h] }
    type (selectorOf root.info) (Msg.listenerAdded type (selectorOf root.info) opts) hinfo hsink
  simp only [isAttachment, beq_self_eq_true, Bool.and_self, if_true] at hc1
  have hinfo1 : (addLog { w with trackedHandlers := w.trackedHandlers ++ [h] } Level.info
      (Msg.listenerAdded type (selectorOf root.info) opts)).logLevels.info = true := by
    rw [hf1.2.2.2.2.1]; exact hinfo
  have hsink1 : (addLog { w with trackedHandlers := w.trackedHandlers ++ [h] } Level.info
      (Msg.listenerAdded type (selectorOf root.info) opts)).outputElement.isSome = true := by
    rw [hf1.2.2.2.2.2.2.2]; exact hsink
  simp only
  split
  · have hf2 := addLog_fields (addLog { w with trackedHandlers := w.trackedHandlers ++ [h] }
      Level.info (Msg.listenerAdded type (selectorOf root.info) opts)) Level.info
      (Msg.listenerStack (getStackTrace (addLog
        { w with trackedHandlers := w.trackedHandlers ++ [h] } Level.info
        (Msg.listenerAdded type (selectorOf root.info) opts))))
    have hc2 := attachmentEntries_addLog _ type (selectorOf root.info)
      (Msg.listenerStack (getStackTrace (addLog
        { w with trackedHandlers := w.trackedHandlers ++ [h] } Level.info
        (Msg.listenerAdded type (selectorOf root.info) opts)))) hinfo1 hsink1
    simp only [isAttachment, Bool.false_eq_true, if_false, Nat.add_zero] at hc2
    unfold hostAddEventListener
    simp only
    split
    · refine ⟨⟨hf2.1.trans (hf1.1.trans hroot), by rw [hf2.2.1, hf1.2.1]; exact hsel,
        hf2.2.2.1.trans (hf1.2.2.1.trans hadd), hf2.2.2.2.1.trans (hf1.2.2.2.1.trans hrem),
        by rw [hf2.2.2.2.2.1]; exact hinfo1, by rw [hf2.2.2.2.2.2.2.2]; exact hsink1⟩, ?_, ?_⟩
      · rw [hf2.2.2.2.2.2.1, hf1.2.2.2.2.2.1]; simp
      · rw [hc2, hc1]; rfl
    · refine ⟨⟨hf2.1.trans (hf1.1.trans hroot), by
          show selected (addLog _ _ _).selectedEventTypes type = true
          rw [hf2.2.1, hf1.2.1]; exact hsel,
        hf2.2.2.1.trans (hf1.2.2.1.trans hadd), hf2.2.2.2.1.trans (hf1.2.2.2.1.trans hrem),
        by show (addLog _ _ _).logLevels.info = true
           rw [hf2.2.2.2.2.1]; exact hinfo1,
        by show (addLog _ _ _).outputElement.isSome = true
           rw [hf2.2.2.2.2.2.2.2]; exact hsink1⟩, ?_, ?_⟩
      · show h ∈ (addLog _ _ _).trackedHandlers
        rw [hf2.2.2.2.2.2.1, hf1.2.2.2.2.2.1]; simp
      · show attachmentEntries (addLog _ _ _) _ _ = _
        rw [hc2, hc1]; rfl
  · unfold hostAddEventListener
    simp only
    split
    · refine ⟨⟨hf1.1.trans hroot, by rw [hf1.2.1]; exact hsel, hf1.2.2.1.trans hadd,
        hf1.2.2.2.1.trans hrem, hinfo1, hsink1⟩, ?_, ?_⟩
      · rw [hf1.2.2.2.2.2.1]; simp
      · rw [hc1]; rfl
    · refine ⟨⟨hf1.1.trans hroot, by
          show selected (addLog _ _ _).selectedEventTypes type = true
          rw [hf1.2.1]; exact hsel,
        hf1.2.2.1.trans hadd, hf1.2.2.2.1.trans hrem, hinfo1, hsink1⟩, ?_, ?_⟩
      · show h ∈ (addLog _ _ _).trackedHandlers
        rw [hf1.2.2.2.2.2.1]; simp
      · show attachmentEntries (addLog _ _ _) _ _ = _
        rw [hc1]; rfl

theorem logging_of_fields (root : Elem) (type : String) (w w1 : World) (h : Logging root type w)
    (h1 : w1.targetElement = w.targetElement) (h2 : w1.selectedEventTypes = w.selectedEventTypes)
    (h3 : w1.addEventListener = w.addEventListener)
    (h4 : w1.removeEventListener = w.removeEventListener) (h5 : w1.logLevels = w.logLevels)
    (h6 : w1.outputElement.isSome = w.outputElement.isSome) : Logging root type w1 := by
  unfold Logging at h ⊢
  rw [h1, h2, h3, h4, h5, h6]
  exact h

theorem hostAdd_fields (w : World) (this : Receiver) (type : String)
    (listener : Option Callback) (options : Options) :
    (hostAddEventListener w this type listener options).targetElement = w.targetElement ∧
    (hostAddEventListener w this type listener options).selectedEventTypes
      = w.selectedEventTypes ∧
    (hostAddEventListener w this type listener options).addEventListener = w.addEventListener ∧
    (hostAddEventListener w this type listener options).removeEventListener
      = w.removeEventListener ∧
    (hostAddEventListener w this type listener options).logLevels = w.logLevels ∧
    (hostAddEventListener w this type listener options).trackedHandlers = w.trackedHandlers ∧
    (hostAddEventListener w this type listener options).outputElement = w.outputElement := by
  unfold hostAddEventListener
  cases listener with
  | none => simp
  | some cb => simp only; split <;> simp

/-- A further attachment of a listener that is recorded: nothing is logged. -/
theorem attach_again (root : Elem) (type : String) (h : Callback) (options : Options)
    (w : World) (hlog : Logging root type w) (hmem : h ∈ w.trackedHandlers) :
    Logging root type
      (callAddEventListener w (Receiver.node (NodeRef.elem root.info)) type (some h) options).world ∧
    h ∈ (callAddEventListener w (Receiver.node (NodeRef.elem root.info)) type (some h)
      options).world.trackedHandlers ∧
    attachmentEntries (callAddEventListener w (Receiver.node (NodeRef.elem root.info)) type
        (some h) options).world type (selectorOf root.info)
      = attachmentEntries w type (selectorOf root.info) := by
  have hc : w.trackedHandlers.contains h = true := by simpa using hmem
  have hw : (callAddEventListener w (Receiver.node (NodeRef.elem root.info)) type (some h)
      options).world
      = hostAddEventListener w (Receiver.node (NodeRef.elem root.info)) type (some h) options := by
    simp [callAddEventListener, hlog.2.2.1, runAddEntry, addBookkeeping, hlog.1, hc, hmem,
      Run.andThen, Run.ok]
  rw [hw]
  have hf := hostAdd_fields w (Receiver.node (NodeRef.elem root.info)) type (some h) options
  refine ⟨logging_of_fields root type w _ hlog hf.1 hf.2.1 hf.2.2.1 hf.2.2.2.1 hf.2.2.2.2.1
    (by rw [hf.2.2.2.2.2.2]), by rw [hf.2.2.2.2.2.1]; exact hmem, ?_⟩
  unfold attachmentEntries
  rw [hf.2.2.2.2.2.2]

/-- Any number of further attachments of a recorded listener logs nothing. -/
theorem attachTimes_recorded (root : Elem) (type : String) (h : Callback) (options : Options)
    (n : Nat) (w : World) (hlog : Logging root type w) (hmem : h ∈ w.trackedHandlers) :
    Logging root type
      (attachTimes (Receiver.node (NodeRef.elem root.info)) type (some h) options n w) ∧
    h ∈ (attachTimes (Receiver.node (NodeRef.elem root.info)) type (some h) options n
      w).trackedHandlers ∧
    attachmentEntries (attachTimes (Receiver.node (NodeRef.elem root.info)) type (some h)
        options n w) type (selectorOf root.info)
      = attachmentEntries w type (selectorOf root.info) := by
  induction n generalizing w with
  | zero => exact ⟨hlog, hmem, rfl⟩
  | succ n ih =>
    have h1 := attach_again root type h options w hlog hmem
    have h2 := ih _ h1.1 h1.2.1
    unfold attachTimes
    exact ⟨h2.1, h2.2.1, h2.2.2.trans h1.2.2⟩

/-- A removal of a recorded listener on the tracked root: the record is
deleted and no attachment entry is appended. -/
theorem detach_recorded (root : Elem) (type : String) (h : Callback) (options : Options)
    (w : World) (hlog : Logging root type w) :
    Logging root type
      (callRemoveEventListener w (Receiver.node (NodeRef.elem root.info)) type (some h)
        options).world ∧
    h ∉ (callRemoveEventListener w (Receiver.node (NodeRef.elem root.info)) type (some h)
      options).world.trackedHandlers ∧
    attachmentEntries (callRemoveEventListener w (Receiver.node (NodeRef.elem root.info)) type
        (some h) options).world type (selectorOf root.info)
      = attachmentEntries w type (selectorOf root.info) := by
  obtain ⟨hroot, hsel, hadd, hrem, hinfo, hsink⟩ := hlog
  have hself : (root.info.uid == root.uid) = true := by simp [Elem.uid]
  have hw : (callRemoveEventListener w (Receiver.node (NodeRef.elem root.info)) type (some h)
      options).world
      = hostRemoveEventListener (removeBookkeeping w (Receiver.node (NodeRef.elem root.info))
          type (some h) options) (Receiver.node (NodeRef.elem root.info)) type (some h)
          options := by
    simp [callRemoveEventListener, hrem, runRemoveEntry, Run.ok]
  rw [hw]
  have hb : ∃ wb : World,
      removeBookkeeping w (Receiver.node (NodeRef.elem root.info)) type (some h) options = wb ∧
      Logging root type wb ∧ h ∉ wb.trackedHandlers ∧
      attachmentEntries wb type (selectorOf root.info)
        = attachmentEntries w type (selectorOf root.info) := by
    refine ⟨_, rfl, ?_⟩
    by_cases hmem : h ∈ w.trackedHandlers
    · have hc : w.trackedHandlers.contains h = true := by simpa using hmem
      have key : ∀ (w1 : World) (msg : Msg),
          isAttachment type (selectorOf root.info) (LogNode.log Level.info msg none) = false →
          Logging root type w1 → h ∉ w1.trackedHandlers →
          attachmentEntries w1 type (selectorOf root.info)
            = attachmentEntries w type (selectorOf root.info) →
          Logging root type (addLog w1 Level.info msg) ∧
          h ∉ (addLog w1 Level.info msg).trackedHandlers ∧
          attachmentEntries (addLog w1 Level.info msg) type (selectorOf root.info)
            = attachmentEntries w type (selectorOf root.info) := by
        intro w1 msg hmsg hl1 hn1 hcount1
        have hf := addLog_fields w1 Level.info msg
        have hcnt := attachmentEntries_addLog w1 type (selectorOf root.info) msg hl1.2.2.2.2.1
          hl1.2.2.2.2.2
        rw [hmsg] at hcnt
        refine ⟨logging_of_fields root type w1 _ hl1 hf.1 hf.2.1 hf.2.2.1 hf.2.2.2.1
          hf.2.2.2.2.1 hf.2.2.2.2.2.2.2, ?_, ?_⟩
        · rw [hf.2.2.2.2.2.1]
          exact hn1
        · rw [hcnt]
          exact hcount1
      have hgone : h ∉ w.trackedHandlers.filter (fun c => c != h) := by simp
      simp only [removeBookkeeping, hroot, hsel, isValidNode, isTargetElement, NodeRef.uid, hself,
        hc, receiverSelector, getElementSelector, Bool.true_and, Bool.true_or, Bool.and_self,
        if_true]
      split
      · apply key
        · rfl
        · exact ⟨rfl, hsel, hadd, hrem, hinfo, hsink⟩
        · exact hgone
        · rfl
      · apply key
        · rfl
        · exact ⟨rfl, hsel, hadd, hrem, hinfo, hsink⟩
        · exact hgone
        · rfl
    · have hc : w.trackedHandlers.contains h = false := by simpa using hmem
      have hsame : removeBookkeeping w (Receiver.node (NodeRef.elem root.info)) type (some h)
          options = w := by
        simp only [removeBookkeeping, hroot, hsel, isValidNode, isTargetElement, NodeRef.uid,
          hself, hc, Bool.true_and, Bool.true_or, Bool.and_false, Bool.false_eq_true, if_false]
      rw [hsame]
      exact ⟨⟨hroot, hsel, hadd, hrem, hinfo, hsink⟩, hmem, rfl⟩
  obtain ⟨wb, hwb, hlogb, hnot, hcount⟩ := hb
  rw [hwb]
  have hf : (hostRemoveEventListener wb (Receiver.node (NodeRef.elem root.info)) type (some h)
      options) = { wb with listeners := (hostRemoveEventListener wb
        (Receiver.node (NodeRef.elem root.info)) type (some h) options).listeners } := rfl
  rw [hf]
  exact ⟨hlogb, hnot, hcount⟩

/-- C10, counterexample: a listener of the page is attached for `click` to the
button inside the tracked div, which records it, and then to the tracked div
itself.  The call on the div reaches the host, but no attachment entry for
the div is appended: the record is kept by handler alone. -/
theorem recorded_handler_not_logged_on_root :
    Logging rootDiv "click" listeningWorld ∧
    Callback.page 9 ∉ listeningWorld.trackedHandlers ∧
    attachmentEntries attachedToButtonThenDiv "click" (selectorOf divInfo) = 0 ∧
    attachedToButtonThenDiv.listeners.filter (fun r => r.callback == Callback.page 9)
      = [⟨TargetRef.node 4, "click", Callback.page 9, false⟩,
         ⟨TargetRef.node 3, "click", Callback.page 9, false⟩] := by
  refine ⟨⟨rfl, by decide, rfl, rfl, rfl, rfl⟩, ?_⟩
  decide!

/-- C10, amended: while the wrappers are installed and log (root tracked, type
selected, `info` level enabled, a sink present) and the options are not
`null`.  For a listener `h` that is not yet in the record `trackedHandlers`:
after `k + 1` calls of `addEventListener(type, h, options)` on the tracked
root exactly one attachment entry for it has been appended; and after a
following `removeEventListener(type, h, options)` on the root and `j + 1`
further identical attachments exactly one more.  For a listener that is
already in the record, `k + 1` such calls append no attachment entry. -/
theorem attachment_logged_once_until_removed (root : Elem) (type : String) (h : Callback)
    (options : Options) (w : World) (k j : Nat)
    (hlog : Logging root type w) (hopts : options ≠ Options.null) :
    (h ∉ w.trackedHandlers →
      attachmentEntries
          (attachTimes (Receiver.node (NodeRef.elem root.info)) type (some h) options (k + 1) w)
          type (selectorOf root.info)
        = attachmentEntries w type (selectorOf root.info) + 1 ∧
      attachmentEntries
          (attachTimes (Receiver.node (NodeRef.elem root.info)) type (some h) options (j + 1)
            (callRemoveEventListener
              (attachTimes (Receiver.node (NodeRef.elem root.info)) type (some h) options
                (k + 1) w)
              (Receiver.node (NodeRef.elem root.info)) type (some h) options).world)
          type (selectorOf root.info)
        = attachmentEntries w type (selectorOf root.info) + 2) ∧
    (h ∈ w.trackedHandlers →
      attachmentEntries
          (attachTimes (Receiver.node (NodeRef.elem root.info)) type (some h) options (k + 1) w)
          type (selectorOf root.info)
        = attachmentEntries w type (selectorOf root.info)) := by
  have first : ∀ (n : Nat) (w1 : World), Logging root type w1 → h ∉ w1.trackedHandlers →
      Logging root type
        (attachTimes (Receiver.node (NodeRef.elem root.info)) type (some h) options (n + 1) w1) ∧
      attachmentEntries
        (attachTimes (Receiver.node (NodeRef.elem root.info)) type (some h) options (n + 1) w1)
        type (selectorOf root.info)
        = attachmentEntries w1 type (selectorOf root.info) + 1 := by
    intro n w1 hl hf
    have h1 := attach_fresh root type h options w1 hl hf hopts
    have h2 := attachTimes_recorded root type h options n _ h1.1 h1.2.1
    unfold attachTimes
    exact ⟨h2.1, h2.2.2.trans h1.2.2⟩
  refine ⟨fun hfresh => ?_, fun hmem => ?_⟩
  · have h1 := first k w hlog hfresh
    have h2 := detach_recorded root type h options _ h1.1
    have h3 := first j _ h2.1 h2.2.1
    exact ⟨h1.2, by rw [h3.2, h2.2.2, h1.2]⟩
  · exact (attachTimes_recorded root type h options (k + 1) w hlog hmem).2.2

/-- Witness for C10, amended: with the div tracked, `click` selected and the
wrappers installed, a listener of the page attached to the div for `click`. -/
theorem attachment_logged_once_until_removed_witness :
    Logging rootDiv "click" listeningWorld ∧ Callback.page 9 ∉ listeningWorld.trackedHandlers ∧
    Options.bool false ≠ Options.null ∧
    attachmentEntries
        (attachTimes (Receiver.node (NodeRef.elem rootDiv.info)) "click" (some (Callback.page 9))
          (Options.bool false) (2 + 1) listeningWorld)
        "click" (selectorOf rootDiv.info)
      = attachmentEntries listeningWorld "click" (selectorOf rootDiv.info) + 1 :=
  ⟨⟨rfl, by decide, rfl, rfl, rfl, rfl⟩, by decide, by decide,
    ((attachment_logged_once_until_removed rootDiv "click" (Callback.page 9) (Options.bool false)
      listeningWorld 2 0 ⟨rfl, by decide, rfl, rfl, rfl, rfl⟩ (by decide)).1 (by decide)).1⟩

/-! ## C11 -/

/-- C11, counterexample: one listener is attached for `click` to the tracked
div and then to the button inside it.  Both calls reach the host, but only
the first is logged: there is one attachment entry for the div and none for
the button. -/
theorem second_element_not_logged :
    Callback.page 9 ∉ listeningWorld.trackedHandlers ∧
    attachmentEntries listeningWorld "click" (selectorOf buttonInfo) = 0 ∧
    attachmentEntries attachedToDivThenButton "click" (selectorOf divInfo) = 1 ∧
    attachmentEntries attachedToDivThenButton "click" (selectorOf buttonInfo) = 0 ∧
    attachedToDivThenButton.listeners.filter (fun r => r.callback == Callback.page 9)
      = [⟨TargetRef.node 3, "click", Callback.page 9, false⟩,
         ⟨TargetRef.node 4, "click", Callback.page 9, false⟩] := by
  decide!

/-- The first attachment of an unrecorded listener to an element that is the
tracked root or inside it. -/
theorem attach_fresh_element (root : Elem) (el : ElemInfo) (type : String) (h : Callback)
    (options : Options) (w : World) (hlog : Logging root type w)
    (hin : isTargetElement root (Receiver.node (NodeRef.elem el)) = true)
    (hfresh : h ∉ w.trackedHandlers) (hopts : options ≠ Options.null) :
    h ∈ (callAddEventListener w (Receiver.node (NodeRef.elem el)) type (some h)
      options).world.trackedHandlers ∧
    attachmentEntries (callAddEventListener w (Receiver.node (NodeRef.elem el)) type
        (some h) options).world type (selectorOf el)
      = attachmentEntries w type (selectorOf el) + 1 := by
  obtain ⟨hroot, hsel, hadd, hrem, hinfo, hsink⟩ := hlog
  obtain ⟨opts, hopts2⟩ : ∃ opts, addOptsText options = Except.ok opts := by
    cases options with
    | null => exact absurd rfl hopts
    | undefined => exact ⟨_, rfl⟩
    | bool b => cases b <;> exact ⟨_, rfl⟩
    | object c o p => exact ⟨_, rfl⟩
  have hmem : w.trackedHandlers.contains h = false := by simpa using hfresh
  have hw : (callAddEventListener w (Receiver.node (NodeRef.elem el)) type (some h)
      options).world
      = hostAddEventListener
          (let w2 := addLog { w with trackedHandlers := w.trackedHandlers ++ [h] } Level.info
              (Msg.listenerAdded type (selectorOf el) opts)
           if getStackTrace w2 != "" then
             addLog w2 Level.info (Msg.listenerStack (getStackTrace w2)) else w2)
          (Receiver.node (NodeRef.elem el)) type (some h) options := by
    simp only [callAddEventListener, hadd, runAddEntry, addBookkeeping, hroot, hsel, isValidNode,
      hin, hmem, receiverSelector, getElementSelector, hopts2,
      Bool.true_and, Bool.not_false, if_true, Bool.and_self]
    split <;> simp [Run.andThen, Run.ok]
  rw [hw]
  have hf1 := addLog_fields { w with trackedHandlers := w.trackedHandlers ++ [h] } Level.info
    (Msg.listenerAdded type (selectorOf el) opts)
  have hc1 := attachmentEntries_addLog { w with trackedHandlers := w.trackedHandlers ++ [h] }
    type (selectorOf el) (Msg.listenerAdded type (selectorOf el) opts) hinfo hsink
  simp only [isAttachment, beq_self_eq_true, Bool.and_self, if_true] at hc1
  have hinfo1 : (addLog { w with trackedHandlers := w.trackedHandlers ++ [h] } Level.info
      (Msg.listenerAdded type (selectorOf el) opts)).logLevels.info = true := by
    rw [hf1.2.2.2.2.1]; exact hinfo
  have hsink1 : (addLog { w with trackedHandlers := w.trackedHandlers ++ [h] } Level.info
      (Msg.listenerAdded type (selectorOf el) opts)).outputElement.isSome = true := by
    rw [hf1.2.2.2.2.2.2.2]; exact hsink
  have hW : ∀ W : World,
      W.trackedHandlers = (addLog { w with trackedHandlers := w.trackedHandlers ++ [h] }
        Level.info (Msg.listenerAdded type (selectorOf el) opts)).trackedHandlers →
      attachmentEntries W type (selectorOf el)
        = attachmentEntries (addLog { w with trackedHandlers := w.trackedHandlers ++ [h] }
            Level.info (Msg.listenerAdded type (selectorOf el) opts)) type (selectorOf el) →
      h ∈ (hostAddEventListener W (Receiver.node (NodeRef.elem el)) type (some h)
        options).trackedHandlers ∧
      attachmentEntries (hostAddEventListener W (Receiver.node (NodeRef.elem el)) type (some h)
        options) type (selectorOf el) = attachmentEntries w type (selectorOf el) + 1 := by
    intro W ht hcount
    have hf := hostAdd_fields W (Receiver.node (NodeRef.elem el)) type (some h) options
    constructor
    · rw [hf.2.2.2.2.2.1, ht, hf1.2.2.2.2.2.1]
      simp
    · have : attachmentEntries (hostAddEventListener W (Receiver.node (NodeRef.elem el)) type
          (some h) options) type (selectorOf el) = attachmentEntries W type (selectorOf el) := by
        unfold attachmentEntries
        rw [hf.2.2.2.2.2.2]
      rw [this, hcount, hc1]
      rfl
  simp only
  split
  · apply hW
    · exact (addLog_fields _ _ _).2.2.2.2.2.1
    · have hc2 := attachmentEntries_addLog _ type (selectorOf el)
        (Msg.listenerStack (getStackTrace (addLog
          { w with trackedHandlers := w.trackedHandlers ++ [h] } Level.info
          (Msg.listenerAdded type (selectorOf el) opts)))) hinfo1 hsink1
      simpa [isAttachment] using hc2
  · exact hW _ rfl rfl

/-- C11, amended: while the wrappers are installed and log, for every call of
the patched `addEventListener` on an element that is the tracked root or
inside it, with a selected type and options that are not `null`: a listener
not yet recorded (the record is keyed by the listener alone, whatever the
target) is recorded and exactly one attachment entry for that element is
appended; for a listener already recorded nothing is appended. -/
theorem attachment_logged_per_listener (root : Elem) (el : ElemInfo) (type : String)
    (h : Callback) (options : Options) (w : World) (hlog : Logging root type w)
    (hin : isTargetElement root (Receiver.node (NodeRef.elem el)) = true)
    (hopts : options ≠ Options.null) :
    (h ∉ w.trackedHandlers →
      h ∈ (callAddEventListener w (Receiver.node (NodeRef.elem el)) type (some h)
        options).world.trackedHandlers ∧
      attachmentEntries (callAddEventListener w (Receiver.node (NodeRef.elem el)) type
          (some h) options).world type (selectorOf el)
        = attachmentEntries w type (selectorOf el) + 1) ∧
    (h ∈ w.trackedHandlers →
      (callAddEventListener w (Receiver.node (NodeRef.elem el)) type (some h)
        options).world.outputElement = w.outputElement) := by
  refine ⟨fun hfresh => attach_fresh_element root el type h options w hlog hin hfresh hopts,
    fun hmem => ?_⟩
  have hc : w.trackedHandlers.contains h = true := by simpa using hmem
  have hw : (callAddEventListener w (Receiver.node (NodeRef.elem el)) type (some h)
      options).world
      = hostAddEventListener w (Receiver.node (NodeRef.elem el)) type (some h) options := by
    simp [callAddEventListener, hlog.2.2.1, runAddEntry, addBookkeeping, hlog.1, hc, hmem,
      Run.andThen, Run.ok]
  rw [hw]
  exact (hostAdd_fields w _ type (some h) options).2.2.2.2.2.2

/-- Witness for C11, amended: the button inside the tracked div, a listener
of the page not yet recorded. -/
theorem attachment_logged_per_listener_witness :
    Logging rootDiv "click" listeningWorld ∧
    isTargetElement rootDiv (Receiver.node (NodeRef.elem buttonInfo)) = true ∧
    Options.bool false ≠ Options.null ∧ Callback.page 9 ∉ listeningWorld.trackedHandlers ∧
    attachmentEntries (callAddEventListener listeningWorld
        (Receiver.node (NodeRef.elem buttonInfo)) "click" (some (Callback.page 9))
        (Options.bool false)).world "click" (selectorOf buttonInfo)
      = attachmentEntries listeningWorld "click" (selectorOf buttonInfo) + 1 :=
  ⟨⟨rfl, by decide, rfl, rfl, rfl, rfl⟩, by decide, by decide, by decide,
    ((attachment_logged_per_listener rootDiv buttonInfo "click" (Callback.page 9)
      (Options.bool false) listeningWorld ⟨rfl, by decide, rfl, rfl, rfl, rfl⟩ (by decide)
      (by decide)).1 (by decide)).2⟩

/-! ## C12 -/

/-- C12, the code at the failing input: while the wrappers are installed, a
listener is attached for `click` to the text node inside the tracked div.
The wrapper records the listener, then `getElementSelector` raises; the
original `addEventListener` is not reached and the registry is unchanged,
where the original function alone would have registered the listener.  The
same happens on the tracked div itself when the options argument is `null`.
The `removeEventListener` wrapper, called with the same arguments, catches
the exception and completes. -/
theorem addEventListener_wrapper_raises :
    listeningWorld.addEventListener = EntryPoint.wrapper EntryPoint.original ∧
    (callAddEventListener listeningWorld textReceiver "click" (some (Callback.page 9))
      Options.undefined).thrown = some (JsError.typeError "element.tagName is undefined") ∧
    (callAddEventListener listeningWorld textReceiver "click" (some (Callback.page 9))
      Options.undefined).world.listeners = listeningWorld.listeners ∧
    (hostAddEventListener listeningWorld textReceiver "click" (some (Callback.page 9))
      Options.undefined).listeners
      = listeningWorld.listeners ++ [⟨TargetRef.node 5, "click", Callback.page 9, false⟩] ∧
    (callAddEventListener listeningWorld (Receiver.node (NodeRef.elem divInfo)) "click"
      (some (Callback.page 9)) Options.null).thrown
      = some (JsError.typeError "options is null") ∧
    (callAddEventListener listeningWorld (Receiver.node (NodeRef.elem divInfo)) "click"
      (some (Callback.page 9)) Options.null).world.listeners = listeningWorld.listeners ∧
    (callRemoveEventListener
      (callAddEventListener listeningWorld textReceiver "click" (some (Callback.page 9))
        Options.undefined).world textReceiver "click" (some (Callback.page 9))
      Options.undefined).thrown = none := by
  decide!

/-- The `removeEventListener` wrapper, for every receiver, type, listener and
options: it completes, and the registry afterwards is the one the original
function produces. -/
theorem removeEventListener_wrapper_delegates (w : World) (this : Receiver) (type : String)
    (listener : Callback) (options : Options) :
    (callRemoveEventListener w this type (some listener) options).thrown = none ∧
    (callRemoveEventListener w this type (some listener) options).world.listeners
      = (hostRemoveEventListener w this type (some listener) options).listeners := by
  have h := runRemoveEntry_removes w.removeEventListener w this type listener options
  refine ⟨h.1, ?_⟩
  rw [show (callRemoveEventListener w this type (some listener) options)
    = runRemoveEntry w.removeEventListener w this type (some listener) options from rfl, h.2.2]
  unfold hostRemoveEventListener
  simp only
  apply List.filter_congr
  intro x _
  by_cases hx : x = ⟨this.toTargetRef, type, listener, options.captureFlag⟩ <;> simp [hx]

/-! ## C13 -/

/-- Looking up a key just set. -/
theorem lookup_setKey {κ ν : Type} [BEq κ] [LawfulBEq κ] (m : List (κ × ν)) (k : κ) (v : ν) :
    (setKey m k v).lookup k = some v := by
  unfold setKey
  induction m with
  | nil => simp [List.lookup]
  | cons a m ih =>
    by_cases h : a.1 == k
    · simpa [List.filter, h] using ih
    · have h2 : (k == a.1) = false := by
        cases hk : k == a.1
        · rfl
        · exact absurd (by rw [eq_of_beq hk]; exact beq_self_eq_true _) h
      simpa [List.filter, h, List.lookup, h2] using ih

/-- Logging touches neither the accessors nor the backing fields. -/
theorem addLog_accessors (w : World) (level : Level) (msg : Msg) :
    (addLog w level msg).ownAccessor = w.ownAccessor ∧
    (addLog w level msg).backing = w.backing := by
  unfold addLog
  split
  · split <;> exact ⟨rfl, rfl⟩
  · exact ⟨rfl, rfl⟩

/-- C13, counterexample: in the session of the scenario the tracker's accessor
for `onclick` is defined on the button; after `button.onclick = preventingFn`
the property reads as the tracker's proxy around the function, not as the
function. -/
theorem patched_property_reads_proxy :
    clickSession.ownAccessor.contains (buttonInfo.uid, "onclick") = true ∧
    readProp assignedSession buttonInfo "onclick"
      = JsValue.fn (Fn.proxyHandler "onclick" (Fn.user preventingFn)) ∧
    readProp assignedSession buttonInfo "onclick" ≠ JsValue.fn (Fn.user preventingFn) := by
  decide!

/-- C13, amended: for every element and property on which the tracker's
accessor is defined, reading the property after an assignment through the
patched setter returns the value the setter stored: the tracker's proxy
around `f` when a function `f` was assigned, the value itself when a truthy
value that is not a function was assigned, and `null` when a falsy value was
assigned; it returns `null` when nothing has been assigned. -/
theorem patched_property_reads_stored_value (w : World) (el : ElemInfo) (prop : String)
    (hacc : w.ownAccessor.contains (el.uid, prop) = true) :
    (∀ f : Fn, readProp (writeProp w el prop (JsValue.fn f)) el prop
      = JsValue.fn (Fn.proxyHandler prop f)) ∧
    readProp (writeProp w el prop JsValue.null) el prop = JsValue.null ∧
    (∀ t : Bool, readProp (writeProp w el prop (JsValue.other t)) el prop
      = if t then JsValue.other t else JsValue.null) ∧
    (w.backing.lookup (el.uid, prop) = none → readProp w el prop = JsValue.null) := by
  refine ⟨fun f => ?_, ?_, fun t => ?_, fun hnone => ?_⟩
  · have ha := addLog_accessors w Level.info (Msg.inlinePropertySet (selectorOf el) prop)
    simp only [writeProp, hacc, if_true, readProp, ha.1, lookup_setKey, JsValue.truthy]
  · simp only [writeProp, hacc, if_true, readProp, lookup_setKey, JsValue.truthy]
    rfl
  · simp only [writeProp, hacc, if_true, readProp, lookup_setKey, JsValue.truthy]
  · simp only [readProp, hacc, if_true, hnone]

/-- Witness for C13, amended: the button once the accessor is defined on it. -/
theorem patched_property_reads_stored_value_witness :
    patchedButtonWorld.ownAccessor.contains (buttonInfo.uid, "onclick") = true ∧
    readProp (writeProp patchedButtonWorld buttonInfo "onclick"
      (JsValue.fn (Fn.user preventingFn))) buttonInfo "onclick"
      = JsValue.fn (Fn.proxyHandler "onclick" (Fn.user preventingFn)) :=
  ⟨by decide!, (patched_property_reads_stored_value patchedButtonWorld buttonInfo "onclick"
    (by decide!)).1 (Fn.user preventingFn)⟩

/-! ## C14 -/

/-- C14, the code at the failing input: a session is active with `click`
selected; the page runs `button.onclick = preventingFn` on the button inside
the tracked div, and the host then dispatches a click on the button.  The
patched setter kept the function in the backing field only, so the host holds
no handler for the property: no function of the page is called, nothing is
appended to the log, and `defaultPrevented` stays false although the function
alone sets it. -/
theorem assigned_handler_never_called :
    clickSession.isTracking = true ∧
    selected clickSession.selectedEventTypes "click" = true ∧
    rootDiv.containsUid buttonInfo.uid = true ∧
    assignedSession.handlerSlot.lookup (buttonInfo.uid, "onclick") = none ∧
    (dispatchEvent assignedSession clickOnButton buttonPath).1.calls = [] ∧
    ((dispatchEvent assignedSession clickOnButton buttonPath).1.outputElement.getD []).filter
      (fun n => match n with
        | LogNode.log _ msg _ => msg.isInlineTrigger
        | _ => false) = [] ∧
    (dispatchEvent assignedSession clickOnButton buttonPath).2.defaultPrevented = false ∧
    (callFn assignedSession buttonInfo clickOnButton
      (Fn.user preventingFn)).event.defaultPrevented = true := by
  decide!

/-! ## C15 -/

/-- C15, the code at the failing input: a session is active with `click`
selected; the page inserts into the tracked div a span whose `onclick` is
already set.  The batch handler asks `shouldTrackEvent` about an object that
has a target and no type, the answer is false, and
`monitorInlineEventHandlers` is not run: the host still holds the function of
the page, unwrapped, and nothing is saved for the span, where running
`monitorInlineEventHandlers` on the span wraps the handler. -/
theorem inserted_element_not_patched :
    grownSession.isTracking = true ∧
    grownDiv.containsUid insertedInfo.uid = true ∧
    shouldTrackEvent grownSession (bareEvent (NodeRef.elem insertedInfo)) = false ∧
    (handleMutationBatch grownSession insertionBatch).handlerSlot.lookup (6, "onclick")
      = some (Fn.user preventingFn) ∧
    (handleMutationBatch grownSession insertionBatch).originalEventHandlers
      = grownSession.originalEventHandlers ∧
    (monitorInlineEventHandlers grownSession insertedSpan).handlerSlot.lookup (6, "onclick")
      = some (Fn.inlineWrapper insertedInfo "onclick" (Fn.user preventingFn)) := by
  decide!

/-! ## C16 -/

/-- C16, counterexample: `startTracking(null)` during the session of the
scenario ends the session: `isTracking` becomes false, the document-level
`click` listeners are removed, and the log grows. -/
theorem null_root_ends_session :
    clickSession.isTracking = true ∧
    (startTracking clickSession none).world.isTracking = false ∧
    clickSession.listeners ≠ bodyListeners ∧
    (startTracking clickSession none).world.listeners = bodyListeners ∧
    (clickSession.outputElement.getD []).length
      < ((startTracking clickSession none).world.outputElement.getD []).length := by
  decide!

/-- C16, amended: `startTracking(root)` with `root` null or undefined starts
nothing.  When no session is active it is a no-op: the whole state is
unchanged.  When a session is active it does what `stopTracking()` does, and
nothing else. -/
theorem startTracking_null (w : World) :
    (w.isTracking = false → startTracking w none = Run.ok w) ∧
    (w.isTracking = true → startTracking w none = stopTracking w) := by
  constructor
  · intro h
    simp [startTracking, h, Run.andThen, Run.ok]
  · intro h
    have ht := (stopTracking_fields w h).1
    unfold startTracking
    rw [if_pos h, run_andThen_ok _ _ ht]
    cases hr : stopTracking w with
    | mk world thrown =>
      rw [hr] at ht
      simp only at ht
      simp [Run.ok, ht]

/-- Witness for C16, amended: a fresh tracker, no session active. -/
theorem startTracking_null_witness :
    (freshWorld [("click", true)] []).isTracking = false ∧
    startTracking (freshWorld [("click", true)] []) none
      = Run.ok (freshWorld [("click", true)] []) :=
  ⟨rfl, (startTracking_null (freshWorld [("click", true)] [])).1 rfl⟩

/-! ## C17 -/

/-- C17: `stopTracking()` called when no session is active completes and
leaves the whole state as it was: tracker fields, registered listeners,
global entry points and log output. -/
theorem stopTracking_noop_when_idle (w : World) (h : w.isTracking = false) :
    (stopTracking w).world = w ∧ (stopTracking w).thrown = none := by
  rw [stopTracking_idle w h]
  exact ⟨rfl, rfl⟩

/-- Witness for C17: a fresh tracker, no session active. -/
theorem stopTracking_noop_when_idle_witness :
    (freshWorld [("click", true)] []).isTracking = false ∧
    (stopTracking (freshWorld [("click", true)] [])).world = freshWorld [("click", true)] [] ∧
    (stopTracking (freshWorld [("click", true)] [])).thrown = none :=
  ⟨rfl, stopTracking_noop_when_idle (freshWorld [("click", true)] []) rfl⟩

/-! ## C18 -/

/-- C18: for every element whose signature is not yet in the record, the
popup heuristic flags it exactly when it is a `dialog` element, or its class
attribute contains one of the six keywords in any letter case, or it is
visible (display not `none`, visibility not `hidden`), positioned `fixed` or
`absolute`, and its z-index parses to an integer greater than 10; for such an
element outside the tracker's own UI, `checkForDialogOrPopup` then logs it.
A fixed visible element with z-index `10` or `auto` fails the style test, one
with z-index `11` passes it. -/
theorem popup_heuristic_flags_iff (w : World) (el : ElemInfo) (ancestors : List ElemInfo)
    (texts : List Nat) (children : List Elem)
    (hui : isEventTrackerElement (some (NodeRef.elem el)) (el :: ancestors) = Except.ok false)
    (hnew : selectorOf el ∉ w.lastDetectedPopups) :
    ((maybePopup w el).1 = true ↔
      (el.tagName = "DIALOG"
        ∨ (∃ k ∈ ["modal", "popup", "dialog", "overlay", "lightbox", "toast"],
            includesCI el.className k = true)
        ∨ ((getComputedStyle w el).display ≠ "none"
            ∧ (getComputedStyle w el).visibility ≠ "hidden"
            ∧ ((getComputedStyle w el).position = "fixed"
                ∨ (getComputedStyle w el).position = "absolute")
            ∧ ∃ z : Int, parseInt (getComputedStyle w el).zIndex = some z ∧ 10 < z))) ∧
    ((maybePopup w el).1 = true →
      checkForDialogOrPopup w ancestors (.mk el texts children)
        = logPopup { w with lastDetectedPopups := w.lastDetectedPopups ++ [selectorOf el] } el) ∧
    styleIsPopup ⟨"fixed", "10", "block", "visible"⟩ = false ∧
    styleIsPopup ⟨"fixed", "auto", "block", "visible"⟩ = false ∧
    styleIsPopup ⟨"fixed", "11", "block", "visible"⟩ = true := by
  have hc : w.lastDetectedPopups.contains (selectorOf el) = false := by simpa using hnew
  have hstyle : ∀ st : ComputedStyle, styleIsPopup st = true ↔
      (st.display ≠ "none" ∧ st.visibility ≠ "hidden"
        ∧ (st.position = "fixed" ∨ st.position = "absolute")
        ∧ ∃ z : Int, parseInt st.zIndex = some z ∧ 10 < z) := by
    intro st
    unfold styleIsPopup
    cases hz : parseInt st.zIndex with
    | none => simp
    | some z => simp [and_assoc]
  have hcond : (el.tagName == "DIALOG" || popupClassPattern el.className
      || styleIsPopup (getComputedStyle w el)) = true ↔
      (el.tagName = "DIALOG"
        ∨ (∃ k ∈ ["modal", "popup", "dialog", "overlay", "lightbox", "toast"],
            includesCI el.className k = true)
        ∨ ((getComputedStyle w el).display ≠ "none"
            ∧ (getComputedStyle w el).visibility ≠ "hidden"
            ∧ ((getComputedStyle w el).position = "fixed"
                ∨ (getComputedStyle w el).position = "absolute")
            ∧ ∃ z : Int, parseInt (getComputedStyle w el).zIndex = some z ∧ 10 < z)) := by
    rw [Bool.or_eq_true, Bool.or_eq_true, hstyle, or_assoc]
    unfold popupClassPattern
    rw [List.any_eq_true, beq_iff_eq]
  have hflag : (maybePopup w el).1 = (el.tagName == "DIALOG" || popupClassPattern el.className
      || styleIsPopup (getComputedStyle w el)) := by
    unfold maybePopup
    simp only [hc, Bool.false_eq_true, if_false]
    split
    · next h => exact h.symm
    · next h => simpa using h
  refine ⟨by rw [hflag]; exact hcond, ?_, by decide, by decide, by decide⟩
  intro hflagged
  have hw : (maybePopup w el).2
      = { w with lastDetectedPopups := w.lastDetectedPopups ++ [selectorOf el] } := by
    rw [hflag] at hflagged
    unfold maybePopup
    simp only [hc, Bool.false_eq_true, if_false, hflagged, if_true]
  unfold checkForDialogOrPopup
  rw [hui]
  simp only [hflagged, if_true, hw]

/-- Witness for C18: the div with class `my-modal-overlay` in a fresh tracker;
it is flagged. -/
theorem popup_heuristic_flags_iff_witness :
    isEventTrackerElement (some (NodeRef.elem overlayInfo)) (overlayInfo :: divChain)
      = Except.ok false ∧
    selectorOf overlayInfo ∉ (rootedWorld [("click", true)]).lastDetectedPopups ∧
    (maybePopup (rootedWorld [("click", true)]) overlayInfo).1 = true :=
  ⟨rfl, by decide,
    (popup_heuristic_flags_iff (rootedWorld [("click", true)]) overlayInfo divChain [] []
      rfl (by decide)).1.2 (Or.inr (Or.inl ⟨"modal", by decide, by decide⟩))⟩

/-! ## The record of popup signatures through `startTracking` -/

theorem keepsRecord_refl (w : World) : KeepsRecord w w := rfl

theorem keepsRecord_trans (a b c : World) (h1 : KeepsRecord a b) (h2 : KeepsRecord b c) :
    KeepsRecord a c := by
  unfold KeepsRecord at *
  rw [h2, h1]

theorem addLog_record (w : World) (level : Level) (msg : Msg) :
    KeepsRecord w (addLog w level msg) := by
  unfold addLog KeepsRecord
  split
  · split <;> rfl
  · rfl

theorem writeProp_record (w : World) (element : ElemInfo) (prop : String) (value : JsValue) :
    KeepsRecord w (writeProp w element prop value) := by
  unfold writeProp
  split
  · cases value with
    | fn f => exact addLog_record w _ _
    | null => rfl
    | other t => rfl
  · cases value <;> rfl

theorem monitorHandler_record (w : World) (element : ElemInfo) (eventType : String) :
    KeepsRecord w (monitorHandler w element eventType) := by
  unfold monitorHandler
  simp only
  split
  · split
    · rfl
    · exact writeProp_record _ _ _ _
  · rfl

theorem monitorInlineEventHandlers_record (w : World) (root : Elem) :
    KeepsRecord w (monitorInlineEventHandlers w root) := by
  unfold monitorInlineEventHandlers KeepsRecord
  apply foldl_frame (fun w => w.lastDetectedPopups)
  intro w1 el
  unfold monitorElement
  apply foldl_frame (fun w => w.lastDetectedPopups)
  intro w2 t
  exact monitorHandler_record w2 el t

theorem proxyElementEvents_record (w : World) (element : ElemInfo) :
    KeepsRecord w (proxyElementEvents w element) := by
  unfold proxyElementEvents KeepsRecord
  apply foldl_frame (fun w => w.lastDetectedPopups)
  intro w1 prop
  split <;> rfl

mutual
theorem applyProxies_record (w : World) : (e : Elem) → KeepsRecord w (applyProxies w e)
  | .mk info _ cs => by
    unfold applyProxies
    split
    · rfl
    · exact keepsRecord_trans _ _ _ (proxyElementEvents_record w info)
        (applyProxiesList_record _ cs)
theorem applyProxiesList_record (w : World) :
    (es : List Elem) → KeepsRecord w (applyProxiesList w es)
  | [] => by unfold applyProxiesList; rfl
  | c :: cs => by
    unfold applyProxiesList
    exact keepsRecord_trans _ _ _ (applyProxies_record w c) (applyProxiesList_record _ cs)
end

theorem applyDOMProxies_record (w : World) (root : Elem) :
    KeepsRecord w (applyDOMProxies w root) := by
  unfold applyDOMProxies
  exact keepsRecord_trans _ _ _ (applyProxies_record w root) (addLog_record _ _ _)

theorem addBookkeeping_record (w : World) (this : Receiver) (type : String)
    (listener : Option Callback) (options : Options) :
    KeepsRecord w (addBookkeeping w this type listener options).world := by
  unfold addBookkeeping
  split
  · split
    · simp only
      split
      · rfl
      · split
        · rfl
        · split
          · exact Eq.trans (addLog_record _ _ _) (addLog_record _ _ _)
          · exact Eq.trans (addLog_record _ _ _) rfl
    · rfl
  · rfl

theorem runAddEntry_record (ep : EntryPoint) (w : World) (this : Receiver) (type : String)
    (listener : Option Callback) (options : Options) :
    KeepsRecord w (runAddEntry ep w this type listener options).world := by
  induction ep generalizing w with
  | original =>
    unfold runAddEntry hostAddEventListener
    cases listener with
    | none => rfl
    | some cb => simp only [Run.ok]; split <;> rfl
  | wrapper d ih =>
    unfold runAddEntry
    exact andThen_rel _ keepsRecord_trans _ _ _ (addBookkeeping_record w this type listener options)
      (fun w1 => ih w1)

theorem callAdd_record (w : World) (this : Receiver) (type : String)
    (listener : Option Callback) (options : Options) :
    KeepsRecord w (callAddEventListener w this type listener options).world :=
  runAddEntry_record _ w this type listener options

theorem forEachType_record (step : World → String → Run) (ts : List String)
    (hstep : ∀ w1 t, KeepsRecord w1 (step w1 t).world) (w : World) :
    KeepsRecord w (forEachType step ts w).world := by
  unfold forEachType
  exact foldl_run_rel KeepsRecord keepsRecord_trans step ts (fun w1 t _ => hstep w1 t) w
    (Run.ok w) (keepsRecord_refl w)

theorem installListeners_record (w : World) (active : List String) :
    KeepsRecord w (installListeners w active).world := by
  unfold installListeners
  apply andThen_rel _ keepsRecord_trans
  · apply forEachType_record
    intro w1 t
    apply andThen_rel _ keepsRecord_trans
    · exact callAdd_record _ _ _ _ _
    · intro w2
      exact callAdd_record _ _ _ _ _
  · intro w1
    simp only
    apply andThen_rel _ keepsRecord_trans
    · apply keepsRecord_trans _ _ _ (addLog_record w1 _ _)
      split
      · exact callAdd_record _ _ _ _ _
      · exact keepsRecord_refl _
    · intro w3
      apply andThen_rel _ keepsRecord_trans
      · split
        · exact callAdd_record _ _ _ _ _
        · exact keepsRecord_refl _
      · intro w4
        apply andThen_rel _ keepsRecord_trans
        · split
          · exact callAdd_record _ _ _ _ _
          · exact keepsRecord_refl _
        · intro w5
          split
          · apply forEachType_record
            intro w6 t
            exact callAdd_record _ _ _ _ _
          · exact keepsRecord_refl _

theorem monitorBootstrapModals_record (w : World) :
    KeepsRecord w (monitorBootstrapModals w).world := by
  unfold monitorBootstrapModals
  simp only
  apply andThen_rel _ keepsRecord_trans
  · apply foldl_run_rel KeepsRecord keepsRecord_trans
    · intro w1 t _
      exact callAdd_record _ _ _ _ _
    · rfl
  · intro w1
    exact addLog_record w1 _ _

theorem monitorFrameworkSpecificEvents_record (w : World) (framework : String) :
    KeepsRecord w (monitorFrameworkSpecificEvents w framework).world := by
  unfold monitorFrameworkSpecificEvents
  split
  · exact monitorBootstrapModals_record w
  · split
    · unfold monitorjQueryEvents
      split
      · rfl
      · exact addLog_record _ _ _
    · split
      · unfold monitorSweetAlert
        split
        · rfl
        · exact addLog_record _ _ _
      · split
        · unfold monitorFancybox
          split
          · rfl
          · rfl
          · exact addLog_record _ _ _
        · split
          · unfold monitorLightbox
            split
            · rfl
            · exact addLog_record _ _ _
          · exact keepsRecord_refl _

theorem detectUIFrameworks_record (w : World) :
    KeepsRecord w (detectUIFrameworks w).world := by
  unfold detectUIFrameworks
  simp only
  split
  · exact keepsRecord_refl _
  · apply foldl_run_rel KeepsRecord keepsRecord_trans
    · intro w1 f _
      exact monitorFrameworkSpecificEvents_record w1 f
    · exact addLog_record w _ _

theorem interceptEventTargetMethods_record (w : World) :
    KeepsRecord w (interceptEventTargetMethods w) := by
  unfold interceptEventTargetMethods
  split
  · rfl
  · exact addLog_record _ _ _

/-- The body of `startTracking` after the record is cleared keeps it as it is. -/
theorem startTracking_body_record (w3 : World) (el : Elem) :
    KeepsRecord w3
      ((installListeners w3 (getActiveEventTypes w3.selectedEventTypes)).andThen fun w4 =>
        (detectUIFrameworks (initMutationObserver (monitorInlineEventHandlers w4 el))).andThen
          fun w7 =>
            Run.ok (addLog (addLog (addLog (applyDOMProxies (interceptEventTargetMethods w7) el)
              Level.info (Msg.trackingStarted (selectorOf el.info)))
              Level.info (Msg.trackingTypes (getActiveEventTypes w3.selectedEventTypes)))
              Level.info Msg.interceptionEnabled)).world := by
  apply andThen_rel _ keepsRecord_trans
  · exact installListeners_record w3 _
  · intro w4
    apply andThen_rel _ keepsRecord_trans
    · apply keepsRecord_trans _ _ _ (monitorInlineEventHandlers_record w4 el)
      apply keepsRecord_trans _ _ _
        (addLog_record { monitorInlineEventHandlers w4 el with mutationObserver := true } _ _)
      exact detectUIFrameworks_record _
    · intro w7
      apply keepsRecord_trans _ _ _ (interceptEventTargetMethods_record w7)
      apply keepsRecord_trans _ _ _ (applyDOMProxies_record _ el)
      simp only [Run.ok]
      exact keepsRecord_trans _ _ _ (addLog_record _ _ _)
        (keepsRecord_trans _ _ _ (addLog_record _ _ _) (addLog_record _ _ _))

/-- After `startTracking(el)` the record of popup signatures is empty,
whatever it held before and whether or not the call completes. -/
theorem startTracking_clears_record (w : World) (el : Elem) :
    (startTracking w (some el)).world.lastDetectedPopups = [] := by
  have hthrown : (if w.isTracking then stopTracking w else Run.ok w).thrown = none := by
    cases h : w.isTracking
    · rfl
    · simpa using (stopTracking_fields w h).1
  unfold startTracking
  rw [run_andThen_ok _ _ hthrown]
  simp only
  generalize (if w.isTracking then stopTracking w else Run.ok w).world = w0
  exact startTracking_body_record _ el

/-! ## Popup entries through the mutation watcher -/

theorem isPopupEntry_stack (s : String) (level : Level) (msg : Msg) (stack : Option String) :
    isPopupEntry s (LogNode.log level msg stack) = isPopupEntry s (LogNode.log level msg none) := by
  cases level <;> cases msg <;> rfl

/-- One `addLog` adds at most one popup entry for `s`, and only when the entry
itself is one. -/
theorem popupEntries_addLog (w : World) (level : Level) (msg : Msg) (s : String) :
    popupEntries (addLog w level msg) s
      ≤ popupEntries w s + (if isPopupEntry s (LogNode.log level msg none) then 1 else 0) := by
  unfold addLog popupEntries
  by_cases hl : w.logLevels.get level = true
  · cases h : w.outputElement with
    | none => simp [hl, h]
    | some sink =>
      simp [hl, h, List.countP_append, List.countP_cons, isPopupEntry_stack]
  · simp [hl]

/-- An `addLog` of another category, or of another message, leaves the budget
as it is. -/
theorem popupBudget_addLog (w : World) (level : Level) (msg : Msg) (s : String)
    (h : isPopupEntry s (LogNode.log level msg none) = false) :
    popupBudget (addLog w level msg) s = popupBudget w s := by
  have hle := popupEntries_addLog w level msg s
  rw [h] at hle
  have hge : popupEntries w s ≤ popupEntries (addLog w level msg) s := by
    unfold addLog popupEntries
    by_cases hl : w.logLevels.get level = true
    · cases h2 : w.outputElement with
      | none => simp [hl, h2]
      | some sink => simp [hl, h2, List.countP_append]
    · simp [hl]
  unfold popupBudget
  rw [show (addLog w level msg).lastDetectedPopups = w.lastDetectedPopups from addLog_record w _ _]
  simp only [Bool.false_eq_true, if_false, Nat.add_zero] at hle
  omega

theorem writeProp_budget (w : World) (element : ElemInfo) (prop : String) (value : JsValue)
    (s : String) : popupBudget (writeProp w element prop value) s = popupBudget w s := by
  unfold writeProp
  split
  · cases value with
    | fn f =>
      exact popupBudget_addLog w Level.info (Msg.inlinePropertySet (selectorOf element) prop) s rfl
    | null => rfl
    | other t => rfl
  · cases value <;> rfl

theorem monitorHandler_budget (w : World) (element : ElemInfo) (eventType : String)
    (s : String) : popupBudget (monitorHandler w element eventType) s = popupBudget w s := by
  unfold monitorHandler
  simp only
  split
  · split
    · rfl
    · rw [writeProp_budget]; rfl
  · rfl

theorem monitorInlineEventHandlers_budget (w : World) (root : Elem) (s : String) :
    popupBudget (monitorInlineEventHandlers w root) s = popupBudget w s := by
  unfold monitorInlineEventHandlers
  apply foldl_frame (fun w => popupBudget w s)
  intro w1 el
  unfold monitorElement
  apply foldl_frame (fun w => popupBudget w s)
  intro w2 t
  exact monitorHandler_budget w2 el t s

/-- Logging an accepted node whose signature was just recorded does not raise
the budget of any signature. -/
theorem logPopup_budget (w : World) (node : ElemInfo) (s : String)
    (hnew : w.lastDetectedPopups.contains (selectorOf node) = false) :
    popupBudget (logPopup { w with lastDetectedPopups := w.lastDetectedPopups ++ [selectorOf node] }
      node) s ≤ popupBudget w s := by
  have h1 := popupEntries_addLog
    { w with lastDetectedPopups := w.lastDetectedPopups ++ [selectorOf node] } Level.popup
    (Msg.popupDetected (selectorOf node)) s
  have hr1 : (addLog { w with lastDetectedPopups := w.lastDetectedPopups ++ [selectorOf node] }
      Level.popup (Msg.popupDetected (selectorOf node))).lastDetectedPopups
      = w.lastDetectedPopups ++ [selectorOf node] := addLog_record _ _ _
  have hstart : popupBudget (addLog
      { w with lastDetectedPopups := w.lastDetectedPopups ++ [selectorOf node] } Level.popup
      (Msg.popupDetected (selectorOf node))) s ≤ popupBudget w s := by
    unfold popupBudget
    rw [hr1]
    have he : popupEntries { w with lastDetectedPopups := w.lastDetectedPopups ++ [selectorOf node] } s
        = popupEntries w s := rfl
    rw [he] at h1
    by_cases hs : selectorOf node = s
    · subst hs
      have hin : (w.lastDetectedPopups ++ [selectorOf node]).contains (selectorOf node) = true := by
        simp
      rw [hin, hnew]
      simp only [isPopupEntry, beq_self_eq_true, if_true] at h1
      simp only [if_true, Bool.false_eq_true, if_false]
      omega
    · have hne : (selectorOf node == s) = false := by simpa using hs
      have hin : (w.lastDetectedPopups ++ [selectorOf node]).contains s
          = w.lastDetectedPopups.contains s := by
        rw [Bool.eq_iff_iff]
        simp
        intro h
        exact absurd h.symm hs
      rw [hin]
      simp only [isPopupEntry, hne, Bool.false_eq_true, if_false, Nat.add_zero] at h1
      omega
  unfold logPopup
  simp only
  have hstyle : ∀ w1 : World, popupBudget (if hasAttribute node "style" = true
      then addLog w1 Level.info (Msg.popupInlineStyle ((getAttribute node "style").getD ""))
      else w1) s = popupBudget w1 s := by
    intro w1
    split
    · exact popupBudget_addLog w1 Level.info
        (Msg.popupInlineStyle ((getAttribute node "style").getD "")) s rfl
    · rfl
  split
  · rw [hstyle]; exact hstart
  · rw [popupBudget_addLog _ Level.info (Msg.popupAttributes _) s rfl, hstyle]; exact hstart

mutual
theorem checkForDialogOrPopup_budget (w : World) (ancestors : List ElemInfo) (s : String) :
    (e : Elem) → popupBudget (checkForDialogOrPopup w ancestors e) s ≤ popupBudget w s
  | .mk info ts cs => by
    unfold checkForDialogOrPopup
    split
    · by_cases hrec : w.lastDetectedPopups.contains (selectorOf info) = true
      · have hm : maybePopup w info = (false, w) := by
          unfold maybePopup
          simp only [hrec, if_true]
        simp only [hm, Bool.false_eq_true, if_false]
        exact checkChildren_budget w (info :: ancestors) 2 s cs
      · have hrec2 : w.lastDetectedPopups.contains (selectorOf info) = false := by
          simpa using hrec
        by_cases hflag : (info.tagName == "DIALOG" || popupClassPattern info.className
            || styleIsPopup (getComputedStyle w info)) = true
        · have hm : maybePopup w info = (true,
              { w with lastDetectedPopups := w.lastDetectedPopups ++ [selectorOf info] }) := by
            unfold maybePopup
            simp only [hrec2, Bool.false_eq_true, if_false, hflag, if_true]
          simp only [hm, if_true]
          exact logPopup_budget w info s hrec2
        · have hm : maybePopup w info = (false, w) := by
            unfold maybePopup
            simp only [hrec2, Bool.false_eq_true, if_false, hflag]
          simp only [hm, Bool.false_eq_true, if_false]
          exact checkChildren_budget w (info :: ancestors) 2 s cs
    · exact Nat.le_refl _
theorem checkChildNodesForPopups_budget (w : World) (ancestors : List ElemInfo) (depth : Nat)
    (s : String) :
    (e : Elem) → popupBudget (checkChildNodesForPopups w ancestors depth e) s ≤ popupBudget w s
  | .mk info ts cs => by
    unfold checkChildNodesForPopups
    split
    · exact Nat.le_refl _
    · exact checkChildren_budget w (info :: ancestors) depth s cs
theorem checkChildren_budget (w : World) (chain : List ElemInfo) (depth : Nat) (s : String) :
    (es : List Elem) → popupBudget (checkChildren w chain depth es) s ≤ popupBudget w s
  | [] => by unfold checkChildren; exact Nat.le_refl _
  | c :: rest => by
    unfold checkChildren
    exact Nat.le_trans (checkChildren_budget _ chain depth s rest)
      (Nat.le_trans (checkChildNodesForPopups_budget _ chain (depth - 1) s c)
        (checkForDialogOrPopup_budget w chain s c))
end

theorem foldl_budget {α : Type} (f : World → α → World) (s : String)
    (h : ∀ w a, popupBudget (f w a) s ≤ popupBudget w s) (xs : List α) (w : World) :
    popupBudget (xs.foldl f w) s ≤ popupBudget w s := by
  induction xs generalizing w with
  | nil => exact Nat.le_refl _
  | cons x xs ih => simp only [List.foldl_cons]; exact Nat.le_trans (ih _) (h w x)

theorem handleAddedNode_budget (w : World) (node : AddedNode) (s : String) :
    popupBudget (handleAddedNode w node) s ≤ popupBudget w s := by
  cases node with
  | other uid nodeType => exact Nat.le_refl _
  | element e ancestors =>
    unfold handleAddedNode
    simp only
    split
    · rw [monitorInlineEventHandlers_budget]
      exact checkForDialogOrPopup_budget w ancestors s e
    · exact checkForDialogOrPopup_budget w ancestors s e

theorem handleMutationBatch_budget (w : World) (batch : List MutationRecord) (s : String) :
    popupBudget (handleMutationBatch w batch) s ≤ popupBudget w s := by
  unfold handleMutationBatch
  apply foldl_budget
  intro w1 record
  cases record with
  | childList addedNodes =>
    unfold handleMutation
    exact foldl_budget _ s (fun w2 n => handleAddedNode_budget w2 n s) addedNodes w1
  | attributes target ancestors =>
    unfold handleMutation
    exact checkForDialogOrPopup_budget w1 ancestors s target

/-! ## C19 -/

/-- C19: for every state, every sequence of mutation records handled by the
watcher and every signature `s`, the handling appends at most one popup entry
for `s` when `s` is not yet in the record and none when it is, and the popup
entries for `s` together with one while `s` is unrecorded never grow, so a
signature is logged at most once between two resets.  In the session of the
scenario, the batch that reports a div with class `my-modal-overlay` appends
exactly one popup entry for it, and a later batch reporting a second node
with the same signature appends none.  `startTracking(el)` empties the
record. -/
theorem popup_logged_once_per_signature :
    (∀ (w : World) (batch : List MutationRecord) (s : String),
      popupEntries (handleMutationBatch w batch) s
          ≤ popupEntries w s + (if w.lastDetectedPopups.contains s then 0 else 1)
      ∧ popupBudget (handleMutationBatch w batch) s ≤ popupBudget w s) ∧
    (clickSession.lastDetectedPopups = []
      ∧ popupEntries clickSession (selectorOf overlayInfo) = 0
      ∧ popupEntries overlayInserted (selectorOf overlayInfo) = 1
      ∧ selectorOf overlayTwinInfo = selectorOf overlayInfo
      ∧ popupEntries overlayInsertedAgain (selectorOf overlayInfo) = 1
      ∧ overlayInsertedAgain.outputElement = overlayInserted.outputElement) ∧
    (∀ (w : World) (el : Elem), (startTracking w (some el)).world.lastDetectedPopups = []) := by
  refine ⟨fun w batch s => ?_, by decide!, startTracking_clears_record⟩
  have h := handleMutationBatch_budget w batch s
  refine ⟨?_, h⟩
  unfold popupBudget at h
  omega

/-! ## C20 -/

/-- C20, the code at the failing input: in the session of the scenario,
`checkForDialogOrPopup` is run on a plain div whose great-grandchild, three
levels below it, is a div with class `modal`.  Every child is passed to
`checkForDialogOrPopup`, which starts again with depth 2, so the modal is
reached: one popup entry for it is appended. -/
theorem popup_check_not_capped :
    popupEntries clickSession (selectorOf modalInfo) = 0 ∧
    popupEntries (checkForDialogOrPopup clickSession divChain deepTree) (selectorOf modalInfo)
      = 1 ∧
    (checkForDialogOrPopup clickSession divChain deepTree).lastDetectedPopups
      = [selectorOf modalInfo] := by
  decide!

/-! ## C21 -/

/-- C21, the code at the failing input: the page holds an element matching
`.fancybox-container, [data-fancybox]` and defines neither `$` nor `jQuery`.
`detectUIFrameworks` lists Fancybox, `monitorFancybox` reads
`window.$.fancybox` and raises; `startTracking` raises with it, after it set
`isTracking` and before it installs the listener wrappers and the property
accessors.  On a page with SweetAlert2 markup and no `Swal`, where
`monitorSweetAlert` checks first, `startTracking` completes. -/
theorem fancybox_markup_raises :
    fancyboxMarkupWorld.page.dollar = none ∧ fancyboxMarkupWorld.page.jQuery = none ∧
    detectedFrameworks fancyboxMarkupWorld.page = ["Fancybox"] ∧
    (detectUIFrameworks fancyboxMarkupWorld).thrown
      = some (JsError.typeError "window.$ is undefined") ∧
    (startTracking fancyboxMarkupWorld (some rootDiv)).thrown
      = some (JsError.typeError "window.$ is undefined") ∧
    (startTracking fancyboxMarkupWorld (some rootDiv)).world.isTracking = true ∧
    (startTracking fancyboxMarkupWorld (some rootDiv)).world.addEventListener
      = EntryPoint.original ∧
    (startTracking fancyboxMarkupWorld (some rootDiv)).world.ownAccessor = [] ∧
    detectedFrameworks swalMarkupWorld.page = ["SweetAlert2"] ∧
    (startTracking swalMarkupWorld (some rootDiv)).thrown = none := by
  decide!

/-! ## C22 -/

/-- C22, the code at the failing input: on a stack text of six lines, of which
the header and three frames of the page contain no marker, `getStackTrace`
keeps the last two frames of the page only.  The filter has already removed the
frame of `getStackTrace`, so the `slice(2)` that is meant to drop the header
and that frame drops the header and the frame `at onClick` of the page, which
contains no marker.  On a stack text whose frames are all marked, the fallback
keeps two frames of the extension, which are not the first two raw lines. -/
theorem stack_filter_drops_page_frame :
    (splitLines pageStack).filter keepsLine
      = ["Error", " at onClick (app.js:1:5)", " at dispatch (app.js:2:3)",
         " at main (app.js:3:1)"] ∧
    stackLines pageStack = [" at dispatch (app.js:2:3)", " at main (app.js:3:1)"] ∧
    stackLines pageStack ≠ claimedStackLines pageStack ∧
    (splitLines extensionStack).filter keepsLine = ["Error"] ∧
    stackLines extensionStack
      = [" at b (chrome-extension://x/b.js:2:2)", " at c (chrome-extension://x/c.js:3:3)"] ∧
    stackLines extensionStack ≠ (splitLines extensionStack).take 2 := by
  decide!

/-! ## C23 -/

theorem throttleRun_snoc (delay : Int) (lastCall : Nat) (pre : List Nat) (now : Nat) :
    throttleRun delay lastCall (pre ++ [now])
      = throttleRun delay lastCall pre
        ++ (if throttlePasses delay ((throttleRun delay lastCall pre).getLast?.getD lastCall) now
            then [now] else []) := by
  induction pre generalizing lastCall with
  | nil =>
    simp only [List.nil_append, throttleRun, List.getLast?_nil, Option.getD_none]
  | cons t pre ih =>
    rw [List.cons_append]
    by_cases hp : throttlePasses delay lastCall t = true
    · have e1 : throttleRun delay lastCall (t :: (pre ++ [now]))
          = t :: throttleRun delay t (pre ++ [now]) := by
        rw [throttleRun, if_pos hp]
      have e2 : throttleRun delay lastCall (t :: pre) = t :: throttleRun delay t pre := by
        rw [throttleRun, if_pos hp]
      rw [e1, e2, ih t, List.cons_append, List.getLast?_cons]
      cases (throttleRun delay t pre).getLast? <;> rfl
    · have e1 : throttleRun delay lastCall (t :: (pre ++ [now]))
          = throttleRun delay lastCall (pre ++ [now]) := by
        rw [throttleRun, if_neg hp]
      have e2 : throttleRun delay lastCall (t :: pre) = throttleRun delay lastCall pre := by
        rw [throttleRun, if_neg hp]
      rw [e1, e2]
      exact ih lastCall

theorem throttleRun_spaced (delay : Int) (hdelay : 0 ≤ delay) (lastCall : Nat)
    (times : List Nat) :
    (∀ x ∈ throttleRun delay lastCall times, (x : Int) - (lastCall : Int) ≥ delay) ∧
    List.Pairwise (fun a b : Nat => (b : Int) - (a : Int) ≥ delay)
      (throttleRun delay lastCall times) := by
  induction times generalizing lastCall with
  | nil => exact ⟨fun x hx => by simp [throttleRun] at hx, by simp [throttleRun]⟩
  | cons now rest ih =>
    unfold throttleRun
    by_cases hp : throttlePasses delay lastCall now = true
    · rw [if_pos hp]
      have hnow : (now : Int) - (lastCall : Int) ≥ delay := by
        simpa [throttlePasses] using hp
      obtain ⟨h1, h2⟩ := ih now
      refine ⟨fun x hx => ?_, List.Pairwise.cons (fun x hx => h1 x hx) h2⟩
      rcases List.mem_cons.1 hx with h | h
      · rw [h]; exact hnow
      · have := h1 x h
        omega
    · rw [if_neg hp]
      exact ih lastCall

theorem boundHandleMouseMove_lastCall (w : World) (event : Event) :
    (boundHandleMouseMove w event).world.mouseMoveLastCall
      = if throttlePasses 100 w.mouseMoveLastCall w.now then w.now else w.mouseMoveLastCall := by
  unfold boundHandleMouseMove handleMouseMove
  split
  · split <;> rfl
  · rfl

theorem boundHandleMouseMove_scope (w : World) (event x : Event) :
    shouldTrackEvent (boundHandleMouseMove w event).world x = shouldTrackEvent w x := by
  unfold boundHandleMouseMove handleMouseMove
  split
  · split <;> rfl
  · rfl

theorem boundHandleMouseMove_calls (w : World) (event : Event) :
    (boundHandleMouseMove w event).event.stopPropagationCalls
      = if throttlePasses 100 w.mouseMoveLastCall w.now && shouldTrackEvent w event
        then event.stopPropagationCalls + 1 else event.stopPropagationCalls := by
  unfold boundHandleMouseMove handleMouseMove
  have hs : shouldTrackEvent { w with mouseMoveLastCall := w.now } event
      = shouldTrackEvent w event := rfl
  rw [hs]
  cases throttlePasses 100 w.mouseMoveLastCall w.now <;> cases shouldTrackEvent w event <;> rfl

/-- For events in scope, the calls in which `handleMouseMove` acts are those
the claim names. -/
theorem mouseMoveReached_eq (w : World) (calls : List (Nat × Event))
    (hscope : ∀ c ∈ calls, shouldTrackEvent w c.2 = true) :
    mouseMoveReached w calls = throttleRun 100 w.mouseMoveLastCall (calls.map Prod.fst) := by
  induction calls generalizing w with
  | nil => rfl
  | cons c rest ih =>
    have hc : shouldTrackEvent { w with now := c.1 } c.2 = true :=
      hscope c (List.mem_cons_self _ _)
    have hrest : ∀ x ∈ rest,
        shouldTrackEvent (boundHandleMouseMove { w with now := c.1 } c.2).world x.2 = true := by
      intro x hx
      rw [boundHandleMouseMove_scope]
      exact hscope x (List.mem_cons_of_mem _ hx)
    have hl := boundHandleMouseMove_lastCall { w with now := c.1 } c.2
    have hn := boundHandleMouseMove_calls { w with now := c.1 } c.2
    simp only at hl hn
    simp only [mouseMoveReached, List.map_cons, throttleRun]
    rw [ih _ hrest, hl, hn, hc, Bool.and_true]
    by_cases hp : throttlePasses 100 w.mouseMoveLastCall c.1 = true
    · simp only [hp, if_true]
    · have hne : ¬ (c.2.stopPropagationCalls = c.2.stopPropagationCalls + 1) := by omega
      simp only [hp, Bool.false_eq_true, if_false, hne]

/-- Whatever the events, the calls in which `handleMouseMove` acts are among
those the claim names, in order. -/
theorem mouseMoveReached_sublist (w : World) (calls : List (Nat × Event)) :
    List.Sublist (mouseMoveReached w calls)
      (throttleRun 100 w.mouseMoveLastCall (calls.map Prod.fst)) := by
  induction calls generalizing w with
  | nil => exact List.Sublist.refl _
  | cons c rest ih =>
    have hl := boundHandleMouseMove_lastCall { w with now := c.1 } c.2
    have hn := boundHandleMouseMove_calls { w with now := c.1 } c.2
    have hi := ih (boundHandleMouseMove { w with now := c.1 } c.2).world
    simp only at hl hn
    rw [hl] at hi
    simp only [mouseMoveReached, List.map_cons, throttleRun]
    rw [hn]
    have hne : ¬ (c.2.stopPropagationCalls = c.2.stopPropagationCalls + 1) := by omega
    by_cases hp : throttlePasses 100 w.mouseMoveLastCall c.1 = true
    · rw [if_pos hp] at hi
      by_cases hs : shouldTrackEvent { w with now := c.1 } c.2 = true
      · simp only [hp, hs, Bool.and_self, if_true]
        exact List.Sublist.cons₂ _ hi
      · simp only [hp, hs, Bool.and_false, Bool.false_eq_true, if_false, hne, if_true]
        exact List.Sublist.cons _ hi
    · rw [if_neg hp] at hi
      simp only [hp, Bool.false_and, Bool.false_eq_true, if_false, hne]
      exact hi

theorem reachedCalls_state (delay : Int) (times : List Nat) :
    (times.foldl (fun st now => throttle (fun trace t => trace ++ [t]) delay st now now)
      ((0 : Nat), ([] : List Nat))).1
    = (reachedCalls delay times).getLast?.getD 0 := by
  unfold reachedCalls
  induction times using List.reverseRecOn with
  | nil => rfl
  | append_singleton pre now ih =>
    rw [List.foldl_append]
    simp only [List.foldl_cons, List.foldl_nil, throttle]
    split
    · simp
    · exact ih

/-- C23: the function that `throttle(func, delay)` returns passes a call on
to `func` exactly when the clock reading minus the reading of the last call
passed on (0 before any, so the first call goes through whenever the clock
reads at least `delay`) is at least `delay`.  The bound mousemove handler is
`throttle(handleMouseMove, 100)`.  For events in scope, `handleMouseMove` acts
in a call exactly when at least 100 ms have passed since the last call in
which it did (since `lastCall` before any); and whatever the events, any two
calls in which it acts are at least 100 ms apart. -/
theorem throttle_spacing :
    (∀ (delay : Int) (pre : List Nat) (now : Nat),
      reachedCalls delay (pre ++ [now])
        = reachedCalls delay pre
          ++ (if (now : Int) - (((reachedCalls delay pre).getLast?.getD 0 : Nat) : Int) ≥ delay
              then [now] else [])) ∧
    (∀ (w : World) (event : Event),
      boundHandleMouseMove w event
        = ⟨{ (throttle (fun (r : HandlerRun) (_ : Unit) => handleMouseMove r.world r.event) 100
                (w.mouseMoveLastCall, ⟨w, event, none⟩) w.now ()).2.world with
              mouseMoveLastCall :=
                (throttle (fun (r : HandlerRun) (_ : Unit) => handleMouseMove r.world r.event) 100
                  (w.mouseMoveLastCall, ⟨w, event, none⟩) w.now ()).1 },
           (throttle (fun (r : HandlerRun) (_ : Unit) => handleMouseMove r.world r.event) 100
              (w.mouseMoveLastCall, ⟨w, event, none⟩) w.now ()).2.event,
           (throttle (fun (r : HandlerRun) (_ : Unit) => handleMouseMove r.world r.event) 100
              (w.mouseMoveLastCall, ⟨w, event, none⟩) w.now ()).2.thrown⟩) ∧
    (∀ (w : World) (pre : List (Nat × Event)) (c : Nat × Event),
      (∀ x ∈ pre ++ [c], shouldTrackEvent w x.2 = true) →
      mouseMoveReached w (pre ++ [c])
        = mouseMoveReached w pre
          ++ (if (c.1 : Int)
                - (((mouseMoveReached w pre).getLast?.getD w.mouseMoveLastCall : Nat) : Int) ≥ 100
              then [c.1] else [])) ∧
    (∀ (w : World) (calls : List (Nat × Event)),
      List.Pairwise (fun a b : Nat => (b : Int) - (a : Int) ≥ 100) (mouseMoveReached w calls)) := by
  refine ⟨fun delay pre now => ?_, fun w event => ?_, fun w pre c hscope => ?_,
    fun w calls => ?_⟩
  · have hst := reachedCalls_state delay pre
    unfold reachedCalls at hst ⊢
    rw [List.foldl_append]
    simp only [List.foldl_cons, List.foldl_nil]
    generalize List.foldl (fun st now => throttle (fun trace t => trace ++ [t]) delay st now now)
      ((0 : Nat), ([] : List Nat)) pre = st at hst ⊢
    unfold throttle
    rw [hst]
    simp only [throttlePasses]
    by_cases h : (now : Int) - ((st.2.getLast?.getD 0 : Nat) : Int) ≥ delay
    · simp [h]
    · simp [h]
  · unfold boundHandleMouseMove handleMouseMove throttle
    have hs : shouldTrackEvent { w with mouseMoveLastCall := w.now } event
        = shouldTrackEvent w event := rfl
    rw [hs]
    cases hp : throttlePasses 100 w.mouseMoveLastCall w.now <;>
      cases hsc : shouldTrackEvent w event <;> simp [hsc]
  · rw [mouseMoveReached_eq w _ hscope,
      mouseMoveReached_eq w pre (fun x hx => hscope x (List.mem_append_left _ hx)),
      List.map_append, List.map_cons, List.map_nil, throttleRun_snoc]
    simp only [throttlePasses]
    by_cases h : (c.1 : Int) - (((throttleRun 100 w.mouseMoveLastCall
        (pre.map Prod.fst)).getLast?.getD w.mouseMoveLastCall : Nat) : Int) ≥ 100
    · simp [h]
    · simp [h]
  · exact List.Pairwise.sublist (mouseMoveReached_sublist w calls)
      (throttleRun_spaced 100 (by decide) _ _).2

/-- Witness for C23: with the div tracked and `mousemove` selected, a first
`mousemove` on the div at clock reading 150. -/
theorem throttle_spacing_witness :
    (∀ x ∈ ([] : List (Nat × Event)) ++ [(150, eventOnDiv "mousemove")],
      shouldTrackEvent (rootedWorld [("mousemove", true)]) x.2 = true) ∧
    mouseMoveReached (rootedWorld [("mousemove", true)])
        ([] ++ [(150, eventOnDiv "mousemove")])
      = mouseMoveReached (rootedWorld [("mousemove", true)]) []
        ++ (if ((150 : Nat) : Int)
              - (((mouseMoveReached (rootedWorld [("mousemove", true)]) []).getLast?.getD
                    (rootedWorld [("mousemove", true)]).mouseMoveLastCall : Nat) : Int) ≥ 100
            then [150] else []) :=
  ⟨by intro x hx
      simp only [List.nil_append, List.mem_singleton] at hx
      subst hx
      decide!,
   throttle_spacing.2.2.1 (rootedWorld [("mousemove", true)]) [] (150, eventOnDiv "mousemove")
    (by intro x hx
        simp only [List.nil_append, List.mem_singleton] at hx
        subst hx
        decide!)⟩

/-! ## C26 -/

/-- C26: `addLog(level, message)` appends exactly one node, the entry for the
message, to the sink when `logLevels[level]` is true and a sink exists, and
changes nothing otherwise; `logEvent` does nothing while the `event` category
is disabled.  `setLogLevels` changes no field but `logLevels`, so the entries
already in the sink stay; each category takes the boolean given for it and
keeps its value when none is given. -/
theorem log_entry_iff_enabled :
    (∀ (w : World) (level : Level) (msg : Msg),
      (∀ sink, w.logLevels.get level = true → w.outputElement = some sink →
        (addLog w level msg).outputElement
          = some (sink ++ [LogNode.log level msg (addLogStack w level msg)])) ∧
      (w.logLevels.get level = false ∨ w.outputElement = none → addLog w level msg = w)) ∧
    (∀ (w : World) (event : Event) (phase stack : String),
      w.logLevels.event = false → logEvent w event phase stack = ⟨w, none⟩) ∧
    (∀ (w : World) (levels : Option LevelsArg),
      { setLogLevels w levels with logLevels := w.logLevels } = w ∧
      (setLogLevels w levels).outputElement = w.outputElement ∧
      ∀ level : Level, (setLogLevels w levels).logLevels.get level
        = match levels with
          | some l => (l.get level).getD (w.logLevels.get level)
          | none => w.logLevels.get level) := by
  refine ⟨fun w level msg => ⟨fun sink hl hs => ?_, fun h => ?_⟩, fun w event phase stack h => ?_,
    fun w levels => ?_⟩
  · unfold addLog
    rw [if_pos hl]
    simp only [hs]
  · unfold addLog
    rcases h with h | h
    · rw [if_neg (by simp [h])]
    · split
      · simp only [h]
      · rfl
  · unfold logEvent
    simp [h]
  · cases levels with
    | none => exact ⟨rfl, rfl, fun level => rfl⟩
    | some l => exact ⟨rfl, rfl, fun level => by cases level <;> rfl⟩

/-- Witness for C26: the session of the scenario has a sink and the `popup`
category enabled; with the category switched off by `setLogLevels`, `addLog`
changes nothing. -/
theorem log_entry_iff_enabled_witness :
    (setLogLevels (rootedWorld [("click", true)])
      (some ⟨none, none, none, some false, none, none⟩)).logLevels.get Level.popup = false ∧
    addLog (setLogLevels (rootedWorld [("click", true)])
        (some ⟨none, none, none, some false, none, none⟩)) Level.popup
        (Msg.popupDetected "div")
      = setLogLevels (rootedWorld [("click", true)])
        (some ⟨none, none, none, some false, none, none⟩) :=
  ⟨rfl, ((log_entry_iff_enabled.1 (setLogLevels (rootedWorld [("click", true)])
    (some ⟨none, none, none, some false, none, none⟩)) Level.popup
    (Msg.popupDetected "div")).2) (Or.inl rfl)⟩

/-! ## C25 -/

theorem addLog_calls (w : World) (level : Level) (msg : Msg) :
    (addLog w level msg).calls = w.calls := by
  unfold addLog
  split
  · split <;> rfl
  · rfl

theorem epilogue_calls (x : World) (b1 b2 : Bool) (m1 m2 : Msg) :
    (if b2 = true then addLog (if b1 = true then addLog x Level.info m1 else x) Level.info m2
      else (if b1 = true then addLog x Level.info m1 else x)).calls = x.calls := by
  cases b1 <;> cases b2 <;> simp [addLog_calls]

/-- The wrapper of `monitorInlineEventHandlers`, invoked on the element it was
installed on: it calls the saved handler once, on that element and on the
event it received, on which it has called `stopPropagation()` and in whose
`_inlineTrackerChain` it has put its chain id; its outcome is the outcome of
that call; when the call raises, nothing happens after it. -/
theorem inlineWrapper_passes_through (w : World) (element : ElemInfo) (handlerName : String)
    (orig : Fn) (event : Event) :
    let chain := (event.stopPropagation).inlineTrackerChain.getD []
    let chainId := element.tagName ++ "#" ++ handlerName
    let epre : Event := { event.stopPropagation with inlineTrackerChain := some (if chain.contains chainId then chain else chain ++ [chainId]) }
    let wlog : World := addLog w Level.info (Msg.inlineTriggered handlerName (selectorOf element))
    let wpre : World := if chain.contains chainId then w else if getStackTrace w != "" && w.logLevels.stack then addLog wlog Level.stack (Msg.stackText (getStackTrace w)) else wlog
    wpre.calls = w.calls ∧
    (callFn w element event (Fn.inlineWrapper element handlerName orig)).result
      = (callFn wpre element epre orig).result ∧
    (callFn w element event (Fn.inlineWrapper element handlerName orig)).thrown
      = (callFn wpre element epre orig).thrown ∧
    (callFn w element event (Fn.inlineWrapper element handlerName orig)).world.calls
      = (callFn wpre element epre orig).world.calls ∧
    (callFn w element event (Fn.inlineWrapper element handlerName orig)).event.defaultPrevented
      = (callFn wpre element epre orig).event.defaultPrevented ∧
    (callFn w element event (Fn.inlineWrapper element handlerName orig)).event.preventDefaultCalls
      = (callFn wpre element epre orig).event.preventDefaultCalls ∧
    ((callFn wpre element epre orig).thrown ≠ none →
      callFn w element event (Fn.inlineWrapper element handlerName orig) = callFn wpre element epre orig) := by
  intro chain chainId epre wpre0 wpre
  by_cases hc : chain.contains chainId = true
  · have he : epre = { event.stopPropagation with inlineTrackerChain := some chain } := by
      simp only [epre, hc, if_true]
    have hw : wpre = w := by simp only [wpre, hc, if_true]
    have heq : callFn w element event (Fn.inlineWrapper element handlerName orig)
        = callFn w element { event.stopPropagation with inlineTrackerChain := some chain }
            orig := by
      rw [callFn]
      simp only [chain, chainId] at hc
      simp only [hc, if_true, chain]
    rw [he, hw, heq]
    exact ⟨rfl, rfl, rfl, rfl, rfl, rfl, fun _ => rfl⟩
  · have he : epre
        = { event.stopPropagation with inlineTrackerChain := some (chain ++ [chainId]) } := by
      simp only [epre, hc, Bool.false_eq_true, if_false]
    have hw : wpre = (if (getStackTrace w != "" && w.logLevels.stack) = true
        then addLog (addLog w Level.info (Msg.inlineTriggered handlerName (selectorOf element)))
          Level.stack (Msg.stackText (getStackTrace w))
        else addLog w Level.info (Msg.inlineTriggered handlerName (selectorOf element))) := by
      simp only [wpre, wpre0, hc, Bool.false_eq_true, if_false]
    have hw2 : (if (getStackTrace w != "" && w.logLevels.stack) = true
        then addLog (addLog w Level.info (Msg.inlineTriggered handlerName (selectorOf element)))
          Level.stack (Msg.stackText (getStackTrace w))
        else addLog w Level.info (Msg.inlineTriggered handlerName (selectorOf element))).calls
        = w.calls := by
      split
      · rw [addLog_calls, addLog_calls]
      · rw [addLog_calls]
    rw [he, hw]
    refine ⟨hw2, ?_⟩
    rw [callFn]
    simp only [chain, chainId] at hc
    simp only [hc, Bool.false_eq_true, if_false, chain, chainId]
    cases ht : (callFn (if (getStackTrace w != "" && w.logLevels.stack) = true
        then addLog (addLog w Level.info (Msg.inlineTriggered handlerName (selectorOf element)))
          Level.stack (Msg.stackText (getStackTrace w))
        else addLog w Level.info (Msg.inlineTriggered handlerName (selectorOf element))) element
        { event.stopPropagation with
          inlineTrackerChain := some ((event.stopPropagation).inlineTrackerChain.getD []
            ++ [element.tagName ++ "#" ++ handlerName]) } orig).thrown with
    | some e => exact ⟨rfl, ht, rfl, rfl, rfl, fun _ => rfl⟩
    | none =>
      exact ⟨rfl, rfl, epilogue_calls _ _ _ _ _, rfl, rfl, fun h => absurd rfl h⟩

/-- The proxy handler of the patched setter: it calls the assigned function
once, on its own receiver and on the event it received, on which it has
called `stopPropagation()`; its outcome is the outcome of that call; when the
call raises, nothing happens after it. -/
theorem proxyHandler_passes_through (w : World) (this : ElemInfo) (prop : String)
    (orig : Fn) (event : Event) :
    let epre : Event := event.stopPropagation
    let wpre : World := addLog w Level.info (Msg.inlineTriggered prop (selectorOf this))
    wpre.calls = w.calls ∧
    (callFn w this event (Fn.proxyHandler prop orig)).result
      = (callFn wpre this epre orig).result ∧
    (callFn w this event (Fn.proxyHandler prop orig)).thrown
      = (callFn wpre this epre orig).thrown ∧
    (callFn w this event (Fn.proxyHandler prop orig)).world.calls
      = (callFn wpre this epre orig).world.calls ∧
    (callFn w this event (Fn.proxyHandler prop orig)).event.defaultPrevented
      = (callFn wpre this epre orig).event.defaultPrevented ∧
    (callFn w this event (Fn.proxyHandler prop orig)).event.preventDefaultCalls
      = (callFn wpre this epre orig).event.preventDefaultCalls ∧
    ((callFn wpre this epre orig).thrown ≠ none →
      callFn w this event (Fn.proxyHandler prop orig) = callFn wpre this epre orig) := by
  intro epre wpre
  refine ⟨addLog_calls _ _ _, ?_⟩
  rw [callFn]
  simp only [epre, wpre]
  cases ht : (callFn (addLog w Level.info (Msg.inlineTriggered prop (selectorOf this))) this
      event.stopPropagation orig).thrown with
  | some e => exact ⟨rfl, ht, rfl, rfl, rfl, fun _ => rfl⟩
  | none =>
    exact ⟨rfl, rfl, epilogue_calls _ _ _ _ _, rfl, rfl, fun h => absurd rfl h⟩

theorem callFn_user (w : World) (this : ElemInfo) (event : Event) (f : UserFn) :
    (callFn w this event (Fn.user f)).world.calls = w.calls ++ [(f.fid, this.uid)] ∧
    (callFn w this event (Fn.user f)).result = (if f.throws then none else some f.result) ∧
    (callFn w this event (Fn.user f)).thrown
      = (if f.throws then some (JsError.userError f.fid) else none) := by
  rw [callFn]
  cases f.throws <;> exact ⟨rfl, rfl, rfl⟩

/-- C25: the wrapper of `monitorInlineEventHandlers`, invoked on the element
it was installed on, and the proxy handler of the patched setter, invoked on
any receiver, call the original handler on that receiver and on the event
received.  By the time of the call the wrapper has called `stopPropagation()`
on the event (and the wrapper of `monitorInlineEventHandlers` has put its
chain id into the event's `_inlineTrackerChain`) and has logged the trigger;
nothing else of the event differs from what was received.  The wrapper
returns what the original returns and raises what it raises, and the event
comes back default-prevented exactly as the original left it.  When the
original raises, the state and the event the wrapper leaves are those the
original left, so nothing is logged after the call.  For a function of the
page as original, it is called exactly once. -/
theorem wrapped_handler_passes_through :
    (∀ (w : World) (element : ElemInfo) (handlerName : String) (orig : Fn) (event : Event),
      let chain := (event.stopPropagation).inlineTrackerChain.getD []
      let chainId := element.tagName ++ "#" ++ handlerName
      let epre : Event := { event.stopPropagation with inlineTrackerChain := some (if chain.contains chainId then chain else chain ++ [chainId]) }
      let wlog : World := addLog w Level.info (Msg.inlineTriggered handlerName (selectorOf element))
      let wpre : World := if chain.contains chainId then w else if getStackTrace w != "" && w.logLevels.stack then addLog wlog Level.stack (Msg.stackText (getStackTrace w)) else wlog
      wpre.calls = w.calls ∧
      (callFn w element event (Fn.inlineWrapper element handlerName orig)).result
        = (callFn wpre element epre orig).result ∧
      (callFn w element event (Fn.inlineWrapper element handlerName orig)).thrown
        = (callFn wpre element epre orig).thrown ∧
      (callFn w element event (Fn.inlineWrapper element handlerName orig)).world.calls
        = (callFn wpre element epre orig).world.calls ∧
      (callFn w element event (Fn.inlineWrapper element handlerName orig)).event.defaultPrevented
        = (callFn wpre element epre orig).event.defaultPrevented ∧
      (callFn w element event (Fn.inlineWrapper element handlerName orig)).event.preventDefaultCalls
        = (callFn wpre element epre orig).event.preventDefaultCalls ∧
      ((callFn wpre element epre orig).thrown ≠ none →
        callFn w element event (Fn.inlineWrapper element handlerName orig) = callFn wpre element epre orig)) ∧
    (∀ (w : World) (this : ElemInfo) (prop : String) (orig : Fn) (event : Event),
      let epre : Event := event.stopPropagation
      let wpre : World := addLog w Level.info (Msg.inlineTriggered prop (selectorOf this))
      wpre.calls = w.calls ∧
      (callFn w this event (Fn.proxyHandler prop orig)).result
        = (callFn wpre this epre orig).result ∧
      (callFn w this event (Fn.proxyHandler prop orig)).thrown
        = (callFn wpre this epre orig).thrown ∧
      (callFn w this event (Fn.proxyHandler prop orig)).world.calls
        = (callFn wpre this epre orig).world.calls ∧
      (callFn w this event (Fn.proxyHandler prop orig)).event.defaultPrevented
        = (callFn wpre this epre orig).event.defaultPrevented ∧
      (callFn w this event (Fn.proxyHandler prop orig)).event.preventDefaultCalls
        = (callFn wpre this epre orig).event.preventDefaultCalls ∧
      ((callFn wpre this epre orig).thrown ≠ none →
        callFn w this event (Fn.proxyHandler prop orig) = callFn wpre this epre orig)) ∧
    (∀ (w : World) (element : ElemInfo) (handlerName : String) (f : UserFn) (event : Event),
      (callFn w element event (Fn.inlineWrapper element handlerName (Fn.user f))).world.calls
        = w.calls ++ [(f.fid, element.uid)] ∧
      (callFn w element event (Fn.inlineWrapper element handlerName (Fn.user f))).result
        = (if f.throws then none else some f.result) ∧
      (callFn w element event (Fn.inlineWrapper element handlerName (Fn.user f))).thrown
        = (if f.throws then some (JsError.userError f.fid) else none)) ∧
    (∀ (w : World) (this : ElemInfo) (prop : String) (f : UserFn) (event : Event),
      (callFn w this event (Fn.proxyHandler prop (Fn.user f))).world.calls
        = w.calls ++ [(f.fid, this.uid)] ∧
      (callFn w this event (Fn.proxyHandler prop (Fn.user f))).result
        = (if f.throws then none else some f.result) ∧
      (callFn w this event (Fn.proxyHandler prop (Fn.user f))).thrown
        = (if f.throws then some (JsError.userError f.fid) else none)) := by
  refine ⟨inlineWrapper_passes_through, proxyHandler_passes_through, ?_, ?_⟩
  · intro w element handlerName f event
    obtain ⟨hcalls, hres, hthrown, hc, _⟩ :=
      inlineWrapper_passes_through w element handlerName (Fn.user f) event
    simp only at hcalls hres hthrown hc
    rw [hres, hthrown, hc]
    have hu := callFn_user
      (if ((event.stopPropagation).inlineTrackerChain.getD []).contains
          (element.tagName ++ "#" ++ handlerName) = true then w
        else if (getStackTrace w != "" && w.logLevels.stack) = true then
          addLog (addLog w Level.info (Msg.inlineTriggered handlerName (selectorOf element)))
            Level.stack (Msg.stackText (getStackTrace w))
        else addLog w Level.info (Msg.inlineTriggered handlerName (selectorOf element)))
      element
      { event.stopPropagation with inlineTrackerChain := some (if ((event.stopPropagation).inlineTrackerChain.getD []).contains (element.tagName ++ "#" ++ handlerName) = true then (event.stopPropagation).inlineTrackerChain.getD [] else (event.stopPropagation).inlineTrackerChain.getD [] ++ [element.tagName ++ "#" ++ handlerName]) }
      f
    rw [hu.1, hu.2.1, hu.2.2, hcalls]
    exact ⟨rfl, rfl, rfl⟩
  · intro w this prop f event
    obtain ⟨hcalls, hres, hthrown, hc, _⟩ :=
      proxyHandler_passes_through w this prop (Fn.user f) event
    have hu := callFn_user (addLog w Level.info (Msg.inlineTriggered prop (selectorOf this)))
      this event.stopPropagation f
    rw [hres, hthrown, hc, hu.1, hu.2.1, hu.2.2, hcalls]
    exact ⟨rfl, rfl, rfl⟩

/-- Witness for C25: in the session of the scenario, the proxy handler around
a function of the page that raises leaves the state and the event that
function left when called on the button and on the click with its propagation
stopped. -/
theorem wrapped_handler_passes_through_witness :
    (callFn (addLog clickSession Level.info (Msg.inlineTriggered "onclick" (selectorOf buttonInfo)))
        buttonInfo clickOnButton.stopPropagation
        (Fn.user ⟨13, false, false, true, 0⟩)).thrown ≠ none ∧
    callFn clickSession buttonInfo clickOnButton
        (Fn.proxyHandler "onclick" (Fn.user ⟨13, false, false, true, 0⟩))
      = callFn (addLog clickSession Level.info
            (Msg.inlineTriggered "onclick" (selectorOf buttonInfo)))
          buttonInfo clickOnButton.stopPropagation (Fn.user ⟨13, false, false, true, 0⟩) :=
  ⟨Option.some_ne_none _,
   (wrapped_handler_passes_through.2.1 clickSession buttonInfo "onclick"
      (Fn.user ⟨13, false, false, true, 0⟩) clickOnButton).2.2.2.2.2.2
     (Option.some_ne_none _)⟩

/-! ## C29 -/

theorem startsWith_first (h p q : String) (c d : Char) (ps qs : List Char)
    (hp : p.data = c :: ps) (hq : q.data = d :: qs) (hcd : c ≠ d)
    (h1 : startsWith h p = true) : startsWith h q = false := by
  unfold startsWith at *
  rw [hp] at h1
  rw [hq]
  cases hd : h.data with
  | nil => rw [hd] at h1; simp [List.isPrefixOf] at h1
  | cons x xs =>
    rw [hd] at h1
    simp only [List.isPrefixOf, Bool.and_eq_true, beq_iff_eq] at h1
    have hx : (d == x) = false := by
      rw [← h1.1]
      simpa using (fun h : d = c => hcd h.symm)
    simp [List.isPrefixOf, hx]

/-- The redirect of `classifyLink` agrees with the specified one. -/
theorem classifyLink_redirect (loc : Location) (h : String) (target : Option String) :
    (classifyLink loc h (!(truthy target) || target != some "_blank")).2.map Prod.fst
      = if claimedRedirect target h then some (claimedRedirectUrl loc h) else none := by
  have hnb : (!(truthy target) || target != some "_blank") = (target != some "_blank") := by
    cases target with
    | none => rfl
    | some t =>
      by_cases ht : t = "_blank"
      · subst ht; decide
      · have : (some t != some "_blank") = true := by simpa using ht
        rw [this, Bool.or_true]
  rw [hnb]
  unfold classifyLink claimedRedirect claimedRedirectUrl
  by_cases h1 : startsWith h "#" = true
  · have hj := startsWith_first h "#" "javascript:" '#' 'j' [] _ rfl rfl (by decide) h1
    have hm := startsWith_first h "#" "mailto:" '#' 'm' [] _ rfl rfl (by decide) h1
    have ht := startsWith_first h "#" "tel:" '#' 't' [] _ rfl rfl (by decide) h1
    simp only [h1, hj, hm, ht, if_true, Bool.not_false, Bool.and_true]
    cases (target != some "_blank") <;> rfl
  · have h1f : startsWith h "#" = false := by simpa using h1
    simp only [h1f, Bool.false_eq_true, if_false]
    by_cases h2 : startsWith h "javascript:" = true
    · simp [h2]
    · have h2f : startsWith h "javascript:" = false := by simpa using h2
      simp only [h2f, Bool.false_eq_true, if_false, Bool.not_false, Bool.and_true]
      by_cases h3 : startsWith h "mailto:" = true
      · simp [h3]
      · have h3f : startsWith h "mailto:" = false := by simpa using h3
        simp only [h3f, Bool.false_eq_true, if_false, Bool.not_false, Bool.and_true]
        by_cases h4 : startsWith h "tel:" = true
        · simp [h4]
        · have h4f : startsWith h "tel:" = false := by simpa using h4
          simp only [h4f, Bool.false_eq_true, if_false, Bool.not_false, Bool.and_true]
          split
          · cases (target != some "_blank") <;> rfl
          · cases (target != some "_blank") <;> rfl

theorem addLog_browsing (w : World) (level : Level) (msg : Msg) :
    (addLog w level msg).openedTabs = w.openedTabs ∧
    (addLog w level msg).location = w.location := by
  unfold addLog
  split
  · split <;> exact ⟨rfl, rfl⟩
  · exact ⟨rfl, rfl⟩

theorem ite_browsing (c : Prop) [Decidable c] (a b x : World)
    (ha : a.openedTabs = x.openedTabs ∧ a.location = x.location)
    (hb : b.openedTabs = x.openedTabs ∧ b.location = x.location) :
    (if c then a else b).openedTabs = x.openedTabs ∧ (if c then a else b).location = x.location := by
  split
  · exact ha
  · exact hb

theorem analyzeInteractive_browsing (w : World) (chain : List ElemInfo) :
    (analyzeInteractive w chain).openedTabs = w.openedTabs ∧
    (analyzeInteractive w chain).location = w.location := by
  unfold analyzeInteractive
  split
  · exact ⟨rfl, rfl⟩
  · split
    · simp only [setTimeout]
      apply ite_browsing
      · exact addLog_browsing w _ _
      · exact ⟨(addLog_browsing _ _ _).1.trans (addLog_browsing w _ _).1,
          (addLog_browsing _ _ _).2.trans (addLog_browsing w _ _).2⟩
    · exact ⟨rfl, rfl⟩

theorem analyzeImage_browsing (w : World) (chain : List ElemInfo) :
    (analyzeImage w chain).openedTabs = w.openedTabs ∧
    (analyzeImage w chain).location = w.location := by
  unfold analyzeImage
  split
  · exact ⟨rfl, rfl⟩
  · next img _ =>
    simp only
    have h1 := addLog_browsing w Level.info (Msg.imageClicked (selectorOf img))
    have h2 : ∀ (o : Option ElemInfo),
        (match o with
          | some par => addLog (addLog w Level.info (Msg.imageClicked (selectorOf img)))
              Level.info (Msg.imageParentMayOpenPopup (selectorOf par))
          | none => addLog w Level.info (Msg.imageClicked (selectorOf img))).openedTabs
          = w.openedTabs ∧
        (match o with
          | some par => addLog (addLog w Level.info (Msg.imageClicked (selectorOf img)))
              Level.info (Msg.imageParentMayOpenPopup (selectorOf par))
          | none => addLog w Level.info (Msg.imageClicked (selectorOf img))).location
          = w.location := by
      intro o
      cases o with
      | none => exact h1
      | some par =>
        exact ⟨(addLog_browsing _ _ _).1.trans h1.1, (addLog_browsing _ _ _).2.trans h1.2⟩
    apply ite_browsing
    · exact ⟨(addLog_browsing _ _ _).1.trans (h2 _).1, (addLog_browsing _ _ _).2.trans (h2 _).2⟩
    · exact h2 _

/-- What the link part of the click analyzer does to the opened tabs and to
the event, for a link with a non-empty href. -/
theorem analyzeLink_effect (w : World) (event : Event) (link : ElemInfo) (h : String)
    (hlink : closest event.closestChain (hasTag "a") = some link)
    (hhref : getAttribute link "href" = some h) (hne : h ≠ "") :
    (analyzeLink w event).1.openedTabs
      = w.openedTabs ++ ((classifyLink w.location h
          (!(truthy (getAttribute link "target"))
            || getAttribute link "target" != some "_blank")).2.map Prod.fst).toList ∧
    (analyzeLink w event).2.preventDefaultCalls
      = event.preventDefaultCalls + (if (classifyLink w.location h
          (!(truthy (getAttribute link "target"))
            || getAttribute link "target" != some "_blank")).2.isSome then 1 else 0) := by
  unfold analyzeLink
  simp only [hlink, hhref, hne, if_false]
  cases hcls : (classifyLink w.location h (!(truthy (getAttribute link "target"))
      || getAttribute link "target" != some "_blank")).2 with
  | none =>
    simp only [Option.isSome_none, Bool.false_eq_true, if_false, setTimeout]
    constructor
    · show _ = w.openedTabs ++ []
      rw [List.append_nil]
      exact (addLog_browsing _ _ _).1.trans
        (ite_browsing _ _ _ w (addLog_browsing w _ _) ⟨rfl, rfl⟩).1
    · simp
  | some um =>
    obtain ⟨url, msg⟩ := um
    simp only [Option.isSome_some, if_true, setTimeout]
    constructor
    · show _ = w.openedTabs ++ [url]
      exact (ite_browsing _ _ _ (addLog (windowOpen w url) Level.action msg)
        ⟨(addLog_browsing _ _ _).1, (addLog_browsing _ _ _).2⟩ ⟨rfl, rfl⟩).1.trans
        (addLog_browsing _ _ _).1
    · simp [Event.preventDefault]

/-- C29: for every click on an element outside the tracker's own UI, in scope,
whose nearest enclosing link has a non-empty href `h`: the click analyzer
completes; when the link's `target` attribute is not `_blank` and `h` starts
with none of `javascript:`, `mailto:`, `tel:`, it calls `preventDefault` once
and opens exactly one tab, on the current URL without its fragment plus `h`
when `h` starts with `#`, on `h` when `h` starts with `http` or `//`, on the
origin plus `h` when `h` starts with `/`, and on the origin, the directory of
the current path and `h` otherwise; in every other case it neither calls
`preventDefault` nor opens a tab. -/
theorem link_click_redirects (w : World) (event : Event) (t link : ElemInfo) (h : String)
    (htarget : event.target = some (NodeRef.elem t))
    (hui : isEventTrackerElement event.target event.closestChain = Except.ok false)
    (hscope : shouldTrackEvent w event = true)
    (hlink : closest event.closestChain (hasTag "a") = some link)
    (hhref : getAttribute link "href" = some h) (hne : h ≠ "") :
    (handleClickWithDetails w event).thrown = none ∧
    (claimedRedirect (getAttribute link "target") h = true →
      (handleClickWithDetails w event).event.preventDefaultCalls
          = event.preventDefaultCalls + 1 ∧
      (handleClickWithDetails w event).world.openedTabs
          = w.openedTabs ++ [claimedRedirectUrl w.location h]) ∧
    (claimedRedirect (getAttribute link "target") h = false →
      (handleClickWithDetails w event).event.preventDefaultCalls = event.preventDefaultCalls ∧
      (handleClickWithDetails w event).world.openedTabs = w.openedTabs) := by
  have hw : handleClickWithDetails w event
      = ⟨analyzeImage (analyzeLink (analyzeInteractive w event.closestChain)
            event.stopPropagation).1 event.closestChain,
          (analyzeLink (analyzeInteractive w event.closestChain) event.stopPropagation).2,
          none⟩ := by
    unfold handleClickWithDetails
    rw [hui]
    simp only [hscope, Bool.not_true, Bool.false_eq_true, if_false, htarget]
  have hi := analyzeInteractive_browsing w event.closestChain
  have hl := analyzeLink_effect (analyzeInteractive w event.closestChain) event.stopPropagation
    link h hlink hhref hne
  have hcls := classifyLink_redirect w.location h (getAttribute link "target")
  have himg := analyzeImage_browsing
    (analyzeLink (analyzeInteractive w event.closestChain) event.stopPropagation).1
    event.closestChain
  rw [hi.2] at hl
  rw [hw]
  refine ⟨rfl, fun hr => ?_, fun hr => ?_⟩
  · rw [hr, if_pos rfl] at hcls
    have hsome : (classifyLink w.location h (!(truthy (getAttribute link "target"))
        || getAttribute link "target" != some "_blank")).2.isSome = true := by
      cases hc : (classifyLink w.location h (!(truthy (getAttribute link "target"))
          || getAttribute link "target" != some "_blank")).2 with
      | none => rw [hc] at hcls; simp at hcls
      | some x => rfl
    refine ⟨?_, ?_⟩
    · show (analyzeLink _ _).2.preventDefaultCalls = _
      rw [hl.2, hsome, if_pos rfl]
      rfl
    · show (analyzeImage _ _).openedTabs = _
      rw [himg.1, hl.1, hcls, hi.1]
      rfl
  · rw [hr] at hcls
    simp only [Bool.false_eq_true, if_false] at hcls
    have hnone : (classifyLink w.location h (!(truthy (getAttribute link "target"))
        || getAttribute link "target" != some "_blank")).2.isSome = false := by
      cases hc : (classifyLink w.location h (!(truthy (getAttribute link "target"))
          || getAttribute link "target" != some "_blank")).2 with
      | none => rfl
      | some x => rw [hc] at hcls; simp at hcls
    refine ⟨?_, ?_⟩
    · show (analyzeLink _ _).2.preventDefaultCalls = _
      rw [hl.2, hnone]
      rfl
    · show (analyzeImage _ _).openedTabs = _
      rw [himg.1, hl.1, hcls, hi.1]
      exact List.append_nil _

/-- Witness for C29: a click on a link with href `next.html` inside the
tracked div; the tab opened is the page's directory plus the href. -/
theorem link_click_redirects_witness :
    clickOnLink.target = some (NodeRef.elem linkInfo) ∧
    isEventTrackerElement clickOnLink.target clickOnLink.closestChain = Except.ok false ∧
    shouldTrackEvent (rootedWorld [("click", true)]) clickOnLink = true ∧
    claimedRedirect (getAttribute linkInfo "target") "next.html" = true ∧
    (handleClickWithDetails (rootedWorld [("click", true)]) clickOnLink).world.openedTabs
      = (rootedWorld [("click", true)]).openedTabs
        ++ [claimedRedirectUrl (rootedWorld [("click", true)]).location "next.html"] :=
  ⟨rfl, rfl, by decide!, by decide!,
    ((link_click_redirects (rootedWorld [("click", true)]) clickOnLink linkInfo linkInfo
      "next.html" rfl rfl (by decide!) rfl rfl (by decide)).2.1 (by decide!)).2⟩

/-! ## C30 -/

mutual
theorem checkForDialogOrPopupCalls_world (w : World) (ancestors : List ElemInfo) :
    (e : Elem) →
      (checkForDialogOrPopupCalls w ancestors e).1 = checkForDialogOrPopup w ancestors e
  | .mk info ts cs => by
    unfold checkForDialogOrPopupCalls checkForDialogOrPopup
    split
    · split
      · rfl
      · exact checkChildrenCalls_world _ _ _ cs
    · rfl
theorem checkChildNodesForPopupsCalls_world (w : World) (ancestors : List ElemInfo)
    (depth : Nat) :
    (e : Elem) →
      (checkChildNodesForPopupsCalls w ancestors depth e).1
        = checkChildNodesForPopups w ancestors depth e
  | .mk info ts cs => by
    unfold checkChildNodesForPopupsCalls checkChildNodesForPopups
    split
    · rfl
    · exact checkChildrenCalls_world _ _ _ cs
theorem checkChildrenCalls_world (w : World) (chain : List ElemInfo) (depth : Nat) :
    (es : List Elem) → (checkChildrenCalls w chain depth es).1 = checkChildren w chain depth es
  | [] => by unfold checkChildrenCalls checkChildren; rfl
  | c :: rest => by
    unfold checkChildrenCalls checkChildren
    simp only
    rw [checkChildrenCalls_world _ chain depth rest,
      checkChildNodesForPopupsCalls_world _ chain (depth - 1) c,
      checkForDialogOrPopupCalls_world w chain c]
end

theorem pow_bound_step (a b r k n : Nat) (ha : a + 1 ≤ 2 ^ (k + 1)) (hb : b + 2 ≤ 2 ^ (k + 1))
    (hr : r + 2 ≤ 2 ^ (n + 1)) : a + b + r + 2 ≤ 2 ^ (k + n + 1 + 1) := by
  have hk : 1 ≤ 2 ^ k := Nat.one_le_two_pow
  have hn : 1 ≤ 2 ^ n := Nat.one_le_two_pow
  have hkn : 2 ^ (k + n + 1 + 1) = 4 * (2 ^ k * 2 ^ n) := by
    rw [pow_succ, pow_succ, pow_add]; ring
  have hk1 : 2 ^ (k + 1) = 2 * 2 ^ k := by rw [pow_succ]; ring
  have hn1 : 2 ^ (n + 1) = 2 * 2 ^ n := by rw [pow_succ]; ring
  rw [hkn]
  rw [hk1] at ha hb
  rw [hn1] at hr
  have hprod : 2 ^ k + 2 ^ n ≤ 2 ^ k * 2 ^ n + 1 := by
    obtain ⟨x, hx⟩ : ∃ x, 2 ^ k = x + 1 := ⟨2 ^ k - 1, by omega⟩
    obtain ⟨y, hy⟩ : ∃ y, 2 ^ n = y + 1 := ⟨2 ^ n - 1, by omega⟩
    rw [hx, hy]
    nlinarith [Nat.zero_le (x * y)]
  omega

mutual
theorem checkForDialogOrPopupCalls_bound (w : World) (ancestors : List ElemInfo) :
    (e : Elem) →
      (checkForDialogOrPopupCalls w ancestors e).2 + 1 ≤ 2 ^ (e.querySelectorAll.length + 1)
  | .mk info ts cs => by
    have hpow : 2 ≤ 2 ^ ((Elem.querySelectorAllList cs).length + 1) := by
      have : 1 ≤ 2 ^ (Elem.querySelectorAllList cs).length := Nat.one_le_two_pow
      rw [pow_succ]; omega
    unfold checkForDialogOrPopupCalls Elem.querySelectorAll
    split
    · split
      · exact hpow
      · have h := checkChildrenCalls_bound (maybePopup w info).2 (info :: ancestors) 2 cs
        simp only
        omega
    · exact hpow
theorem checkChildNodesForPopupsCalls_bound (w : World) (ancestors : List ElemInfo)
    (depth : Nat) :
    (e : Elem) →
      (checkChildNodesForPopupsCalls w ancestors depth e).2 + 2
        ≤ 2 ^ (e.querySelectorAll.length + 1)
  | .mk info ts cs => by
    have hpow : 2 ≤ 2 ^ ((Elem.querySelectorAllList cs).length + 1) := by
      have : 1 ≤ 2 ^ (Elem.querySelectorAllList cs).length := Nat.one_le_two_pow
      rw [pow_succ]; omega
    unfold checkChildNodesForPopupsCalls Elem.querySelectorAll
    split
    · exact hpow
    · exact checkChildrenCalls_bound w (info :: ancestors) depth cs
theorem checkChildrenCalls_bound (w : World) (chain : List ElemInfo) (depth : Nat) :
    (es : List Elem) →
      (checkChildrenCalls w chain depth es).2 + 2 ≤ 2 ^ ((Elem.querySelectorAllList es).length + 1)
  | [] => by
    unfold checkChildrenCalls Elem.querySelectorAllList
    show 0 + 2 ≤ 2 ^ (0 + 1)
    norm_num
  | c :: rest => by
    unfold checkChildrenCalls Elem.querySelectorAllList
    simp only [List.length_cons, List.length_append]
    exact pow_bound_step _ _ _ _ _ (checkForDialogOrPopupCalls_bound w chain c)
      (checkChildNodesForPopupsCalls_bound _ chain (depth - 1) c)
      (checkChildrenCalls_bound _ chain depth rest)
end

/-- C30: on every element tree, from every state, `checkForDialogOrPopup`
returns: the run that counts the calls of `checkForDialogOrPopup` reaches the
same state as the method, after at least one and fewer than `2 ^ n` calls,
`n` being the number of elements of the tree, although a call on a child
starts with a depth of 2 again.  On the chain of four elements of the
scenario the method is called seven times. -/
theorem popup_check_terminates :
    (∀ (w : World) (ancestors : List ElemInfo) (e : Elem),
      (checkForDialogOrPopupCalls w ancestors e).1 = checkForDialogOrPopup w ancestors e ∧
      1 ≤ (checkForDialogOrPopupCalls w ancestors e).2 ∧
      (checkForDialogOrPopupCalls w ancestors e).2 < 2 ^ (e.querySelectorAll.length + 1)) ∧
    deepTree.querySelectorAll.length + 1 = 4 ∧
    (checkForDialogOrPopupCalls clickSession divChain deepTree).2 = 7 := by
  refine ⟨fun w ancestors e => ⟨checkForDialogOrPopupCalls_world w ancestors e, ?_,
    checkForDialogOrPopupCalls_bound w ancestors e⟩, by decide!, by decide!⟩
  cases e with
  | mk info ts cs =>
    unfold checkForDialogOrPopupCalls
    split
    · split
      · exact Nat.le_refl _
      · exact Nat.le_add_left _ _
    · exact Nat.le_refl _

/-! ## The ledger through a session -/

theorem keepsLedger_trans (a b c : World) (h1 : KeepsLedger a b) (h2 : KeepsLedger b c) :
    KeepsLedger a c := by
  unfold KeepsLedger at *
  rw [h2, h1]

theorem addLog_ledger (w : World) (level : Level) (msg : Msg) :
    KeepsLedger w (addLog w level msg) := by
  unfold addLog KeepsLedger
  split
  · split <;> rfl
  · rfl

theorem proxyElementEvents_ledger (w : World) (element : ElemInfo) :
    KeepsLedger w (proxyElementEvents w element) := by
  unfold proxyElementEvents KeepsLedger
  apply foldl_frame World.ledger
  intro w1 prop
  split <;> rfl

mutual
theorem applyProxies_ledger (w : World) : (e : Elem) → KeepsLedger w (applyProxies w e)
  | .mk info _ cs => by
    unfold applyProxies
    split
    · rfl
    · exact keepsLedger_trans _ _ _ (proxyElementEvents_ledger w info)
        (applyProxiesList_ledger _ cs)
theorem applyProxiesList_ledger (w : World) :
    (es : List Elem) → KeepsLedger w (applyProxiesList w es)
  | [] => by unfold applyProxiesList; rfl
  | c :: cs => by
    unfold applyProxiesList
    exact keepsLedger_trans _ _ _ (applyProxies_ledger w c) (applyProxiesList_ledger _ cs)
end

/-- `startTracking(el)` is the listener installation in the start state
followed by the rest of the method. -/
theorem startTracking_some_eq (w : World) (el : Elem) :
    startTracking w (some el)
      = (installListeners (sessionStart (if w.isTracking then stopTracking w else Run.ok w).world el)
          (getActiveEventTypes
            (sessionStart (if w.isTracking then stopTracking w else Run.ok w).world el).selectedEventTypes)).andThen
        (sessionRest (getActiveEventTypes
            (sessionStart (if w.isTracking then stopTracking w else Run.ok w).world el).selectedEventTypes)
          el) := by
  have hthrown : (if w.isTracking then stopTracking w else Run.ok w).thrown = none := by
    cases h : w.isTracking
    · rfl
    · simpa using (stopTracking_fields w h).1
  unfold startTracking
  rw [run_andThen_ok _ _ hthrown]
  rfl

/-! ## C24 -/

theorem ok_andThen (w : World) (f : World → Run) : (Run.ok w).andThen f = f w := rfl

theorem ite_ok (c : Prop) [Decidable c] (a b : World) :
    (if c then Run.ok a else Run.ok b) = Run.ok (if c then a else b) := by
  split <;> rfl

theorem addBookkeeping_outside (w : World) (this : Receiver) (type : String)
    (listener : Option Callback) (options : Options)
    (hout : ∀ root, isTargetElement root this = false) :
    addBookkeeping w this type listener options = Run.ok w := by
  unfold addBookkeeping
  split
  · simp [hout]
  · rfl

theorem runAddEntry_outside (ep : EntryPoint) (w : World) (this : Receiver) (type : String)
    (listener : Option Callback) (options : Options)
    (hout : ∀ root, isTargetElement root this = false) :
    runAddEntry ep w this type listener options
      = Run.ok (hostAddEventListener w this type listener options) := by
  induction ep generalizing w with
  | original => rfl
  | wrapper d ih =>
    unfold runAddEntry
    rw [addBookkeeping_outside w this type listener options hout, ok_andThen]
    exact ih w

theorem callAdd_document (w : World) (type : String) (listener : Option Callback)
    (options : Options) :
    callAddEventListener w Receiver.document type listener options
      = Run.ok (hostAddEventListener w Receiver.document type listener options) :=
  runAddEntry_outside _ w _ type listener options (fun _ => rfl)

theorem callAdd_window (w : World) (type : String) (listener : Option Callback)
    (options : Options) :
    callAddEventListener w Receiver.window type listener options
      = Run.ok (hostAddEventListener w Receiver.window type listener options) :=
  runAddEntry_outside _ w _ type listener options (fun _ => rfl)

theorem forEachType_ok (g : World → String → World) (ts : List String) (w : World) :
    forEachType (fun w1 t => Run.ok (g w1 t)) ts w = Run.ok (ts.foldl g w) := by
  unfold forEachType
  induction ts generalizing w with
  | nil => rfl
  | cons t ts ih =>
    simp only [List.foldl_cons, ok_andThen]
    exact ih (g w t)

/-- The listener installation completes; when a navigation type is active it
ends with the four registrations on `window`. -/
theorem installListeners_navigation (w : World) (active : List String)
    (hany : active.any (fun t => navigationTypes.contains t) = true) :
    ∃ w5 : World, installListeners w active
      = Run.ok (navigationTypes.foldl
          (fun a t => hostAddEventListener a Receiver.window t (some Callback.navigation)
            Options.undefined) w5) := by
  unfold installListeners
  simp only [callAdd_document, callAdd_window, ok_andThen, forEachType_ok, ite_ok, hany, if_true]
  exact ⟨_, rfl⟩

theorem hostAdd_mem (w : World) (this : Receiver) (type : String) (cb : Callback)
    (options : Options) :
    (⟨this.toTargetRef, type, cb, options.captureFlag⟩ : Registration)
      ∈ (hostAddEventListener w this type (some cb) options).listeners ∧
    ∀ r ∈ w.listeners, r ∈ (hostAddEventListener w this type (some cb) options).listeners := by
  unfold hostAddEventListener
  simp only
  split
  · next h => exact ⟨by simpa using h, fun r hr => hr⟩
  · exact ⟨by simp, fun r hr => by simp [hr]⟩

theorem foldl_hostAdd_mem (ts : List String) (w : World) :
    (∀ r ∈ w.listeners, r ∈ (ts.foldl
      (fun a t => hostAddEventListener a Receiver.window t (some Callback.navigation)
        Options.undefined) w).listeners) ∧
    ∀ t ∈ ts, (⟨TargetRef.window, t, Callback.navigation, false⟩ : Registration)
      ∈ (ts.foldl (fun a t => hostAddEventListener a Receiver.window t
          (some Callback.navigation) Options.undefined) w).listeners := by
  induction ts generalizing w with
  | nil => exact ⟨fun r hr => hr, fun t ht => by simp at ht⟩
  | cons x xs ih =>
    simp only [List.foldl_cons]
    have hm := hostAdd_mem w Receiver.window x Callback.navigation Options.undefined
    have hi := ih (hostAddEventListener w Receiver.window x (some Callback.navigation)
      Options.undefined)
    refine ⟨fun r hr => hi.1 r (hm.2 r hr), fun t ht => ?_⟩
    rcases List.mem_cons.1 ht with h | h
    · rw [h]; exact hi.1 _ hm.1
    · exact hi.2 t h

theorem sessionRest_starts (active : List String) (el : Elem) (w4 : World) :
    Starts active w4 (sessionRest active el w4).world := by
  unfold sessionRest
  simp only
  apply andThen_rel _ (starts_trans _)
  · apply starts_trans _ _ _ _ (starts_of_frame _ _ _ (monitorInlineEventHandlers_frame w4 el))
    apply starts_trans _ _ _ _ (starts_of_frame _ _ _
      (addLog_frame { monitorInlineEventHandlers w4 el with mutationObserver := true } _ _))
    exact starts_of_grows _ _ (fun r hr => Or.inr hr) _ _ (detectUIFrameworks_grows _)
  · intro w7
    apply starts_trans _ _ _ _ (interceptEventTargetMethods_starts _ w7)
    apply starts_of_frame
    simp only [Run.ok]
    rw [addLog_frame, addLog_frame, addLog_frame, applyDOMProxies_frame]

theorem selected_mem_active (sel : Selection) (t : String) (h : selected sel t = true)
    (hown : objectPrototypeNames.contains t = false) :
    t ∈ getActiveEventTypes sel := by
  unfold getActiveEventTypes
  rw [List.mem_filter]
  refine ⟨?_, h⟩
  unfold selected at h
  cases hf : sel.find? (fun kv => kv.1 == t) with
  | none => rw [hf] at h; simp only [hown] at h; exact absurd h (by decide)
  | some kv =>
    have hmem := List.mem_of_find?_eq_some hf
    have hkey := List.find?_some hf
    have : kv.1 = t := by simpa using hkey
    rw [← this]
    exact List.mem_map_of_mem _ hmem

theorem sessionStart_fields (w0 : World) (el : Elem) :
    (sessionStart w0 el).selectedEventTypes = w0.selectedEventTypes ∧
    (sessionStart w0 el).page = w0.page ∧
    (sessionStart w0 el).preserveLogs = w0.preserveLogs ∧
    (sessionStart w0 el).trackedEvents = (if w0.preserveLogs then w0.trackedEvents else []) := by
  unfold sessionStart
  cases h : w0.preserveLogs <;> simp [h, clearLogs]

theorem stopped_selection (w : World) :
    (if w.isTracking then stopTracking w else Run.ok w).world.selectedEventTypes
      = w.selectedEventTypes := by
  cases h : w.isTracking
  · rfl
  · simpa using (stopTracking_fields w h).2.2.2.1

/-- C24: when one of `hashchange`, `popstate`, `pageshow`, `pagehide` is
selected, after `startTracking(el)` the navigation handler is registered on
`window` for each of the four types, whether or not a later step of
`startTracking` raises; and `handleNavigationEvent` returns every event as it
received it, so it calls neither `stopPropagation` nor `preventDefault`, and
it never raises. -/
theorem navigation_listeners_installed (w : World) (el : Elem) (t0 : String)
    (ht0 : t0 ∈ ["hashchange", "popstate", "pageshow", "pagehide"])
    (hsel : selected w.selectedEventTypes t0 = true) :
    (∀ t ∈ ["hashchange", "popstate", "pageshow", "pagehide"],
      (⟨TargetRef.window, t, Callback.navigation, false⟩ : Registration)
        ∈ (startTracking w (some el)).world.listeners) ∧
    (∀ (w1 : World) (event : Event),
      (handleNavigationEvent w1 event).event = event ∧
      (handleNavigationEvent w1 event).thrown = none) := by
  refine ⟨fun t ht => ?_, fun w1 event => ⟨rfl, rfl⟩⟩
  rw [startTracking_some_eq]
  have hs : (sessionStart (if w.isTracking then stopTracking w else Run.ok w).world
      el).selectedEventTypes = w.selectedEventTypes :=
    (sessionStart_fields _ el).1.trans (stopped_selection w)
  rw [hs]
  have hany : (getActiveEventTypes w.selectedEventTypes).any
      (fun t => navigationTypes.contains t) = true := by
    rw [List.any_eq_true]
    have hown : objectPrototypeNames.contains t0 = false := by
      simp only [List.mem_cons, List.mem_singleton, List.not_mem_nil, or_false] at ht0
      rcases ht0 with h | h | h | h <;> subst h <;> decide
    exact ⟨t0, selected_mem_active _ _ hsel hown, by simpa [navigationTypes] using ht0⟩
  obtain ⟨w5, hw5⟩ := installListeners_navigation
    (sessionStart (if w.isTracking then stopTracking w else Run.ok w).world el)
    (getActiveEventTypes w.selectedEventTypes) hany
  rw [hw5, ok_andThen]
  obtain ⟨news, hnews, _⟩ := (sessionRest_starts (getActiveEventTypes w.selectedEventTypes) el
    (navigationTypes.foldl (fun a t => hostAddEventListener a Receiver.window t
      (some Callback.navigation) Options.undefined) w5)).1
  rw [hnews]
  exact List.mem_append_left _ ((foldl_hostAdd_mem navigationTypes w5).2 t ht)

/-- Witness for C24: a fresh tracker with `popstate` selected. -/
theorem navigation_listeners_installed_witness :
    "popstate" ∈ ["hashchange", "popstate", "pageshow", "pagehide"] ∧
    selected (freshWorld [("popstate", true)] []).selectedEventTypes "popstate" = true ∧
    (⟨TargetRef.window, "pagehide", Callback.navigation, false⟩ : Registration)
      ∈ (startTracking (freshWorld [("popstate", true)] []) (some rootDiv)).world.listeners :=
  ⟨by decide, by decide,
    (navigation_listeners_installed (freshWorld [("popstate", true)] []) rootDiv "popstate"
      (by decide) (by decide)).1 "pagehide" (by decide)⟩

/-! ## The ledger through the teardown -/

mutual
theorem restoreElement_ledger (w : World) : (e : Elem) → KeepsLedger w (restoreElement w e)
  | .mk info _ cs => by
    unfold restoreElement
    split
    · rfl
    · refine keepsLedger_trans _ _ _ ?_ (restoreElementList_ledger _ cs)
      show World.ledger (List.foldl _ w _) = w.ledger
      apply foldl_frame
      intro w1 prop
      rfl
theorem restoreElementList_ledger (w : World) :
    (es : List Elem) → KeepsLedger w (restoreElementList w es)
  | [] => by unfold restoreElementList; rfl
  | c :: cs => by
    unfold restoreElementList
    exact keepsLedger_trans _ _ _ (restoreElement_ledger w c) (restoreElementList_ledger _ cs)
end

theorem ledger_events (a b : World) (h : KeepsLedger a b) :
    b.trackedEvents = a.trackedEvents := congrArg Prod.fst h

theorem addLog_events (w : World) (level : Level) (msg : Msg) :
    (addLog w level msg).trackedEvents = w.trackedEvents :=
  ledger_events _ _ (addLog_ledger w level msg)

theorem ite_events (c : Prop) [Decidable c] (a b x : World)
    (ha : a.trackedEvents = x.trackedEvents) (hb : b.trackedEvents = x.trackedEvents) :
    (if c then a else b).trackedEvents = x.trackedEvents := by
  split
  · exact ha
  · exact hb

theorem logPopup_events (w : World) (node : ElemInfo) :
    (logPopup w node).trackedEvents = w.trackedEvents := by
  unfold logPopup
  simp only
  have h2 : (if hasAttribute node "style" = true
      then addLog (addLog w Level.popup (Msg.popupDetected (selectorOf node))) Level.info
        (Msg.popupInlineStyle ((getAttribute node "style").getD ""))
      else addLog w Level.popup (Msg.popupDetected (selectorOf node))).trackedEvents
      = w.trackedEvents := by
    apply ite_events
    · exact (addLog_events _ _ _).trans (addLog_events _ _ _)
    · exact addLog_events _ _ _
  apply ite_events
  · exact h2
  · exact (addLog_events _ _ _).trans h2

theorem maybePopup_events (w : World) (element : ElemInfo) :
    (maybePopup w element).2.trackedEvents = w.trackedEvents := by
  unfold maybePopup
  simp only
  split
  · rfl
  · split <;> rfl

mutual
theorem checkForDialogOrPopup_events (w : World) (ancestors : List ElemInfo) :
    (e : Elem) → (checkForDialogOrPopup w ancestors e).trackedEvents = w.trackedEvents
  | .mk info ts cs => by
    unfold checkForDialogOrPopup
    split
    · split
      · exact (logPopup_events _ _).trans (maybePopup_events w info)
      · exact (checkChildren_events _ _ _ cs).trans (maybePopup_events w info)
    · rfl
theorem checkChildNodesForPopups_events (w : World) (ancestors : List ElemInfo) (depth : Nat) :
    (e : Elem) →
      (checkChildNodesForPopups w ancestors depth e).trackedEvents = w.trackedEvents
  | .mk info ts cs => by
    unfold checkChildNodesForPopups
    split
    · rfl
    · exact checkChildren_events w _ depth cs
theorem checkChildren_events (w : World) (chain : List ElemInfo) (depth : Nat) :
    (es : List Elem) → (checkChildren w chain depth es).trackedEvents = w.trackedEvents
  | [] => by unfold checkChildren; rfl
  | c :: rest => by
    unfold checkChildren
    exact (checkChildren_events _ chain depth rest).trans
      ((checkChildNodesForPopups_events _ chain (depth - 1) c).trans
        (checkForDialogOrPopup_events w chain c))
end

end DomEventTracker
